import Mathlib

/-!
# Marvell 88E6xxx AVB support (`drivers/net/dsa/mv88e6xxx/avb.c`)

A shallow embedding of `avb.c`: the register access facade, the priority
distribution routine, the family traffic-class enable and disable routines,
the family CBS parameter calculators and the enable and disable sequences,
with the properties established about them.

Conventions of the embedding.

* C `int` error codes are `Int`; `0` is success.
* A callback `int (*map)(u8 fpri, u8 qpri, void *context)` is a function
  `Nat → Nat → σ → Int × σ`, where `σ` is the state reachable through
  `context`; the two `u8` parameters receive their arguments reduced modulo 256.
* An integer division whose divisor is zero has no result: such a computation
  is `none`. So is a call through a null member of an operation table, and a
  call of a routine that the build configuration leaves undefined.
* The build option `CONFIG_NET_DSA_MV88E6XXX_SRP` is a Boolean argument `srp` of
  the routines whose text depends on it. The program is the one with the option
  set: with the option unset `mv88e6xxx_avb_set_port_avb_mode` calls a wrapper
  that has no definition, so `avb.c` does not build. For `srp = false` a routine
  of the embedding gives the text it has under the option, not the run of a
  program, and the properties of the behaviour are stated for `srp = true`.
-/

namespace Mv88e6xxx

/-! ## Constants and types -/

/-- Modelled from the spec: the constant `IEEE_8021Q_MAX_PRIORITIES` is defined
outside `src/`; the specification has eight frame priorities, 0 to 7, of which
six remain for the Legacy class. -/
def IEEE_8021Q_MAX_PRIORITIES : Nat := 8

/-- Modelled from the spec: the traffic class enumeration is declared outside
`src/`; the three classes are numbered as the design notes of `avb.h` number
them, legacy (0), lo (1) and hi (2). This is `MV88E6XXX_AVB_TC_LEGACY`. -/
def MV88E6XXX_AVB_TC_LEGACY : Fin 3 := 0

/-- Modelled from the spec: the index `MV88E6XXX_AVB_TC_LO`, class 1 of the
design notes of `avb.h`; the enumeration is declared outside `src/`. -/
def MV88E6XXX_AVB_TC_LO : Fin 3 := 1

/-- Modelled from the spec: the index `MV88E6XXX_AVB_TC_HI`, class 2 of the
design notes of `avb.h`; the enumeration is declared outside `src/`. -/
def MV88E6XXX_AVB_TC_HI : Fin 3 := 2

/-- Modelled from the spec: `struct mv88e6xxx_avb_priority_map` is declared
outside `src/`. An entry has the three members that `avb.c` reads, the frame
priority, the queue priority and the queue count of the class, as unsigned
values. -/
structure mv88e6xxx_avb_priority_map where
  fpri : Nat
  qpri : Nat
  count : Nat
deriving DecidableEq, Repr

/-- Modelled from the spec: `struct mv88e6xxx_avb_tc_policy` is declared outside
`src/`. The policy is its member `map`, an array of entries indexed by traffic
class. -/
structure mv88e6xxx_avb_tc_policy where
  map : Fin 3 → mv88e6xxx_avb_priority_map

/-- Conversion of an argument to a `u8` parameter. -/
def to_u8 (x : Nat) : Nat := x % 256

/-- Modelled from the spec: the macro `DIV_ROUND_UP` is defined outside `src/`;
it is the ceiling division of the specification, computed as
`((n) + (d) - 1) / (d)`. Here on unsigned operands; there is no result when `d`
is zero. -/
def DIV_ROUND_UP (n d : Nat) : Option Nat :=
  if d = 0 then none else some ((n + d - 1) / d)

/-! ## Priority distribution: `mv88e6xxx_qav_assign_qpri` -/

/-- The `for` loop of `mv88e6xxx_qav_assign_qpri`, with `n` iterations left to
run: the loop variable `fpri` is `IEEE_8021Q_MAX_PRIORITIES - n`. The result is
the value of `err` when the loop is left, with the state of the context: the
non-zero value of the call after which the loop breaks, or, when the loop runs
to its end, the 0 of the last call. -/
def qav_assign_qpri_loop {σ : Type} (policy : mv88e6xxx_avb_tc_policy)
    (map : Nat → Nat → σ → Int × σ) (tc0_base_qpri tc0_fpri_per_qpri : Nat) :
    Nat → Nat → σ → Int × σ
  | 0, _, context => (0, context)
  | n + 1, tc0_qcount, context =>
    let fpri := IEEE_8021Q_MAX_PRIORITIES - (n + 1)
    if (policy.map MV88E6XXX_AVB_TC_LO).fpri = fpri then
      let r := map (to_u8 fpri) (to_u8 (policy.map MV88E6XXX_AVB_TC_LO).qpri) context
      if r.1 ≠ 0 then r
      else qav_assign_qpri_loop policy map tc0_base_qpri tc0_fpri_per_qpri n tc0_qcount r.2
    else if (policy.map MV88E6XXX_AVB_TC_HI).fpri = fpri then
      let r := map (to_u8 fpri) (to_u8 (policy.map MV88E6XXX_AVB_TC_HI).qpri) context
      if r.1 ≠ 0 then r
      else qav_assign_qpri_loop policy map tc0_base_qpri tc0_fpri_per_qpri n tc0_qcount r.2
    else
      let qpri := tc0_base_qpri + tc0_qcount / tc0_fpri_per_qpri
      let r := map (to_u8 fpri) (to_u8 qpri) context
      if r.1 ≠ 0 then r
      else qav_assign_qpri_loop policy map tc0_base_qpri tc0_fpri_per_qpri n (tc0_qcount + 1) r.2

/-- The routine `mv88e6xxx_qav_assign_qpri`. The result is `none` when the
computation of `tc0_fpri_per_qpri` divides by zero, and otherwise the returned
`err` with the final state of the context. -/
def mv88e6xxx_qav_assign_qpri {σ : Type} (policy : mv88e6xxx_avb_tc_policy)
    (map : Nat → Nat → σ → Int × σ) (context : σ) : Option (Int × σ) :=
  let tc0_base_qpri := (policy.map MV88E6XXX_AVB_TC_LEGACY).qpri
  match DIV_ROUND_UP (IEEE_8021Q_MAX_PRIORITIES - 2)
      (policy.map MV88E6XXX_AVB_TC_LEGACY).count with
  | none => none
  | some tc0_fpri_per_qpri =>
    some (qav_assign_qpri_loop policy map tc0_base_qpri tc0_fpri_per_qpri
      IEEE_8021Q_MAX_PRIORITIES 0 context)

/-! ### Observing the calls of the sink -/

/-- One invocation of the sink: the two arguments it received and the value
it returned. -/
structure sink_call where
  fpri : Nat
  qpri : Nat
  ret : Int
deriving DecidableEq, Repr

/-- A sink together with the record of its invocations: the state is paired
with the list of the invocations made so far, oldest first. The sink itself
runs unchanged on the first component. -/
def recording {σ : Type} (map : Nat → Nat → σ → Int × σ) :
    Nat → Nat → σ × List sink_call → Int × (σ × List sink_call) :=
  fun fpri qpri s =>
    ((map fpri qpri s.1).1, ((map fpri qpri s.1).2, s.2 ++ [⟨fpri, qpri, (map fpri qpri s.1).1⟩]))

/-- The sink that stores nothing and never fails. -/
def sink_ok : Nat → Nat → Unit → Int × Unit := fun _ _ _ => (0, ())

/-- A sink without state that fails with `e` at frame priority `f` and
succeeds at every other one. -/
def sink_fail_at (f : Nat) (e : Int) : Nat → Nat → Unit → Int × Unit :=
  fun fpri _ _ => (if fpri = f then e else 0, ())

/-- A policy from its three entries (Legacy, Lo, Hi). -/
def mk_policy (legacy lo hi : mv88e6xxx_avb_priority_map) : mv88e6xxx_avb_tc_policy :=
  ⟨fun tc => if tc = 0 then legacy else if tc = 1 then lo else hi⟩

/-- Whether a frame priority belongs to the Legacy class under a policy: it is
neither the frame priority of Lo nor that of Hi. -/
def is_legacy_fpri (policy : mv88e6xxx_avb_tc_policy) (f : Nat) : Bool :=
  decide (f ≠ (policy.map MV88E6XXX_AVB_TC_LO).fpri) &&
    decide (f ≠ (policy.map MV88E6XXX_AVB_TC_HI).fpri)

/-- The frame priorities left to the Legacy class, in ascending order. -/
def legacy_fpris (policy : mv88e6xxx_avb_tc_policy) : List Nat :=
  (List.range IEEE_8021Q_MAX_PRIORITIES).filter (is_legacy_fpri policy)

/-- The `(fpri, qpri)` pairs that a record shows for Legacy frame priorities,
in the order of the calls. -/
def legacy_calls (policy : mv88e6xxx_avb_tc_policy) (calls : List sink_call) :
    List (Nat × Nat) :=
  (calls.filter fun c => is_legacy_fpri policy c.fpri).map fun c => (c.fpri, c.qpri)

/-! ### The sequence of calls as a plan -/

/-- The `(fpri, qpri)` arguments that the loop of `mv88e6xxx_qav_assign_qpri`
presents to the sink over its last `n` iterations when no call fails, with
`tc0_qcount` Legacy priorities met before. -/
def qpri_plan (policy : mv88e6xxx_avb_tc_policy) (tc0_base_qpri tc0_fpri_per_qpri : Nat) :
    Nat → Nat → List (Nat × Nat)
  | 0, _ => []
  | n + 1, tc0_qcount =>
    let fpri := IEEE_8021Q_MAX_PRIORITIES - (n + 1)
    if (policy.map MV88E6XXX_AVB_TC_LO).fpri = fpri then
      (to_u8 fpri, to_u8 (policy.map MV88E6XXX_AVB_TC_LO).qpri) ::
        qpri_plan policy tc0_base_qpri tc0_fpri_per_qpri n tc0_qcount
    else if (policy.map MV88E6XXX_AVB_TC_HI).fpri = fpri then
      (to_u8 fpri, to_u8 (policy.map MV88E6XXX_AVB_TC_HI).qpri) ::
        qpri_plan policy tc0_base_qpri tc0_fpri_per_qpri n tc0_qcount
    else
      (to_u8 fpri, to_u8 (tc0_base_qpri + tc0_qcount / tc0_fpri_per_qpri)) ::
        qpri_plan policy tc0_base_qpri tc0_fpri_per_qpri n (tc0_qcount + 1)

/-- Presenting a list of `(fpri, qpri)` arguments to a sink in order, stopping
at the first call that returns non-zero. -/
def run_sink {σ : Type} (map : Nat → Nat → σ → Int × σ) : List (Nat × Nat) → σ → Int × σ
  | [], s => (0, s)
  | c :: cs, s =>
    if (map c.1 c.2 s).1 ≠ 0 then map c.1 c.2 s else run_sink map cs (map c.1 c.2 s).2

/-- The invocations made by `run_sink`. -/
def sink_trace {σ : Type} (map : Nat → Nat → σ → Int × σ) : List (Nat × Nat) → σ → List sink_call
  | [], _ => []
  | c :: cs, s =>
    ⟨c.1, c.2, (map c.1 c.2 s).1⟩ ::
      (if (map c.1 c.2 s).1 ≠ 0 then [] else sink_trace map cs (map c.1 c.2 s).2)

/-! ## Register fields (`avb.h`) -/

/-- Conversion to `u16`. -/
def to_u16 (x : Nat) : Nat := x % 65536

/-- Modelled from the spec: the error number `EOPNOTSUPP`, the unsupported
error of the specification; its value is defined outside `src/`. -/
def EOPNOTSUPP : Int := 95

/-- Modelled from the spec: the error number `EINVAL`, the invalid-value error
of the specification; its value is defined outside `src/`. -/
def EINVAL : Int := 22

/-- Modelled from the spec: the macro `GENMASK(h, l)` is defined outside `src/`;
it is the field of the bits `l` to `h`, both included, of a register word. -/
def GENMASK (h l : Nat) : Nat := (2 ^ (h + 1 - l) - 1) <<< l

/-- Modelled from the spec: the shift of a field mask, used by `FIELD_PREP` and
`FIELD_GET`, is defined outside `src/`; it is the position of the lowest set
bit of the mask. -/
def bf_shf (mask : Nat) : Nat :=
  ((List.range 64).find? fun i => mask.testBit i).getD 0

/-- Modelled from the spec: the macro `FIELD_PREP(mask, val)` is defined outside
`src/`; it places a value in the field of a register word. -/
def FIELD_PREP (mask val : Nat) : Nat := (val <<< bf_shf mask) &&& mask

/-- Modelled from the spec: the macro `FIELD_GET(mask, reg)` is defined outside
`src/`; it extracts the field of a register word. -/
def FIELD_GET (mask reg : Nat) : Nat := (reg &&& mask) >>> bf_shf mask

/-- Register offset `MV88E6XXX_AVB_CFG_AVB` (`avb.h`). -/
def MV88E6XXX_AVB_CFG_AVB : Nat := 0x00

/-- Field mask `MV88E6XXX_AVB_CFG_AVB_HI_FPRI_MASK` (`avb.h`). -/
def MV88E6XXX_AVB_CFG_AVB_HI_FPRI_MASK : Nat := GENMASK 14 12

/-- Field mask `MV88E6XXX_AVB_CFG_AVB_LO_FPRI_MASK` (`avb.h`). -/
def MV88E6XXX_AVB_CFG_AVB_LO_FPRI_MASK : Nat := GENMASK 6 4

/-- Field mask `MV88E6352_AVB_CFG_AVB_HI_QPRI_MASK` (`avb.h`). -/
def MV88E6352_AVB_CFG_AVB_HI_QPRI_MASK : Nat := GENMASK 9 8

/-- Field mask `MV88E6352_AVB_CFG_AVB_LO_QPRI_MASK` (`avb.h`). -/
def MV88E6352_AVB_CFG_AVB_LO_QPRI_MASK : Nat := GENMASK 1 0

/-- Field mask `MV88E6390_AVB_CFG_AVB_HI_QPRI_MASK` (`avb.h`). -/
def MV88E6390_AVB_CFG_AVB_HI_QPRI_MASK : Nat := GENMASK 10 8

/-- Field mask `MV88E6390_AVB_CFG_AVB_LO_QPRI_MASK` (`avb.h`). -/
def MV88E6390_AVB_CFG_AVB_LO_QPRI_MASK : Nat := GENMASK 2 0

/-- The macro `MV88E6352_AVB_QUEUE_MIN(tc)`. -/
def MV88E6352_AVB_QUEUE_MIN (tc : Nat) : Nat := tc

/-- The macro `MV88E6352_AVB_QUEUE_MAX(tc)`. -/
def MV88E6352_AVB_QUEUE_MAX (tc : Nat) : Nat := tc + 1

/-! ## The chip and its register operations -/

/-- The table `chip->info->ops->avb_ops`: each member is a handler on the
hardware state `σ`, or absent (a null pointer). A read handler yields the error
code, the word read and the state. -/
structure mv88e6xxx_avb_ops (σ : Type) where
  port_avb_read : Option (Nat → Nat → σ → Int × Nat × σ)
  port_avb_write : Option (Nat → Nat → Nat → σ → Int × σ)
  avb_read : Option (Nat → σ → Int × Nat × σ)
  avb_write : Option (Nat → Nat → σ → Int × σ)
  qav_read : Option (Nat → σ → Int × Nat × σ)
  qav_write : Option (Nat → Nat → σ → Int × σ)
  port_qav_read : Option (Nat → Nat → σ → Int × Nat × σ)
  port_qav_write : Option (Nat → Nat → Nat → σ → Int × σ)

/-- What `avb.c` uses of a `struct mv88e6xxx_chip`, over a hardware state `σ`:
the number of ports, which ports are user ports (`dsa_is_user_port`), the AVB
operation table, and the routines of the other compilation units that `avb.c`
calls (`global1.c`, `port.c`), each as a function on the hardware state. -/
structure mv88e6xxx_chip (σ : Type) where
  num_ports : Nat
  is_user_port : Nat → Bool
  avb_ops : mv88e6xxx_avb_ops σ
  g1_atu_set_mac_avb : Bool → σ → Int × σ
  g1_set_ieee_pri_map : Nat → σ → Int × σ
  g1_ieee_pri_set : Nat → Nat → Nat → Nat
  g1_ieee_pri_map_6250 : σ → Int × σ
  port_set_ieeepmt_ingress_pcp : Nat → Nat → Nat → Nat → σ → Int × σ
  port_tag_remap : Nat → σ → Int × σ

/-- The wrapper `mv88e6xxx_avb_write`. -/
def mv88e6xxx_avb_write {σ : Type} (chip : mv88e6xxx_chip σ) (addr data : Nat) (s : σ) :
    Int × σ :=
  match chip.avb_ops.avb_write with
  | none => (-EOPNOTSUPP, s)
  | some avb_write => avb_write addr (to_u16 data) s

/-- A loop `for (port = 0, err = 0; port < mv88e6xxx_num_ports(chip); port++)`
that skips the ports that are not user ports and leaves at the first non-zero
`err` of its body, with `n` ports left to visit from `port` on. -/
def user_port_loop {σ : Type} (chip : mv88e6xxx_chip σ) (body : Nat → σ → Int × σ) :
    Nat → Nat → σ → Int × σ
  | 0, _, s => (0, s)
  | n + 1, port, s =>
    if chip.is_user_port port = false then user_port_loop chip body n (port + 1) s
    else if (body port s).1 ≠ 0 then body port s
    else user_port_loop chip body n (port + 1) (body port s).2

/-! ## Family traffic-class enable -/

/-- The packing `mv88e6352_avb_pri_map_to_reg`. -/
def mv88e6352_avb_pri_map_to_reg (map : Fin 3 → mv88e6xxx_avb_priority_map) : Nat :=
  to_u16 (FIELD_PREP MV88E6XXX_AVB_CFG_AVB_HI_FPRI_MASK (map MV88E6XXX_AVB_TC_HI).fpri |||
    FIELD_PREP MV88E6352_AVB_CFG_AVB_HI_QPRI_MASK (map MV88E6XXX_AVB_TC_HI).qpri |||
    FIELD_PREP MV88E6XXX_AVB_CFG_AVB_LO_FPRI_MASK (map MV88E6XXX_AVB_TC_LO).fpri |||
    FIELD_PREP MV88E6352_AVB_CFG_AVB_LO_QPRI_MASK (map MV88E6XXX_AVB_TC_LO).qpri)

/-- The packing `mv88e6390_avb_pri_map_to_reg`. -/
def mv88e6390_avb_pri_map_to_reg (map : Fin 3 → mv88e6xxx_avb_priority_map) : Nat :=
  to_u16 (FIELD_PREP MV88E6XXX_AVB_CFG_AVB_HI_FPRI_MASK (map MV88E6XXX_AVB_TC_HI).fpri |||
    FIELD_PREP MV88E6390_AVB_CFG_AVB_HI_QPRI_MASK (map MV88E6XXX_AVB_TC_HI).qpri |||
    FIELD_PREP MV88E6XXX_AVB_CFG_AVB_LO_FPRI_MASK (map MV88E6XXX_AVB_TC_LO).fpri |||
    FIELD_PREP MV88E6390_AVB_CFG_AVB_LO_QPRI_MASK (map MV88E6XXX_AVB_TC_LO).qpri)

/-- The sink `mv88e6352_qav_map_fpri_qpri`: its context is the register word
`reg`. -/
def mv88e6352_qav_map_fpri_qpri {σ : Type} (chip : mv88e6xxx_chip σ) :
    Nat → Nat → Nat → Int × Nat :=
  fun fpri qpri reg => (0, chip.g1_ieee_pri_set fpri qpri reg)

/-- The validation loop of `mv88e6352_tc_enable` over the classes Lo and Hi:
whether some class has its queue priority outside its window. -/
def mv88e6352_bad_qpri (policy : mv88e6xxx_avb_tc_policy) : Bool :=
  [MV88E6XXX_AVB_TC_LO, MV88E6XXX_AVB_TC_HI].any fun tc =>
    decide ((policy.map tc).qpri < MV88E6352_AVB_QUEUE_MIN tc.1) ||
      decide ((policy.map tc).qpri > MV88E6352_AVB_QUEUE_MAX tc.1)

/-- The routine `mv88e6352_tc_enable`; `srp` tells whether
`CONFIG_NET_DSA_MV88E6XXX_SRP` is set. The result is `none` when the priority
distribution divides by zero. -/
def mv88e6352_tc_enable {σ : Type} (srp : Bool) (chip : mv88e6xxx_chip σ)
    (policy : mv88e6xxx_avb_tc_policy) (s : σ) : Option (Int × σ) :=
  let reg := 0
  if srp = true ∧ mv88e6352_bad_qpri policy = true then some (-EOPNOTSUPP, s)
  else
    let w := if srp = true then
        mv88e6xxx_avb_write chip MV88E6XXX_AVB_CFG_AVB (mv88e6352_avb_pri_map_to_reg policy.map) s
      else (0, s)
    if w.1 ≠ 0 then some w
    else
      match mv88e6xxx_qav_assign_qpri policy (mv88e6352_qav_map_fpri_qpri chip) reg with
      | none => none
      | some a =>
        if a.1 ≠ 0 then some (a.1, w.2)
        else some (chip.g1_set_ieee_pri_map (to_u16 a.2) w.2)

/-- The sink `mv88e6390_qav_map_fpri_qpri`: its context is the chip, so its
state is the hardware state. -/
def mv88e6390_qav_map_fpri_qpri {σ : Type} (chip : mv88e6xxx_chip σ) :
    Nat → Nat → σ → Int × σ :=
  fun fpri qpri s =>
    user_port_loop chip (fun port => chip.port_set_ieeepmt_ingress_pcp port fpri fpri qpri)
      chip.num_ports 0 s

/-- The routine `mv88e6390_tc_enable`; `srp` tells whether
`CONFIG_NET_DSA_MV88E6XXX_SRP` is set. The result is `none` when the priority
distribution divides by zero. -/
def mv88e6390_tc_enable {σ : Type} (srp : Bool) (chip : mv88e6xxx_chip σ)
    (policy : mv88e6xxx_avb_tc_policy) (s : σ) : Option (Int × σ) :=
  let w := if srp = true then
      mv88e6xxx_avb_write chip MV88E6XXX_AVB_CFG_AVB (mv88e6390_avb_pri_map_to_reg policy.map) s
    else (0, s)
  if w.1 ≠ 0 then some w
  else mv88e6xxx_qav_assign_qpri policy (mv88e6390_qav_map_fpri_qpri chip) w.2

/-! ## Shaper parameters: the family `map_tc_cbs_qopt` routines -/

/-- Modelled from the spec: `struct tc_cbs_qopt_offload` is declared outside
`src/`; the offload request of the specification carries `(queue_index,
idle_slope, hi_credit, enable_flag)`. The numeric members are signed 32-bit
integers, held here as `Int`. -/
structure tc_cbs_qopt_offload where
  enable : Bool
  queue : Int
  hicredit : Int
  locredit : Int
  idleslope : Int
  sendslope : Int

/-- The constants of one family that its `map_tc_cbs_qopt` routine uses
(`MV88E63xx_AVB_CFG_RATE_UNITS`, `MV88E63xx_AVB_CFG_RATE_MASK`,
`MV88E63xx_AVB_CFG_HI_LIMIT_MASK`). They are defined outside `src/` and are
parameters here. -/
structure cbs_consts where
  RATE_UNITS : Nat
  RATE_MASK : Nat
  HI_LIMIT_MASK : Nat

/-- What a `map_tc_cbs_qopt` routine produces: the returned error code and the
two `u16` words stored through `rate` and `hilimit`. -/
structure cbs_regs where
  ret : Int
  rate : Nat
  hilimit : Nat
deriving DecidableEq, Repr

/-- A result of `int` arithmetic, which wraps to 32 bits. -/
def wrap_s32 (x : Int) : Int := (x + 2 ^ 31) % 2 ^ 32 - 2 ^ 31

/-- Conversion of a signed value to `u16`, as on assignment to a `u16`
object. -/
def int_to_u16 (x : Int) : Nat := (x % 65536).toNat

/-- Modelled from the spec: the macro `DIV_ROUND_UP` (defined outside `src/`,
the ceiling division of the specification) on `int` operands, as
`((n) + (d) - 1) / (d)`: the sum wraps to 32 bits and the division truncates
toward zero. The divisor is a non-zero constant. -/
def DIV_ROUND_UP_s32 (n d : Int) : Int := Int.tdiv (wrap_s32 (n + d - 1)) d

/-- Modelled from the spec: the macro `clamp_t` is defined outside `src/`; it is
the clamp to `[lo, hi]` of the specification. For `clamp_t(u16, val, lo, hi)`
the three operands are converted to `u16`, then
`val >= hi ? hi : (val <= lo ? lo : val)`. -/
def clamp_t_u16 (val lo hi : Nat) : Nat :=
  if to_u16 val ≥ to_u16 hi then to_u16 hi
  else if to_u16 val ≤ to_u16 lo then to_u16 lo
  else to_u16 val

/-- The routine `mv88e6341_map_tc_cbs_qopt`, over the constants `c` of the
6341 family. -/
def mv88e6341_map_tc_cbs_qopt (c : cbs_consts) (cbs_qopt : tc_cbs_qopt_offload) : cbs_regs :=
  if cbs_qopt.enable = true then
    let rate := int_to_u16 (DIV_ROUND_UP_s32 cbs_qopt.idleslope c.RATE_UNITS)
    let rate := clamp_t_u16 rate 1 c.RATE_MASK
    let hilimit := int_to_u16 cbs_qopt.hicredit
    let hilimit := clamp_t_u16 hilimit 1 c.HI_LIMIT_MASK
    ⟨0, rate, hilimit⟩
  else
    ⟨0, 0, to_u16 c.HI_LIMIT_MASK⟩

/-- The routine `mv88e6352_map_tc_cbs_qopt`, over the constants `c` of the
6352 family. -/
def mv88e6352_map_tc_cbs_qopt (c : cbs_consts) (cbs_qopt : tc_cbs_qopt_offload) : cbs_regs :=
  if cbs_qopt.enable = true then
    let rate := int_to_u16 (DIV_ROUND_UP_s32 cbs_qopt.idleslope c.RATE_UNITS)
    let rate := clamp_t_u16 rate 1 c.RATE_MASK
    let hilimit := int_to_u16 cbs_qopt.hicredit
    let hilimit := clamp_t_u16 hilimit 1 c.HI_LIMIT_MASK
    ⟨0, rate, hilimit⟩
  else
    ⟨0, 0, to_u16 c.HI_LIMIT_MASK⟩

/-- The routine `mv88e6390_map_tc_cbs_qopt`, over the constants `c` of the
6390 family. -/
def mv88e6390_map_tc_cbs_qopt (c : cbs_consts) (cbs_qopt : tc_cbs_qopt_offload) : cbs_regs :=
  if cbs_qopt.enable = true then
    let rate := int_to_u16 (DIV_ROUND_UP_s32 cbs_qopt.idleslope c.RATE_UNITS)
    let rate := clamp_t_u16 rate 1 c.RATE_MASK
    let hilimit := int_to_u16 cbs_qopt.hicredit
    let hilimit := clamp_t_u16 hilimit 1 c.HI_LIMIT_MASK
    ⟨0, rate, hilimit⟩
  else
    ⟨0, 0, to_u16 c.HI_LIMIT_MASK⟩

/-- The rate that the specification asks of an enabled shaper:
`ceil(idle_slope / rate_unit)` clamped to `[1, max_rate]`. -/
def spec_rate (idle_slope : Int) (rate_unit max_rate : Nat) : Nat :=
  min (max ⌈(idle_slope : ℚ) / rate_unit⌉₊ 1) max_rate

/-- The bounds on what a routine produced for an enabled request with the
given idle slope: return value 0, rate in `[1, RATE_MASK]`, hi-limit in
`[1, HI_LIMIT_MASK]`, and rate 1 when the idle slope is 0. -/
def enabled_outputs_in_range (c : cbs_consts) (idleslope : Int) (r : cbs_regs) : Prop :=
  r.ret = 0 ∧ 1 ≤ r.rate ∧ r.rate ≤ c.RATE_MASK ∧
    1 ≤ r.hilimit ∧ r.hilimit ≤ c.HI_LIMIT_MASK ∧ (idleslope = 0 → r.rate = 1)

/-! ## The register access facade -/

/-- Register offset `MV88E6XXX_QAV_CFG` (`avb.h`). -/
def MV88E6XXX_QAV_CFG : Nat := 0x00

/-- Field mask `MV88E6XXX_QAV_CFG_GLOBAL_ISO_PTR_MASK` (`avb.h`). -/
def MV88E6XXX_QAV_CFG_GLOBAL_ISO_PTR_MASK : Nat := GENMASK 9 0

/-- Register offset `MV88E6XXX_PORT_AVB_CFG` (`avb.h`). -/
def MV88E6XXX_PORT_AVB_CFG : Nat := 0x00

/-- Mode value `MV88E6XXX_PORT_AVB_CFG_AVB_MODE_LEGACY` (`avb.h`). -/
def MV88E6XXX_PORT_AVB_CFG_AVB_MODE_LEGACY : Nat := 0x0000

/-- Mode value `MV88E6XXX_PORT_AVB_CFG_AVB_MODE_STANDARD` (`avb.h`). -/
def MV88E6XXX_PORT_AVB_CFG_AVB_MODE_STANDARD : Nat := 0x4000

/-- Mode value `MV88E6XXX_PORT_AVB_CFG_AVB_MODE_ENHANCED` (`avb.h`). -/
def MV88E6XXX_PORT_AVB_CFG_AVB_MODE_ENHANCED : Nat := 0x8000

/-- Flag `MV88E6XXX_PORT_AVB_CFG_AVB_FILTER_BAD_AVB` (`avb.h`). -/
def MV88E6XXX_PORT_AVB_CFG_AVB_FILTER_BAD_AVB : Nat := 0x1000

/-- Flag `MV88E6XXX_PORT_AVB_CFG_AVB_DISCARD_BAD` (`avb.h`). -/
def MV88E6XXX_PORT_AVB_CFG_AVB_DISCARD_BAD : Nat := 0x0400

/-- The wrapper `mv88e6xxx_port_avb_read`, reading one word. When the handler
is absent the word is left unwritten; 0 stands for it. -/
def mv88e6xxx_port_avb_read {σ : Type} (chip : mv88e6xxx_chip σ) (port addr : Nat) (s : σ) :
    Int × Nat × σ :=
  match chip.avb_ops.port_avb_read with
  | none => (-EOPNOTSUPP, 0, s)
  | some port_avb_read => port_avb_read port addr s

/-- The wrapper `mv88e6xxx_port_avb_write`, as it is defined between
`#ifdef CONFIG_NET_DSA_MV88E6XXX_SRP` and the matching `#endif`. -/
def mv88e6xxx_port_avb_write {σ : Type} (chip : mv88e6xxx_chip σ) (port addr data : Nat)
    (s : σ) : Int × σ :=
  match chip.avb_ops.port_avb_write with
  | none => (-EOPNOTSUPP, s)
  | some port_avb_write => port_avb_write port addr (to_u16 data) s

/-- The wrapper `mv88e6xxx_avb_read`, reading one word. When the handler is
absent the word is left unwritten; 0 stands for it. -/
def mv88e6xxx_avb_read {σ : Type} (chip : mv88e6xxx_chip σ) (addr : Nat) (s : σ) :
    Int × Nat × σ :=
  match chip.avb_ops.avb_read with
  | none => (-EOPNOTSUPP, 0, s)
  | some avb_read => avb_read addr s

/-- The wrapper `mv88e6xxx_qav_read`, reading one word: the member tested is
`port_qav_read`, the member called is `qav_read`. The result is `none` when the
call goes through a null `qav_read`. -/
def mv88e6xxx_qav_read {σ : Type} (chip : mv88e6xxx_chip σ) (addr : Nat) (s : σ) :
    Option (Int × Nat × σ) :=
  match chip.avb_ops.port_qav_read with
  | none => some (-EOPNOTSUPP, 0, s)
  | some _ =>
    match chip.avb_ops.qav_read with
    | none => none
    | some qav_read => some (qav_read addr s)

/-- The wrapper `mv88e6xxx_qav_write`: the member tested is `port_qav_write`,
the member called is `qav_write`. The result is `none` when the call goes
through a null `qav_write`. -/
def mv88e6xxx_qav_write {σ : Type} (chip : mv88e6xxx_chip σ) (addr data : Nat) (s : σ) :
    Option (Int × σ) :=
  match chip.avb_ops.port_qav_write with
  | none => some (-EOPNOTSUPP, s)
  | some _ =>
    match chip.avb_ops.qav_write with
    | none => none
    | some qav_write => some (qav_write addr (to_u16 data) s)

/-- The wrapper `mv88e6xxx_port_qav_write`. -/
def mv88e6xxx_port_qav_write {σ : Type} (chip : mv88e6xxx_chip σ) (port addr data : Nat)
    (s : σ) : Int × σ :=
  match chip.avb_ops.port_qav_write with
  | none => (-EOPNOTSUPP, s)
  | some port_qav_write => port_qav_write port addr (to_u16 data) s

/-! ## Global and per-port settings -/

/-- The routine `mv88e6xxx_qav_set_iso_ptr`: a read of the global Qav
configuration word, the replacement of the pointer field by `threshold`, and
the write of the word. -/
def mv88e6xxx_qav_set_iso_ptr {σ : Type} (chip : mv88e6xxx_chip σ) (threshold : Nat) (s : σ) :
    Option (Int × σ) :=
  match mv88e6xxx_qav_read chip MV88E6XXX_QAV_CFG s with
  | none => none
  | some r =>
    if r.1 ≠ 0 then some (r.1, r.2.2)
    else
      let data := to_u16 r.2.1 &&& (0xffff ^^^ MV88E6XXX_QAV_CFG_GLOBAL_ISO_PTR_MASK)
      let data := to_u16 (data ||| FIELD_PREP MV88E6XXX_QAV_CFG_GLOBAL_ISO_PTR_MASK
        (to_u16 threshold))
      mv88e6xxx_qav_write chip MV88E6XXX_QAV_CFG data r.2.2

/-- The word `cfg` that `mv88e6xxx_avb_set_port_avb_mode` selects: with
`enable`, Enhanced mode with the two filter flags when
`CONFIG_NET_DSA_MV88E6XXX_SRP` is set and Standard mode when it is not; without
`enable`, Legacy mode. -/
def avb_mode_cfg (srp enable : Bool) : Nat :=
  if enable = true then
    if srp = true then
      MV88E6XXX_PORT_AVB_CFG_AVB_MODE_ENHANCED |||
        MV88E6XXX_PORT_AVB_CFG_AVB_FILTER_BAD_AVB |||
        MV88E6XXX_PORT_AVB_CFG_AVB_DISCARD_BAD
    else MV88E6XXX_PORT_AVB_CFG_AVB_MODE_STANDARD
  else MV88E6XXX_PORT_AVB_CFG_AVB_MODE_LEGACY

/-- The routine `mv88e6xxx_avb_set_port_avb_mode`; `srp` tells whether
`CONFIG_NET_DSA_MV88E6XXX_SRP` is set. The routine is compiled with and without
the option, whereas the wrapper `mv88e6xxx_port_avb_write` that it calls is
defined only with the option set (it stands inside the `#ifdef` block of the
operation wrappers): with the option unset the call has no definition to go
to, and no result, and `avb.c` as a whole does not build. The `srp = false`
branch records that missing definition; it is not the run of a program. -/
def mv88e6xxx_avb_set_port_avb_mode {σ : Type} (srp : Bool) (chip : mv88e6xxx_chip σ)
    (port : Nat) (enable : Bool) (s : σ) : Option (Int × σ) :=
  let cfg := avb_mode_cfg srp enable
  if srp = true then some (mv88e6xxx_port_avb_write chip port MV88E6XXX_PORT_AVB_CFG cfg s)
  else none

/-- The loop of `user_port_loop` for a body that may have no result: the loop
then has none either. -/
def user_port_loop_opt {σ : Type} (chip : mv88e6xxx_chip σ)
    (body : Nat → σ → Option (Int × σ)) : Nat → Nat → σ → Option (Int × σ)
  | 0, _, s => some (0, s)
  | n + 1, port, s =>
    if chip.is_user_port port = false then user_port_loop_opt chip body n (port + 1) s
    else
      match body port s with
      | none => none
      | some r =>
        if r.1 ≠ 0 then some r
        else user_port_loop_opt chip body n (port + 1) r.2

/-- The routine `mv88e6xxx_avb_set_avb_mode`. -/
def mv88e6xxx_avb_set_avb_mode {σ : Type} (srp : Bool) (chip : mv88e6xxx_chip σ)
    (enable : Bool) (s : σ) : Option (Int × σ) :=
  user_port_loop_opt chip (fun port => mv88e6xxx_avb_set_port_avb_mode srp chip port enable)
    chip.num_ports 0 s

/-! ## The global hi-limit and the words of the read-modify-write routines -/

/-- Register offset `MV88E6XXX_AVB_CFG_HI_LIMIT` (`avb.h`). -/
def MV88E6XXX_AVB_CFG_HI_LIMIT : Nat := 0x08

/-- Field mask `MV88E6XXX_AVB_CFG_HI_LIMIT_MASK` (`avb.h`). -/
def MV88E6XXX_AVB_CFG_HI_LIMIT_MASK : Nat := GENMASK 10 0

/-- Flag `MV88E6XXX_QAV_CFG_ADMIT_MGMT` (`avb.h`). -/
def MV88E6XXX_QAV_CFG_ADMIT_MGMT : Nat := 0x8000

/-- The word `data` that `mv88e6xxx_avb_set_hilimit` computes from the word `d`
it read and from `hilimit`: `data &= ~MASK; data |= FIELD_PREP(MASK, hilimit)`
on a `u16`. -/
def hilimit_word (d hilimit : Nat) : Nat :=
  to_u16 ((to_u16 d &&& (0xffff ^^^ MV88E6XXX_AVB_CFG_HI_LIMIT_MASK)) |||
    FIELD_PREP MV88E6XXX_AVB_CFG_HI_LIMIT_MASK (to_u16 hilimit))

/-- The routine `mv88e6xxx_avb_set_hilimit`: the range check, the read of the
hi-limit word, the computation of `data`, and the write, whose argument is
`hilimit`. -/
def mv88e6xxx_avb_set_hilimit {σ : Type} (chip : mv88e6xxx_chip σ) (hilimit : Nat) (s : σ) :
    Int × σ :=
  if to_u16 hilimit > MV88E6XXX_AVB_CFG_HI_LIMIT_MASK then (-EINVAL, s)
  else
    let r := mv88e6xxx_avb_read chip MV88E6XXX_AVB_CFG_HI_LIMIT s
    if r.1 ≠ 0 then (r.1, r.2.2)
    else
      let _data := hilimit_word r.2.1 hilimit
      let w := mv88e6xxx_avb_write chip MV88E6XXX_AVB_CFG_HI_LIMIT (to_u16 hilimit) r.2.2
      if w.1 ≠ 0 then w else (0, w.2)

/-- The word `data` that `mv88e6xxx_qav_set_iso_ptr` computes from the word `d`
it read and from `threshold`, and writes. -/
def iso_ptr_word (d threshold : Nat) : Nat :=
  to_u16 ((to_u16 d &&& (0xffff ^^^ MV88E6XXX_QAV_CFG_GLOBAL_ISO_PTR_MASK)) |||
    FIELD_PREP MV88E6XXX_QAV_CFG_GLOBAL_ISO_PTR_MASK (to_u16 threshold))

/-! ## Family traffic-class disable and the family tables -/

/-- The table `mv88e6352_init_avb_pri_map`: Lo is frame priority 4 in queue 2,
Hi is frame priority 5 in queue 3; the entry of the Legacy class is zero. -/
def mv88e6352_init_avb_pri_map : Fin 3 → mv88e6xxx_avb_priority_map :=
  fun tc =>
    if tc = MV88E6XXX_AVB_TC_LO then ⟨0x4, 0x2, 0⟩
    else if tc = MV88E6XXX_AVB_TC_HI then ⟨0x5, 0x3, 0⟩
    else ⟨0, 0, 0⟩

/-- The table `mv88e6390_init_avb_pri_map`: Lo is frame priority 2 in queue 6,
Hi is frame priority 3 in queue 7; the entry of the Legacy class is zero. -/
def mv88e6390_init_avb_pri_map : Fin 3 → mv88e6xxx_avb_priority_map :=
  fun tc =>
    if tc = MV88E6XXX_AVB_TC_LO then ⟨0x2, 0x6, 0⟩
    else if tc = MV88E6XXX_AVB_TC_HI then ⟨0x3, 0x7, 0⟩
    else ⟨0, 0, 0⟩

/-- The routine `mv88e6352_tc_disable`; `srp` tells whether
`CONFIG_NET_DSA_MV88E6XXX_SRP` is set. -/
def mv88e6352_tc_disable {σ : Type} (srp : Bool) (chip : mv88e6xxx_chip σ) (s : σ) : Int × σ :=
  let r := chip.g1_ieee_pri_map_6250 s
  if r.1 ≠ 0 then r
  else if srp = true then
    let w := mv88e6xxx_avb_write chip MV88E6XXX_AVB_CFG_AVB
      (mv88e6352_avb_pri_map_to_reg mv88e6352_init_avb_pri_map) r.2
    if w.1 ≠ 0 then w else (0, w.2)
  else (0, r.2)

/-- The routine `mv88e6390_tc_disable`; `srp` tells whether
`CONFIG_NET_DSA_MV88E6XXX_SRP` is set. With the option set, `err` is assigned
the result of the register write after the loop, whatever the loop left in
it. -/
def mv88e6390_tc_disable {σ : Type} (srp : Bool) (chip : mv88e6xxx_chip σ) (s : σ) : Int × σ :=
  let r := user_port_loop chip (fun port => chip.port_tag_remap port) chip.num_ports 0 s
  if srp = true then
    let w := mv88e6xxx_avb_write chip MV88E6XXX_AVB_CFG_AVB
      (mv88e6390_avb_pri_map_to_reg mv88e6390_init_avb_pri_map) r.2
    if w.1 ≠ 0 then w else w
  else r

/-- The table `chip->info->ops->tc_ops` (`struct mv88e6xxx_tc_ops`): each
member is a routine, or absent (a null pointer). The table belongs to the chip;
it is a separate argument of the routines that use it. -/
structure mv88e6xxx_tc_ops (σ : Type) where
  tc_enable : Option (mv88e6xxx_chip σ → mv88e6xxx_avb_tc_policy → σ → Option (Int × σ))
  tc_disable : Option (mv88e6xxx_chip σ → σ → Int × σ)
  map_tc_cbs_qopt : Option (tc_cbs_qopt_offload → cbs_regs)

/-- The table `mv88e6341_tc_ops`. -/
def mv88e6341_tc_ops {σ : Type} (srp : Bool) (c : cbs_consts) : mv88e6xxx_tc_ops σ where
  tc_enable := some (mv88e6352_tc_enable srp)
  tc_disable := some (mv88e6352_tc_disable srp)
  map_tc_cbs_qopt := some (mv88e6341_map_tc_cbs_qopt c)

/-- The table `mv88e6352_tc_ops`. -/
def mv88e6352_tc_ops {σ : Type} (srp : Bool) (c : cbs_consts) : mv88e6xxx_tc_ops σ where
  tc_enable := some (mv88e6352_tc_enable srp)
  tc_disable := some (mv88e6352_tc_disable srp)
  map_tc_cbs_qopt := some (mv88e6352_map_tc_cbs_qopt c)

/-- The table `mv88e6390_tc_ops`. -/
def mv88e6390_tc_ops {σ : Type} (srp : Bool) (c : cbs_consts) : mv88e6xxx_tc_ops σ where
  tc_enable := some (mv88e6390_tc_enable srp)
  tc_disable := some (mv88e6390_tc_disable srp)
  map_tc_cbs_qopt := some (mv88e6390_map_tc_cbs_qopt c)

/-- The wrapper `mv88e6xxx_tc_enable`. -/
def mv88e6xxx_tc_enable {σ : Type} (ops : mv88e6xxx_tc_ops σ) (chip : mv88e6xxx_chip σ)
    (policy : mv88e6xxx_avb_tc_policy) (s : σ) : Option (Int × σ) :=
  match ops.tc_enable with
  | none => some (-EOPNOTSUPP, s)
  | some tc_enable => tc_enable chip policy s

/-- The wrapper `mv88e6xxx_tc_disable`. -/
def mv88e6xxx_tc_disable {σ : Type} (ops : mv88e6xxx_tc_ops σ) (chip : mv88e6xxx_chip σ)
    (s : σ) : Int × σ :=
  match ops.tc_disable with
  | none => (-EOPNOTSUPP, s)
  | some tc_disable => tc_disable chip s

/-! ## Enable and disable -/

/-- The routine `mv88e6xxx_avb_tc_enable`; `srp` tells whether
`CONFIG_NET_DSA_MV88E6XXX_SRP` is set. -/
def mv88e6xxx_avb_tc_enable {σ : Type} (srp : Bool) (ops : mv88e6xxx_tc_ops σ)
    (chip : mv88e6xxx_chip σ) (policy : mv88e6xxx_avb_tc_policy) (s : σ) : Option (Int × σ) :=
  let pre : Option (Int × σ) :=
    if srp = true then
      let a := chip.g1_atu_set_mac_avb true s
      if a.1 ≠ 0 then some a
      else mv88e6xxx_qav_set_iso_ptr chip (chip.num_ports <<< 6) a.2
    else some (0, s)
  match pre with
  | none => none
  | some p =>
    if p.1 ≠ 0 then some p
    else
      match mv88e6xxx_tc_enable ops chip policy p.2 with
      | none => none
      | some t =>
        if t.1 ≠ 0 then some t
        else
          match mv88e6xxx_avb_set_avb_mode srp chip true t.2 with
          | none => none
          | some m => if m.1 ≠ 0 then some m else some (0, m.2)

/-- The routine `mv88e6xxx_avb_tc_disable`; `srp` tells whether
`CONFIG_NET_DSA_MV88E6XXX_SRP` is set. -/
def mv88e6xxx_avb_tc_disable {σ : Type} (srp : Bool) (ops : mv88e6xxx_tc_ops σ)
    (chip : mv88e6xxx_chip σ) (s : σ) : Option (Int × σ) :=
  match mv88e6xxx_avb_set_avb_mode srp chip false s with
  | none => none
  | some m =>
    if m.1 ≠ 0 then some m
    else
      let d := mv88e6xxx_tc_disable ops chip m.2
      if d.1 ≠ 0 then some d
      else if srp = true then
        match mv88e6xxx_qav_set_iso_ptr chip 0 d.2 with
        | none => none
        | some i =>
          if i.1 ≠ 0 then some i
          else
            let u := chip.g1_atu_set_mac_avb false i.2
            if u.1 ≠ 0 then some u else some (0, u.2)
      else some (0, d.2)

/-! ## A chip for examples -/

/-- One access to the hardware, as an example chip logs it. -/
inductive hw_access where
  | port_avb_write (port addr data : Nat)
  | avb_write (addr data : Nat)
  | qav_write (addr data : Nat)
  | port_qav_write (port addr data : Nat)
  | atu_set_mac_avb (enable : Bool)
  | set_ieee_pri_map (reg : Nat)
  | ieee_pri_map_6250
  | set_ieeepmt_ingress_pcp (port pointer fpri qpri : Nat)
  | port_tag_remap (port : Nat)
  | port_avb_read (port addr : Nat)
  | avb_read (addr : Nat)
  | qav_read (addr : Nat)
  | port_qav_read (port addr : Nat)
deriving DecidableEq, Repr

/-- An example chip with three ports, of which ports 0 and 1 are user ports
and port 2 is not. Every operation succeeds; every write is appended to a log,
which is the hardware state; registers read as 0. The register word of the
4-queue families takes two bits for each frame priority. -/
def example_chip : mv88e6xxx_chip (List hw_access) where
  num_ports := 3
  is_user_port := fun port => decide (port < 2)
  avb_ops :=
    { port_avb_read := some fun _ _ s => (0, 0, s)
      port_avb_write := some fun port addr data s => (0, s ++ [.port_avb_write port addr data])
      avb_read := some fun _ s => (0, 0, s)
      avb_write := some fun addr data s => (0, s ++ [.avb_write addr data])
      qav_read := some fun _ s => (0, 0, s)
      qav_write := some fun addr data s => (0, s ++ [.qav_write addr data])
      port_qav_read := some fun _ _ s => (0, 0, s)
      port_qav_write := some fun port addr data s => (0, s ++ [.port_qav_write port addr data]) }
  g1_atu_set_mac_avb := fun enable s => (0, s ++ [.atu_set_mac_avb enable])
  g1_set_ieee_pri_map := fun reg s => (0, s ++ [.set_ieee_pri_map reg])
  g1_ieee_pri_set := fun fpri qpri reg => reg ||| ((qpri &&& 3) <<< (2 * fpri))
  g1_ieee_pri_map_6250 := fun s => (0, s ++ [.ieee_pri_map_6250])
  port_set_ieeepmt_ingress_pcp := fun port pointer fpri qpri s =>
    (0, s ++ [.set_ieeepmt_ingress_pcp port pointer fpri qpri])
  port_tag_remap := fun port s => (0, s ++ [.port_tag_remap port])

/-! ## Observing the accesses of a chip -/

/-- One access to the hardware with the error code it returned. -/
structure hw_event where
  access : hw_access
  ret : Int
deriving DecidableEq, Repr

/-- A chip together with the record of the accesses made to it: the state is
paired with the list of the accesses so far, oldest first, each with the error
code it returned. Every handler and routine of the chip runs unchanged on the
first component; an absent handler stays absent. -/
def traced {σ : Type} (chip : mv88e6xxx_chip σ) : mv88e6xxx_chip (σ × List hw_event) where
  num_ports := chip.num_ports
  is_user_port := chip.is_user_port
  avb_ops :=
    { port_avb_read := chip.avb_ops.port_avb_read.map fun h port addr s =>
        ((h port addr s.1).1, (h port addr s.1).2.1,
          ((h port addr s.1).2.2, s.2 ++ [⟨.port_avb_read port addr, (h port addr s.1).1⟩]))
      port_avb_write := chip.avb_ops.port_avb_write.map fun h port addr data s =>
        ((h port addr data s.1).1,
          ((h port addr data s.1).2,
            s.2 ++ [⟨.port_avb_write port addr data, (h port addr data s.1).1⟩]))
      avb_read := chip.avb_ops.avb_read.map fun h addr s =>
        ((h addr s.1).1, (h addr s.1).2.1,
          ((h addr s.1).2.2, s.2 ++ [⟨.avb_read addr, (h addr s.1).1⟩]))
      avb_write := chip.avb_ops.avb_write.map fun h addr data s =>
        ((h addr data s.1).1,
          ((h addr data s.1).2, s.2 ++ [⟨.avb_write addr data, (h addr data s.1).1⟩]))
      qav_read := chip.avb_ops.qav_read.map fun h addr s =>
        ((h addr s.1).1, (h addr s.1).2.1,
          ((h addr s.1).2.2, s.2 ++ [⟨.qav_read addr, (h addr s.1).1⟩]))
      qav_write := chip.avb_ops.qav_write.map fun h addr data s =>
        ((h addr data s.1).1,
          ((h addr data s.1).2, s.2 ++ [⟨.qav_write addr data, (h addr data s.1).1⟩]))
      port_qav_read := chip.avb_ops.port_qav_read.map fun h port addr s =>
        ((h port addr s.1).1, (h port addr s.1).2.1,
          ((h port addr s.1).2.2, s.2 ++ [⟨.port_qav_read port addr, (h port addr s.1).1⟩]))
      port_qav_write := chip.avb_ops.port_qav_write.map fun h port addr data s =>
        ((h port addr data s.1).1,
          ((h port addr data s.1).2,
            s.2 ++ [⟨.port_qav_write port addr data, (h port addr data s.1).1⟩])) }
  g1_atu_set_mac_avb := fun enable s =>
    ((chip.g1_atu_set_mac_avb enable s.1).1,
      ((chip.g1_atu_set_mac_avb enable s.1).2,
        s.2 ++ [⟨.atu_set_mac_avb enable, (chip.g1_atu_set_mac_avb enable s.1).1⟩]))
  g1_set_ieee_pri_map := fun reg s =>
    ((chip.g1_set_ieee_pri_map reg s.1).1,
      ((chip.g1_set_ieee_pri_map reg s.1).2,
        s.2 ++ [⟨.set_ieee_pri_map reg, (chip.g1_set_ieee_pri_map reg s.1).1⟩]))
  g1_ieee_pri_set := chip.g1_ieee_pri_set
  g1_ieee_pri_map_6250 := fun s =>
    ((chip.g1_ieee_pri_map_6250 s.1).1,
      ((chip.g1_ieee_pri_map_6250 s.1).2,
        s.2 ++ [⟨.ieee_pri_map_6250, (chip.g1_ieee_pri_map_6250 s.1).1⟩]))
  port_set_ieeepmt_ingress_pcp := fun port pointer fpri qpri s =>
    ((chip.port_set_ieeepmt_ingress_pcp port pointer fpri qpri s.1).1,
      ((chip.port_set_ieeepmt_ingress_pcp port pointer fpri qpri s.1).2,
        s.2 ++ [⟨.set_ieeepmt_ingress_pcp port pointer fpri qpri,
          (chip.port_set_ieeepmt_ingress_pcp port pointer fpri qpri s.1).1⟩]))
  port_tag_remap := fun port s =>
    ((chip.port_tag_remap port s.1).1,
      ((chip.port_tag_remap port s.1).2,
        s.2 ++ [⟨.port_tag_remap port, (chip.port_tag_remap port s.1).1⟩]))

/-- The user ports of a chip, in ascending order. -/
def user_ports {σ : Type} (chip : mv88e6xxx_chip σ) : List Nat :=
  (List.range chip.num_ports).filter chip.is_user_port

/-- Running a body over a list of ports in order, leaving at the first port
whose body returns non-zero. -/
def run_ports {σ : Type} (body : Nat → σ → Int × σ) : List Nat → σ → Int × σ
  | [], s => (0, s)
  | p :: ps, s => if (body p s).1 ≠ 0 then body p s else run_ports body ps (body p s).2

/-- The ports that `run_ports` visits, each with the value its body
returned. -/
def port_trace {σ : Type} (body : Nat → σ → Int × σ) : List Nat → σ → List (Nat × Int)
  | [], _ => []
  | p :: ps, s =>
    (p, (body p s).1) :: (if (body p s).1 ≠ 0 then [] else port_trace body ps (body p s).2)

/-! ## A chip with registers -/

/-- The registers behind the four register spaces of the facade: the global
AVB and Qav words by address, the per-port AVB and Qav words by port and
address. -/
structure hw_regs where
  avb : Nat → Nat
  qav : Nat → Nat
  port_avb : Nat → Nat → Nat
  port_qav : Nat → Nat → Nat

/-- A chip whose four register spaces are memories: a write that succeeds
stores its word, a read returns the word stored. The chip has `num_ports`
ports, those of `is_user_port` being user ports, and every handler is present.
Each access returns the error code that `fault` gives for it, and a write that
fails stores nothing. The routines of the other compilation units touch none of
the four spaces. -/
def reg_chip (num_ports : Nat) (is_user_port : Nat → Bool) (fault : hw_access → Int) :
    mv88e6xxx_chip hw_regs where
  num_ports := num_ports
  is_user_port := is_user_port
  avb_ops :=
    { port_avb_read := some fun port addr s =>
        (fault (.port_avb_read port addr), s.port_avb port addr, s)
      port_avb_write := some fun port addr data s =>
        (fault (.port_avb_write port addr data),
          if fault (.port_avb_write port addr data) ≠ 0 then s
          else { s with port_avb := fun p a =>
            if p = port ∧ a = addr then data else s.port_avb p a })
      avb_read := some fun addr s => (fault (.avb_read addr), s.avb addr, s)
      avb_write := some fun addr data s =>
        (fault (.avb_write addr data),
          if fault (.avb_write addr data) ≠ 0 then s
          else { s with avb := fun a => if a = addr then data else s.avb a })
      qav_read := some fun addr s => (fault (.qav_read addr), s.qav addr, s)
      qav_write := some fun addr data s =>
        (fault (.qav_write addr data),
          if fault (.qav_write addr data) ≠ 0 then s
          else { s with qav := fun a => if a = addr then data else s.qav a })
      port_qav_read := some fun port addr s =>
        (fault (.port_qav_read port addr), s.port_qav port addr, s)
      port_qav_write := some fun port addr data s =>
        (fault (.port_qav_write port addr data),
          if fault (.port_qav_write port addr data) ≠ 0 then s
          else { s with port_qav := fun p a =>
            if p = port ∧ a = addr then data else s.port_qav p a }) }
  g1_atu_set_mac_avb := fun enable s => (fault (.atu_set_mac_avb enable), s)
  g1_set_ieee_pri_map := fun reg s => (fault (.set_ieee_pri_map reg), s)
  g1_ieee_pri_set := fun fpri qpri reg => reg ||| ((qpri &&& 3) <<< (2 * fpri))
  g1_ieee_pri_map_6250 := fun s => (fault .ieee_pri_map_6250, s)
  port_set_ieeepmt_ingress_pcp := fun port pointer fpri qpri s =>
    (fault (.set_ieeepmt_ingress_pcp port pointer fpri qpri), s)
  port_tag_remap := fun port s => (fault (.port_tag_remap port), s)

/-- The fault map under which every access succeeds. -/
def no_fault : hw_access → Int := fun _ => 0

/-- The fault map under which the access `a` fails with `e` and every other
access succeeds. -/
def fault_at (a : hw_access) (e : Int) : hw_access → Int :=
  fun b => if b = a then e else 0

/-- Registers that all hold the word `w`. -/
def regs_all (w : Nat) : hw_regs := ⟨fun _ => w, fun _ => w, fun _ _ => w, fun _ _ => w⟩

/-- What a run on a traced chip shows: the returned error code and the record
of the accesses. -/
def outcome {σ : Type} (r : Option (Int × (σ × List hw_event))) :
    Option (Int × List hw_event) :=
  r.map fun x => (x.1, x.2.2)

/-! ## Properties -/

/-! ### The loop follows its plan -/

theorem loop_eq_run_sink {σ : Type} (policy : mv88e6xxx_avb_tc_policy)
    (map : Nat → Nat → σ → Int × σ) (base per : Nat) (n : Nat) :
    ∀ (qc : Nat) (s : σ),
      qav_assign_qpri_loop policy map base per n qc s
        = run_sink map (qpri_plan policy base per n qc) s := by
  induction n with
  | zero => intro qc s; rfl
  | succ n ih =>
    intro qc s
    simp only [qav_assign_qpri_loop, qpri_plan]
    split_ifs <;> simp_all [run_sink]

theorem run_sink_recording {σ : Type} (map : Nat → Nat → σ → Int × σ) (cs : List (Nat × Nat)) :
    ∀ (s : σ) (tr : List sink_call),
      run_sink (recording map) cs (s, tr)
        = ((run_sink map cs s).1, ((run_sink map cs s).2, tr ++ sink_trace map cs s)) := by
  induction cs with
  | nil => intro s tr; simp [run_sink, sink_trace]
  | cons c cs ih =>
    intro s tr
    simp only [run_sink, sink_trace, recording]
    split_ifs with h
    · simp
    · rw [ih]; simp

theorem sink_trace_of_ok {σ : Type} (map : Nat → Nat → σ → Int × σ)
    (hok : ∀ f q s, (map f q s).1 = 0) (cs : List (Nat × Nat)) :
    ∀ s : σ, (run_sink map cs s).1 = 0 ∧
      sink_trace map cs s = cs.map fun c => ⟨c.1, c.2, 0⟩ := by
  induction cs with
  | nil => intro s; simp [run_sink, sink_trace]
  | cons c cs ih =>
    intro s
    simp only [run_sink, sink_trace, hok, ne_eq, not_true_eq_false, if_false, List.map_cons]
    exact ⟨(ih _).1, by rw [(ih _).2]⟩

/-! ### What the plan holds -/

theorem to_u8_of_lt {x : Nat} (h : x < 256) : to_u8 x = x := Nat.mod_eq_of_lt h

theorem qpri_plan_fst (policy : mv88e6xxx_avb_tc_policy) (base per : Nat) (n : Nat) :
    ∀ qc : Nat, n ≤ 8 →
      (qpri_plan policy base per n qc).map Prod.fst = List.range' (8 - n) n := by
  induction n with
  | zero => intro qc _; rfl
  | succ n ih =>
    intro qc hn
    have h8 : to_u8 (8 - (n + 1)) = 8 - (n + 1) := to_u8_of_lt (by omega)
    have hs : 8 - (n + 1) + 1 = 8 - n := by omega
    have hi := ih qc (by omega)
    have hi1 := ih (qc + 1) (by omega)
    simp only [qpri_plan, IEEE_8021Q_MAX_PRIORITIES, List.range'_succ, hs]
    generalize 8 - (n + 1) = f at h8
    split_ifs <;> simp only [List.map_cons, h8, hi, hi1]

theorem qpri_plan_lo (policy : mv88e6xxx_avb_tc_policy) (base per : Nat) (n : Nat) :
    ∀ qc : Nat, n ≤ 8 → ∀ c ∈ qpri_plan policy base per n qc,
      c.1 = (policy.map MV88E6XXX_AVB_TC_LO).fpri →
        c.2 = to_u8 (policy.map MV88E6XXX_AVB_TC_LO).qpri := by
  induction n with
  | zero => intro qc _ c hc; simp [qpri_plan] at hc
  | succ n ih =>
    intro qc hn c hc hfl
    have h8 : to_u8 (8 - (n + 1)) = 8 - (n + 1) := to_u8_of_lt (by omega)
    simp only [qpri_plan, IEEE_8021Q_MAX_PRIORITIES] at hc
    split_ifs at hc with h1 h2
    · rcases List.mem_cons.1 hc with rfl | hc
      · rfl
      · exact ih _ (by omega) c hc hfl
    · rcases List.mem_cons.1 hc with rfl | hc
      · exact absurd (hfl.symm.trans h8) h1
      · exact ih _ (by omega) c hc hfl
    · rcases List.mem_cons.1 hc with rfl | hc
      · exact absurd (hfl.symm.trans h8) h1
      · exact ih _ (by omega) c hc hfl

theorem qpri_plan_hi (policy : mv88e6xxx_avb_tc_policy) (base per : Nat)
    (hne : (policy.map MV88E6XXX_AVB_TC_LO).fpri ≠ (policy.map MV88E6XXX_AVB_TC_HI).fpri)
    (n : Nat) :
    ∀ qc : Nat, n ≤ 8 → ∀ c ∈ qpri_plan policy base per n qc,
      c.1 = (policy.map MV88E6XXX_AVB_TC_HI).fpri →
        c.2 = to_u8 (policy.map MV88E6XXX_AVB_TC_HI).qpri := by
  induction n with
  | zero => intro qc _ c hc; simp [qpri_plan] at hc
  | succ n ih =>
    intro qc hn c hc hfl
    have h8 : to_u8 (8 - (n + 1)) = 8 - (n + 1) := to_u8_of_lt (by omega)
    simp only [qpri_plan, IEEE_8021Q_MAX_PRIORITIES] at hc
    split_ifs at hc with h1 h2
    · rcases List.mem_cons.1 hc with rfl | hc
      · exact absurd (h1.trans (h8.symm.trans hfl)) hne
      · exact ih _ (by omega) c hc hfl
    · rcases List.mem_cons.1 hc with rfl | hc
      · rfl
      · exact ih _ (by omega) c hc hfl
    · rcases List.mem_cons.1 hc with rfl | hc
      · exact absurd (hfl.symm.trans h8) h2
      · exact ih _ (by omega) c hc hfl

theorem qpri_plan_legacy (policy : mv88e6xxx_avb_tc_policy) (base per : Nat) (n : Nat) :
    ∀ qc : Nat, n ≤ 8 →
      (qpri_plan policy base per n qc).filter (fun c => is_legacy_fpri policy c.1)
        = (List.enumFrom qc ((List.range' (8 - n) n).filter (is_legacy_fpri policy))).map
            fun kf => (kf.2, to_u8 (base + kf.1 / per)) := by
  induction n with
  | zero => intro qc _; rfl
  | succ n ih =>
    intro qc hn
    have h8 : to_u8 (8 - (n + 1)) = 8 - (n + 1) := to_u8_of_lt (by omega)
    have hs : 8 - (n + 1) + 1 = 8 - n := by omega
    have hi := ih qc (by omega)
    have hi1 := ih (qc + 1) (by omega)
    simp only [qpri_plan, IEEE_8021Q_MAX_PRIORITIES, List.range'_succ, hs]
    generalize 8 - (n + 1) = f at h8
    split_ifs with h1 h2
    · have hl : is_legacy_fpri policy f = false := by
        simp [is_legacy_fpri, h1]
      simp only [List.filter_cons, h8, hl, hi, Bool.false_eq_true, if_false]
    · have hl : is_legacy_fpri policy f = false := by
        simp [is_legacy_fpri, h2]
      simp only [List.filter_cons, h8, hl, hi, Bool.false_eq_true, if_false]
    · have hl : is_legacy_fpri policy f = true := by
        simp only [is_legacy_fpri, Bool.and_eq_true, decide_eq_true_eq]
        exact ⟨fun h => h1 h.symm, fun h => h2 h.symm⟩
      simp only [List.filter_cons, h8, hl, hi1, if_true, List.enumFrom_cons, List.map_cons]

/-! ### Results of `mv88e6xxx_qav_assign_qpri` -/

theorem ceil_div_eq (n c : ℕ) (hc : 0 < c) : ⌈(n : ℚ) / c⌉₊ = (n + c - 1) / c := by
  have hcq : (0 : ℚ) < c := by exact_mod_cast hc
  apply le_antisymm
  · rw [Nat.ceil_le, div_le_iff₀ hcq]
    have h1 := Nat.div_add_mod (n + c - 1) c
    have h2 := Nat.mod_lt (n + c - 1) hc
    have h3 : n ≤ (n + c - 1) / c * c := by
      rw [Nat.mul_comm]
      generalize c * ((n + c - 1) / c) = m at h1
      omega
    exact_mod_cast h3
  · have h1 : (n : ℚ) / c ≤ ⌈(n : ℚ) / c⌉₊ := Nat.le_ceil _
    rw [div_le_iff₀ hcq] at h1
    have h2 : n ≤ ⌈(n : ℚ) / c⌉₊ * c := by exact_mod_cast h1
    have h3 : (n + c - 1) / c < ⌈(n : ℚ) / c⌉₊ + 1 := by
      rw [Nat.div_lt_iff_lt_mul hc, Nat.add_mul]
      omega
    omega

/-- With a Legacy count other than zero the routine has a result: the run of
the sink over the plan of all eight frame priorities. -/
theorem assign_qpri_eq_run_sink {σ : Type} (policy : mv88e6xxx_avb_tc_policy)
    (map : Nat → Nat → σ → Int × σ) (context : σ)
    (hcount : 1 ≤ (policy.map MV88E6XXX_AVB_TC_LEGACY).count) :
    mv88e6xxx_qav_assign_qpri policy map context
      = some (run_sink map
          (qpri_plan policy (policy.map MV88E6XXX_AVB_TC_LEGACY).qpri
            ⌈(6 : ℚ) / (policy.map MV88E6XXX_AVB_TC_LEGACY).count⌉₊ 8 0) context) := by
  have hc : (policy.map MV88E6XXX_AVB_TC_LEGACY).count ≠ 0 := by omega
  have h6 : ((6 : ℕ) : ℚ) = 6 := by norm_num
  have hceil := ceil_div_eq 6 _ hcount
  rw [h6] at hceil
  simp only [mv88e6xxx_qav_assign_qpri, DIV_ROUND_UP, IEEE_8021Q_MAX_PRIORITIES, hc, if_false,
    loop_eq_run_sink, hceil]

/-- The record of a never-failing sink over the whole plan. -/
theorem assign_qpri_recording_of_ok {σ : Type} (policy : mv88e6xxx_avb_tc_policy)
    (map : Nat → Nat → σ → Int × σ) (context : σ)
    (hcount : 1 ≤ (policy.map MV88E6XXX_AVB_TC_LEGACY).count)
    (hok : ∀ f q s, (map f q s).1 = 0) :
    ∃ s, mv88e6xxx_qav_assign_qpri policy map context = some (0, s) ∧
      mv88e6xxx_qav_assign_qpri policy (recording map) (context, [])
        = some (0, (s, (qpri_plan policy (policy.map MV88E6XXX_AVB_TC_LEGACY).qpri
            ⌈(6 : ℚ) / (policy.map MV88E6XXX_AVB_TC_LEGACY).count⌉₊ 8 0).map
              fun c => ⟨c.1, c.2, 0⟩)) := by
  obtain ⟨h0, htr⟩ := sink_trace_of_ok map hok
    (qpri_plan policy (policy.map MV88E6XXX_AVB_TC_LEGACY).qpri
      ⌈(6 : ℚ) / (policy.map MV88E6XXX_AVB_TC_LEGACY).count⌉₊ 8 0) context
  refine ⟨(run_sink map (qpri_plan policy (policy.map MV88E6XXX_AVB_TC_LEGACY).qpri
      ⌈(6 : ℚ) / (policy.map MV88E6XXX_AVB_TC_LEGACY).count⌉₊ 8 0) context).2, ?_, ?_⟩
  · rw [assign_qpri_eq_run_sink policy map context hcount, ← h0]
  · rw [assign_qpri_eq_run_sink policy (recording map) (context, []) hcount,
      run_sink_recording, h0, htr, List.nil_append]

theorem legacy_fpris_length_aux :
    ∀ a b : Fin 8, a ≠ b →
      ((List.range 8).filter fun f => decide (f ≠ a.1) && decide (f ≠ b.1)).length = 6 := by
  decide

theorem legacy_fpris_length (policy : mv88e6xxx_avb_tc_policy)
    (hlo : (policy.map MV88E6XXX_AVB_TC_LO).fpri < 8)
    (hhi : (policy.map MV88E6XXX_AVB_TC_HI).fpri < 8)
    (hne : (policy.map MV88E6XXX_AVB_TC_LO).fpri ≠ (policy.map MV88E6XXX_AVB_TC_HI).fpri) :
    (legacy_fpris policy).length = 6 := by
  exact legacy_fpris_length_aux ⟨_, hlo⟩ ⟨_, hhi⟩ (fun h => hne (Fin.mk.inj h))

/-- The Legacy part of the plan of all eight frame priorities: the k-th Legacy
frame priority is paired with `base + k / per`, reduced to a `u8`. -/
theorem legacy_calls_of_plan (policy : mv88e6xxx_avb_tc_policy) (base per : Nat) :
    legacy_calls policy ((qpri_plan policy base per 8 0).map fun c => ⟨c.1, c.2, 0⟩)
      = (legacy_fpris policy).enum.map fun kf => (kf.2, to_u8 (base + kf.1 / per)) := by
  have h := qpri_plan_legacy policy base per 8 0 (le_refl 8)
  have hr : List.range' (8 - 8) 8 = List.range 8 := by rw [List.range_eq_range']
  rw [hr] at h
  simp only [legacy_calls, legacy_fpris, IEEE_8021Q_MAX_PRIORITIES, List.enum_eq_enumFrom,
    List.filter_map, List.map_map]
  rw [← h]
  exact List.map_id _

/-- C1: for every policy with Legacy count at least 1 and a sink that never
fails, `mv88e6xxx_qav_assign_qpri` returns 0 (success) after exactly eight
invocations of the sink, one for each frame priority 0, 1, ..., 7 in ascending
order, each carrying one queue priority. -/
theorem assign_qpri_calls_each_fpri_once {σ : Type} (policy : mv88e6xxx_avb_tc_policy)
    (map : Nat → Nat → σ → Int × σ) (context : σ)
    (hcount : 1 ≤ (policy.map MV88E6XXX_AVB_TC_LEGACY).count)
    (hok : ∀ f q s, (map f q s).1 = 0) :
    ∃ s calls,
      mv88e6xxx_qav_assign_qpri policy map context = some (0, s) ∧
      mv88e6xxx_qav_assign_qpri policy (recording map) (context, []) = some (0, (s, calls)) ∧
      calls.length = 8 ∧
      calls.map (fun c => c.fpri) = [0, 1, 2, 3, 4, 5, 6, 7] := by
  obtain ⟨s, h1, h2⟩ := assign_qpri_recording_of_ok policy map context hcount hok
  refine ⟨s, _, h1, h2, ?_, ?_⟩
  · have h := congrArg List.length (qpri_plan_fst policy
      (policy.map MV88E6XXX_AVB_TC_LEGACY).qpri
      ⌈(6 : ℚ) / (policy.map MV88E6XXX_AVB_TC_LEGACY).count⌉₊ 8 0 (le_refl 8))
    simpa using h
  · have h := qpri_plan_fst policy (policy.map MV88E6XXX_AVB_TC_LEGACY).qpri
      ⌈(6 : ℚ) / (policy.map MV88E6XXX_AVB_TC_LEGACY).count⌉₊ 8 0 (le_refl 8)
    rw [List.map_map]
    exact h

/-- Witness of C1: the policy with Legacy count 3 and base 0, Lo 4 -> 2,
Hi 5 -> 3, and the sink that never fails. -/
theorem assign_qpri_calls_each_fpri_once_witness :
    ∃ (s : Unit) (calls : List sink_call),
      mv88e6xxx_qav_assign_qpri (mk_policy ⟨0, 0, 3⟩ ⟨4, 2, 0⟩ ⟨5, 3, 0⟩) sink_ok ()
        = some (0, s) ∧
      mv88e6xxx_qav_assign_qpri (mk_policy ⟨0, 0, 3⟩ ⟨4, 2, 0⟩ ⟨5, 3, 0⟩) (recording sink_ok)
        ((), []) = some (0, (s, calls)) ∧
      calls.length = 8 ∧
      calls.map (fun c => c.fpri) = [0, 1, 2, 3, 4, 5, 6, 7] :=
  assign_qpri_calls_each_fpri_once (mk_policy ⟨0, 0, 3⟩ ⟨4, 2, 0⟩ ⟨5, 3, 0⟩) sink_ok ()
    (by decide) (fun _ _ _ => rfl)

/-- C2: for every policy whose Lo and Hi frame priorities are distinct values
in 0..7 and whose Legacy count is at least 1 (queue priorities within a `u8`,
sink never failing), there are six Legacy frame priorities and the k-th of
them, in ascending order (k counted from 0), is presented to the sink with the
queue priority `base + floor(k / ceil(6 / count))`. -/
theorem assign_qpri_legacy_bucketing {σ : Type} (policy : mv88e6xxx_avb_tc_policy)
    (map : Nat → Nat → σ → Int × σ) (context : σ)
    (hlo : (policy.map MV88E6XXX_AVB_TC_LO).fpri < 8)
    (hhi : (policy.map MV88E6XXX_AVB_TC_HI).fpri < 8)
    (hne : (policy.map MV88E6XXX_AVB_TC_LO).fpri ≠ (policy.map MV88E6XXX_AVB_TC_HI).fpri)
    (hcount : 1 ≤ (policy.map MV88E6XXX_AVB_TC_LEGACY).count)
    (hbase : (policy.map MV88E6XXX_AVB_TC_LEGACY).qpri + 5 < 256)
    (hok : ∀ f q s, (map f q s).1 = 0) :
    (legacy_fpris policy).length = 6 ∧
    ∃ s calls,
      mv88e6xxx_qav_assign_qpri policy (recording map) (context, []) = some (0, (s, calls)) ∧
      legacy_calls policy calls
        = (legacy_fpris policy).enum.map fun kf =>
            (kf.2, (policy.map MV88E6XXX_AVB_TC_LEGACY).qpri
              + kf.1 / ⌈(6 : ℚ) / (policy.map MV88E6XXX_AVB_TC_LEGACY).count⌉₊) := by
  have hlen := legacy_fpris_length policy hlo hhi hne
  obtain ⟨s, _, h2⟩ := assign_qpri_recording_of_ok policy map context hcount hok
  refine ⟨hlen, s, _, h2, ?_⟩
  rw [legacy_calls_of_plan]
  apply List.map_congr_left
  intro kf hkf
  have hk : kf.1 < 6 := hlen ▸ List.fst_lt_of_mem_enum hkf
  have hd : kf.1 / ⌈(6 : ℚ) / (policy.map MV88E6XXX_AVB_TC_LEGACY).count⌉₊ ≤ kf.1 :=
    Nat.div_le_self _ _
  rw [to_u8_of_lt (by omega)]

/-- Witness of C2, the bucketing example of the specification: count 3, base
0, Lo 4 -> 2, Hi 5 -> 3. -/
theorem assign_qpri_legacy_bucketing_witness :
    (legacy_fpris (mk_policy ⟨0, 0, 3⟩ ⟨4, 2, 0⟩ ⟨5, 3, 0⟩)).length = 6 ∧
    ∃ (s : Unit) (calls : List sink_call),
      mv88e6xxx_qav_assign_qpri (mk_policy ⟨0, 0, 3⟩ ⟨4, 2, 0⟩ ⟨5, 3, 0⟩) (recording sink_ok)
        ((), []) = some (0, (s, calls)) ∧
      legacy_calls (mk_policy ⟨0, 0, 3⟩ ⟨4, 2, 0⟩ ⟨5, 3, 0⟩) calls
        = (legacy_fpris (mk_policy ⟨0, 0, 3⟩ ⟨4, 2, 0⟩ ⟨5, 3, 0⟩)).enum.map fun kf =>
            (kf.2, ((mk_policy ⟨0, 0, 3⟩ ⟨4, 2, 0⟩ ⟨5, 3, 0⟩).map MV88E6XXX_AVB_TC_LEGACY).qpri
              + kf.1 / ⌈(6 : ℚ) /
                  ((mk_policy ⟨0, 0, 3⟩ ⟨4, 2, 0⟩ ⟨5, 3, 0⟩).map MV88E6XXX_AVB_TC_LEGACY).count⌉₊) :=
  assign_qpri_legacy_bucketing (mk_policy ⟨0, 0, 3⟩ ⟨4, 2, 0⟩ ⟨5, 3, 0⟩) sink_ok ()
    (by decide) (by decide) (by decide) (by decide) (by decide) (fun _ _ _ => rfl)

/-- The bucketing example of the specification, evaluated: with count 3, base
0, Lo 4 -> 2 and Hi 5 -> 3 the Legacy mapping is 0->0, 1->0, 2->1, 3->1, 6->2,
7->2. -/
theorem assign_qpri_bucketing_example :
    (mv88e6xxx_qav_assign_qpri (mk_policy ⟨0, 0, 3⟩ ⟨4, 2, 0⟩ ⟨5, 3, 0⟩) (recording sink_ok)
        ((), [])).map (fun r => (r.1, legacy_calls (mk_policy ⟨0, 0, 3⟩ ⟨4, 2, 0⟩ ⟨5, 3, 0⟩) r.2.2))
      = some (0, [(0, 0), (1, 0), (2, 1), (3, 1), (6, 2), (7, 2)]) := by
  decide

/-- C3: for every policy whose Lo and Hi frame priorities are distinct values
in 0..7 (Legacy count at least 1, Lo and Hi queue priorities within a `u8`,
sink never failing), the sink is invoked for the frame priority of Lo and for
that of Hi, every call for the frame priority of Lo carries the queue priority
of Lo and every call for the frame priority of Hi carries the queue priority
of Hi, whatever the Legacy base and count. -/
theorem assign_qpri_lo_hi_fixed {σ : Type} (policy : mv88e6xxx_avb_tc_policy)
    (map : Nat → Nat → σ → Int × σ) (context : σ)
    (hlo : (policy.map MV88E6XXX_AVB_TC_LO).fpri < 8)
    (hhi : (policy.map MV88E6XXX_AVB_TC_HI).fpri < 8)
    (hne : (policy.map MV88E6XXX_AVB_TC_LO).fpri ≠ (policy.map MV88E6XXX_AVB_TC_HI).fpri)
    (hcount : 1 ≤ (policy.map MV88E6XXX_AVB_TC_LEGACY).count)
    (hqlo : (policy.map MV88E6XXX_AVB_TC_LO).qpri < 256)
    (hqhi : (policy.map MV88E6XXX_AVB_TC_HI).qpri < 256)
    (hok : ∀ f q s, (map f q s).1 = 0) :
    ∃ s calls,
      mv88e6xxx_qav_assign_qpri policy (recording map) (context, []) = some (0, (s, calls)) ∧
      (∃ c ∈ calls, c.fpri = (policy.map MV88E6XXX_AVB_TC_LO).fpri) ∧
      (∃ c ∈ calls, c.fpri = (policy.map MV88E6XXX_AVB_TC_HI).fpri) ∧
      (∀ c ∈ calls, c.fpri = (policy.map MV88E6XXX_AVB_TC_LO).fpri →
        c.qpri = (policy.map MV88E6XXX_AVB_TC_LO).qpri) ∧
      (∀ c ∈ calls, c.fpri = (policy.map MV88E6XXX_AVB_TC_HI).fpri →
        c.qpri = (policy.map MV88E6XXX_AVB_TC_HI).qpri) := by
  obtain ⟨s, _, h2⟩ := assign_qpri_recording_of_ok policy map context hcount hok
  have hfst := qpri_plan_fst policy (policy.map MV88E6XXX_AVB_TC_LEGACY).qpri
    ⌈(6 : ℚ) / (policy.map MV88E6XXX_AVB_TC_LEGACY).count⌉₊ 8 0 (le_refl 8)
  have hmem : ∀ f, f < 8 → ∃ c ∈ (qpri_plan policy (policy.map MV88E6XXX_AVB_TC_LEGACY).qpri
      ⌈(6 : ℚ) / (policy.map MV88E6XXX_AVB_TC_LEGACY).count⌉₊ 8 0).map
        (fun c => (⟨c.1, c.2, 0⟩ : sink_call)), c.fpri = f := by
    intro f hf
    have hin : f ∈ (qpri_plan policy (policy.map MV88E6XXX_AVB_TC_LEGACY).qpri
        ⌈(6 : ℚ) / (policy.map MV88E6XXX_AVB_TC_LEGACY).count⌉₊ 8 0).map Prod.fst := by
      rw [hfst]; simp [List.mem_range']; omega
    obtain ⟨c, hc, rfl⟩ := List.mem_map.1 hin
    exact ⟨_, List.mem_map.2 ⟨c, hc, rfl⟩, rfl⟩
  refine ⟨s, _, h2, hmem _ hlo, hmem _ hhi, ?_, ?_⟩
  · intro c hc hf
    obtain ⟨d, hd, rfl⟩ := List.mem_map.1 hc
    exact (qpri_plan_lo policy _ _ 8 0 (le_refl 8) d hd hf).trans (to_u8_of_lt hqlo)
  · intro c hc hf
    obtain ⟨d, hd, rfl⟩ := List.mem_map.1 hc
    exact (qpri_plan_hi policy _ _ hne 8 0 (le_refl 8) d hd hf).trans (to_u8_of_lt hqhi)

/-- Witness of C3: Legacy count 3 and base 0, Lo 4 -> 2, Hi 5 -> 3. -/
theorem assign_qpri_lo_hi_fixed_witness :
    ∃ (s : Unit) (calls : List sink_call),
      mv88e6xxx_qav_assign_qpri (mk_policy ⟨0, 0, 3⟩ ⟨4, 2, 0⟩ ⟨5, 3, 0⟩) (recording sink_ok)
        ((), []) = some (0, (s, calls)) ∧
      (∃ c ∈ calls, c.fpri = 4) ∧ (∃ c ∈ calls, c.fpri = 5) ∧
      (∀ c ∈ calls, c.fpri = 4 → c.qpri = 2) ∧ (∀ c ∈ calls, c.fpri = 5 → c.qpri = 3) :=
  assign_qpri_lo_hi_fixed (mk_policy ⟨0, 0, 3⟩ ⟨4, 2, 0⟩ ⟨5, 3, 0⟩) sink_ok ()
    (by decide) (by decide) (by decide) (by decide) (by decide) (by decide) (fun _ _ _ => rfl)

/-- The queue priorities `base + k / per` of six consecutive `k` are exactly
the values from `base` to `base + 5 / per`. -/
theorem legacy_qpris_mem (base per q : Nat) (hper : 1 ≤ per) :
    q ∈ (List.range 6).map (fun k => base + k / per) ↔ base ≤ q ∧ q ≤ base + 5 / per := by
  simp only [List.mem_map, List.mem_range]
  constructor
  · rintro ⟨k, hk, rfl⟩
    exact ⟨Nat.le_add_right _ _, Nat.add_le_add_left (Nat.div_le_div_right (by omega)) _⟩
  · rintro ⟨h1, h2⟩
    have hj : q - base ≤ 5 / per := by omega
    have hm : (q - base) * per ≤ 5 := (Nat.le_div_iff_mul_le hper).1 hj
    refine ⟨(q - base) * per, by omega, ?_⟩
    rw [Nat.mul_div_cancel _ hper]
    omega

theorem fpri_per_qpri_pos (count : Nat) (hcount : 1 ≤ count) : 1 ≤ ⌈(6 : ℚ) / count⌉₊ := by
  have h6 : ((6 : ℕ) : ℚ) = 6 := by norm_num
  have h := ceil_div_eq 6 count hcount
  rw [h6] at h
  rw [h]
  exact (Nat.le_div_iff_mul_le hcount).2 (by omega)

theorem fpri_per_qpri_cases (count : Nat) (hcount : 1 ≤ count) :
    ⌈(6 : ℚ) / count⌉₊ = (6 + count - 1) / count ∧
    (5 / ((6 + count - 1) / count) + 1 = count ↔
      count = 1 ∨ count = 2 ∨ count = 3 ∨ count = 6) := by
  have h6 : ((6 : ℕ) : ℚ) = 6 := by norm_num
  have h := ceil_div_eq 6 count hcount
  rw [h6] at h
  refine ⟨h, ?_⟩
  by_cases hc : count ≤ 6
  · interval_cases count <;> simp
  · have h1 : (6 + count - 1) / count = 1 :=
      Nat.div_eq_of_lt_le (by omega) (by omega)
    rw [h1]
    omega

/-- Counterexample to C4: with Legacy count 4 (base 0, Lo 4 -> 2, Hi 5 -> 3)
the six Legacy frame priorities receive the queue priorities 0, 0, 1, 1, 2, 2:
three distinct values, not four. -/
theorem assign_qpri_count_four_uses_three_queues :
    mv88e6xxx_qav_assign_qpri (mk_policy ⟨0, 0, 4⟩ ⟨4, 2, 0⟩ ⟨5, 3, 0⟩) (recording sink_ok)
        ((), [])
      = some (0, ((), [⟨0, 0, 0⟩, ⟨1, 0, 0⟩, ⟨2, 1, 0⟩, ⟨3, 1, 0⟩, ⟨4, 2, 0⟩, ⟨5, 3, 0⟩,
          ⟨6, 2, 0⟩, ⟨7, 2, 0⟩])) ∧
    ((legacy_calls (mk_policy ⟨0, 0, 4⟩ ⟨4, 2, 0⟩ ⟨5, 3, 0⟩)
        [⟨0, 0, 0⟩, ⟨1, 0, 0⟩, ⟨2, 1, 0⟩, ⟨3, 1, 0⟩, ⟨4, 2, 0⟩, ⟨5, 3, 0⟩, ⟨6, 2, 0⟩,
          ⟨7, 2, 0⟩]).map Prod.snd).toFinset.card = 3 ∧
    ¬ ((legacy_calls (mk_policy ⟨0, 0, 4⟩ ⟨4, 2, 0⟩ ⟨5, 3, 0⟩)
        [⟨0, 0, 0⟩, ⟨1, 0, 0⟩, ⟨2, 1, 0⟩, ⟨3, 1, 0⟩, ⟨4, 2, 0⟩, ⟨5, 3, 0⟩, ⟨6, 2, 0⟩,
          ⟨7, 2, 0⟩]).map Prod.snd).toFinset.card
      = ((mk_policy ⟨0, 0, 4⟩ ⟨4, 2, 0⟩ ⟨5, 3, 0⟩).map MV88E6XXX_AVB_TC_LEGACY).count := by
  decide

/-- C4, as amended: for every policy with distinct Lo and Hi frame priorities
in 0..7 and Legacy count at least 1 (queue priorities within a `u8`, sink never
failing), the queue priorities given to the six Legacy frame priorities are
exactly `base, ..., base + floor(5 / per)` with `per = ceil(6 / count)`; their
number `floor(5 / per) + 1` equals the configured count exactly when the count
is 1, 2, 3 or 6. -/
theorem assign_qpri_legacy_run {σ : Type} (policy : mv88e6xxx_avb_tc_policy)
    (map : Nat → Nat → σ → Int × σ) (context : σ)
    (hlo : (policy.map MV88E6XXX_AVB_TC_LO).fpri < 8)
    (hhi : (policy.map MV88E6XXX_AVB_TC_HI).fpri < 8)
    (hne : (policy.map MV88E6XXX_AVB_TC_LO).fpri ≠ (policy.map MV88E6XXX_AVB_TC_HI).fpri)
    (hcount : 1 ≤ (policy.map MV88E6XXX_AVB_TC_LEGACY).count)
    (hbase : (policy.map MV88E6XXX_AVB_TC_LEGACY).qpri + 5 < 256)
    (hok : ∀ f q s, (map f q s).1 = 0) :
    ∃ s calls,
      mv88e6xxx_qav_assign_qpri policy (recording map) (context, []) = some (0, (s, calls)) ∧
      ((legacy_calls policy calls).map Prod.snd).toFinset
        = Finset.Icc (policy.map MV88E6XXX_AVB_TC_LEGACY).qpri
            ((policy.map MV88E6XXX_AVB_TC_LEGACY).qpri
              + 5 / ⌈(6 : ℚ) / (policy.map MV88E6XXX_AVB_TC_LEGACY).count⌉₊) ∧
      ((legacy_calls policy calls).map Prod.snd).toFinset.card
        = 5 / ⌈(6 : ℚ) / (policy.map MV88E6XXX_AVB_TC_LEGACY).count⌉₊ + 1 ∧
      (5 / ⌈(6 : ℚ) / (policy.map MV88E6XXX_AVB_TC_LEGACY).count⌉₊ + 1
          = (policy.map MV88E6XXX_AVB_TC_LEGACY).count ↔
        (policy.map MV88E6XXX_AVB_TC_LEGACY).count = 1 ∨
        (policy.map MV88E6XXX_AVB_TC_LEGACY).count = 2 ∨
        (policy.map MV88E6XXX_AVB_TC_LEGACY).count = 3 ∨
        (policy.map MV88E6XXX_AVB_TC_LEGACY).count = 6) := by
  have hlen := legacy_fpris_length policy hlo hhi hne
  obtain ⟨s, _, h2⟩ := assign_qpri_recording_of_ok policy map context hcount hok
  have hper := fpri_per_qpri_pos _ hcount
  obtain ⟨hce, hiff⟩ := fpri_per_qpri_cases _ hcount
  have hset : ((legacy_calls policy ((qpri_plan policy (policy.map MV88E6XXX_AVB_TC_LEGACY).qpri
      ⌈(6 : ℚ) / (policy.map MV88E6XXX_AVB_TC_LEGACY).count⌉₊ 8 0).map
        fun c => ⟨c.1, c.2, 0⟩)).map Prod.snd).toFinset
      = Finset.Icc (policy.map MV88E6XXX_AVB_TC_LEGACY).qpri
          ((policy.map MV88E6XXX_AVB_TC_LEGACY).qpri
            + 5 / ⌈(6 : ℚ) / (policy.map MV88E6XXX_AVB_TC_LEGACY).count⌉₊) := by
    have hq : (legacy_calls policy ((qpri_plan policy (policy.map MV88E6XXX_AVB_TC_LEGACY).qpri
        ⌈(6 : ℚ) / (policy.map MV88E6XXX_AVB_TC_LEGACY).count⌉₊ 8 0).map
          fun c => ⟨c.1, c.2, 0⟩)).map Prod.snd
        = (List.range 6).map fun k => (policy.map MV88E6XXX_AVB_TC_LEGACY).qpri
            + k / ⌈(6 : ℚ) / (policy.map MV88E6XXX_AVB_TC_LEGACY).count⌉₊ := by
      rw [legacy_calls_of_plan, List.map_map, ← hlen, ← List.enum_map_fst, List.map_map]
      apply List.map_congr_left
      intro kf hkf
      have hk : kf.1 < 6 := hlen ▸ List.fst_lt_of_mem_enum hkf
      have hd : kf.1 / ⌈(6 : ℚ) / (policy.map MV88E6XXX_AVB_TC_LEGACY).count⌉₊ ≤ kf.1 :=
        Nat.div_le_self _ _
      simp only [Function.comp]
      rw [to_u8_of_lt (by omega)]
    rw [hq]
    ext q
    rw [List.mem_toFinset, legacy_qpris_mem _ _ _ hper, Finset.mem_Icc]
  refine ⟨s, _, h2, hset, ?_, ?_⟩
  · rw [hset, Nat.card_Icc]
    generalize 5 / ⌈(6 : ℚ) / (policy.map MV88E6XXX_AVB_TC_LEGACY).count⌉₊ = j
    omega
  · rw [hce]; exact hiff

/-- Witness of C4 as amended: Legacy count 4 and base 0, Lo 4 -> 2,
Hi 5 -> 3. -/
theorem assign_qpri_legacy_run_witness :
    ∃ (s : Unit) (calls : List sink_call),
      mv88e6xxx_qav_assign_qpri (mk_policy ⟨0, 0, 4⟩ ⟨4, 2, 0⟩ ⟨5, 3, 0⟩) (recording sink_ok)
        ((), []) = some (0, (s, calls)) ∧
      ((legacy_calls (mk_policy ⟨0, 0, 4⟩ ⟨4, 2, 0⟩ ⟨5, 3, 0⟩) calls).map Prod.snd).toFinset
        = Finset.Icc 0 (0 + 5 / ⌈(6 : ℚ) / (4 : ℕ)⌉₊) ∧
      ((legacy_calls (mk_policy ⟨0, 0, 4⟩ ⟨4, 2, 0⟩ ⟨5, 3, 0⟩) calls).map Prod.snd).toFinset.card
        = 5 / ⌈(6 : ℚ) / (4 : ℕ)⌉₊ + 1 ∧
      (5 / ⌈(6 : ℚ) / (4 : ℕ)⌉₊ + 1 = 4 ↔ (4 = 1 ∨ 4 = 2 ∨ 4 = 3 ∨ 4 = 6)) :=
  assign_qpri_legacy_run (mk_policy ⟨0, 0, 4⟩ ⟨4, 2, 0⟩ ⟨5, 3, 0⟩) sink_ok ()
    (by decide) (by decide) (by decide) (by decide) (by decide) (fun _ _ _ => rfl)

/-- C5: with a Legacy count of 0 the routine `mv88e6xxx_qav_assign_qpri` has no
result, for every sink: the computation of the bucket size divides by zero
before the loop, and no error code is returned. The same holds of the family
traffic-class enable routines that reach it (here without
`CONFIG_NET_DSA_MV88E6XXX_SRP`). -/
theorem assign_qpri_count_zero_no_result {σ : Type} (fpri qpri : Nat)
    (lo hi : mv88e6xxx_avb_priority_map) (map : Nat → Nat → σ → Int × σ) (context : σ)
    (chip : mv88e6xxx_chip σ) :
    mv88e6xxx_qav_assign_qpri (mk_policy ⟨fpri, qpri, 0⟩ lo hi) map context = none ∧
    mv88e6xxx_qav_assign_qpri (mk_policy ⟨fpri, qpri, 0⟩ lo hi) (recording map) (context, [])
      = none ∧
    mv88e6352_tc_enable false chip (mk_policy ⟨fpri, qpri, 0⟩ lo hi) context = none ∧
    mv88e6390_tc_enable false chip (mk_policy ⟨fpri, qpri, 0⟩ lo hi) context = none := by
  refine ⟨rfl, rfl, ?_, ?_⟩
  · simp [mv88e6352_tc_enable, mv88e6xxx_qav_assign_qpri, DIV_ROUND_UP, mk_policy,
      MV88E6XXX_AVB_TC_LEGACY]
  · simp [mv88e6390_tc_enable, mv88e6xxx_qav_assign_qpri, DIV_ROUND_UP, mk_policy,
      MV88E6XXX_AVB_TC_LEGACY]

/-- The run of C7's example, evaluated: the sink that fails with -5 at frame
priority 3 is invoked for the frame priorities 0, 1, 2, 3 and the routine
returns -5. -/
theorem assign_qpri_fail_at_three_example :
    mv88e6xxx_qav_assign_qpri (mk_policy ⟨0, 0, 3⟩ ⟨4, 2, 0⟩ ⟨5, 3, 0⟩)
        (recording (sink_fail_at 3 (-5))) ((), [])
      = some (-5, ((), [⟨0, 0, 0⟩, ⟨1, 0, 0⟩, ⟨2, 1, 0⟩, ⟨3, 1, -5⟩])) := by
  decide

/-! ### Shaper parameters -/

theorem DIV_ROUND_UP_s32_natCast (n u : Nat) (hu : 1 ≤ u) (hsum : n + u - 1 < 2 ^ 31) :
    DIV_ROUND_UP_s32 (n : Int) (u : Int) = (((n + u - 1) / u : Nat) : Int) := by
  have h1 : (n : Int) + (u : Int) - 1 = ((n + u - 1 : Nat) : Int) := by omega
  have h2 : wrap_s32 ((n + u - 1 : Nat) : Int) = ((n + u - 1 : Nat) : Int) := by
    unfold wrap_s32
    omega
  rw [DIV_ROUND_UP_s32, h1, h2, Int.ofNat_tdiv]

theorem int_to_u16_natCast (k : Nat) : int_to_u16 (k : Int) = k % 65536 := by
  unfold int_to_u16
  omega

/-- The three family routines have the same body and differ only in the
constants they are given. -/
theorem map_tc_cbs_qopt_same :
    mv88e6341_map_tc_cbs_qopt = mv88e6352_map_tc_cbs_qopt ∧
    mv88e6390_map_tc_cbs_qopt = mv88e6352_map_tc_cbs_qopt :=
  ⟨rfl, rfl⟩

/-- The rate of an enabled request with a non-negative idle slope `n`, when
the sum `n + RATE_UNITS - 1` stays within `int`: the rounded-up quotient is
reduced modulo 65536 before it is clamped. -/
theorem map_tc_cbs_qopt_rate_eq (c : cbs_consts) (cbs_qopt : tc_cbs_qopt_offload) (n : Nat)
    (hen : cbs_qopt.enable = true) (hn : cbs_qopt.idleslope = (n : Int))
    (hu : 1 ≤ c.RATE_UNITS) (hsum : n + c.RATE_UNITS - 1 < 2 ^ 31) :
    (mv88e6352_map_tc_cbs_qopt c cbs_qopt).rate
      = clamp_t_u16 (((n + c.RATE_UNITS - 1) / c.RATE_UNITS) % 65536) 1 c.RATE_MASK := by
  simp only [mv88e6352_map_tc_cbs_qopt, hen, if_true, hn]
  rw [DIV_ROUND_UP_s32_natCast n c.RATE_UNITS hu hsum, int_to_u16_natCast]

/-- Within the range of a `u16` the conversion is the one the specification
describes: for a non-negative idle slope `n` whose rounded-up quotient by
`RATE_UNITS` is below 65536 (and `n + RATE_UNITS - 1` within `int`), the rate
is `ceil(n / RATE_UNITS)` clamped to `[1, RATE_MASK]`. -/
theorem map_tc_cbs_qopt_rate_in_range (c : cbs_consts) (cbs_qopt : tc_cbs_qopt_offload)
    (n : Nat) (hen : cbs_qopt.enable = true) (hn : cbs_qopt.idleslope = (n : Int))
    (hu : 1 ≤ c.RATE_UNITS) (hsum : n + c.RATE_UNITS - 1 < 2 ^ 31)
    (hq : (n + c.RATE_UNITS - 1) / c.RATE_UNITS < 65536)
    (hm : 1 ≤ c.RATE_MASK) (hm' : c.RATE_MASK ≤ 65535) :
    (mv88e6352_map_tc_cbs_qopt c cbs_qopt).rate
      = spec_rate cbs_qopt.idleslope c.RATE_UNITS c.RATE_MASK := by
  rw [map_tc_cbs_qopt_rate_eq c cbs_qopt n hen hn hu hsum]
  have hc : ⌈((n : Int) : ℚ) / c.RATE_UNITS⌉₊ = (n + c.RATE_UNITS - 1) / c.RATE_UNITS := by
    have := ceil_div_eq n c.RATE_UNITS hu
    simpa using this
  simp only [spec_rate, hn, hc, clamp_t_u16, to_u16]
  generalize (n + c.RATE_UNITS - 1) / c.RATE_UNITS = k at hq ⊢
  split_ifs <;> omega

/-- The rounding example of the specification: with `rate_unit = 64000` an
idle slope of 128001 gives rate 3, and an idle slope of 0 gives rate 1. -/
theorem map_tc_cbs_qopt_rounding_example :
    (mv88e6352_map_tc_cbs_qopt ⟨64000, 0xffff, 0x7fff⟩ ⟨true, 0, 1522, 0, 128001, 0⟩).rate = 3 ∧
    (mv88e6352_map_tc_cbs_qopt ⟨64000, 0xffff, 0x7fff⟩ ⟨true, 0, 1522, 0, 0, 0⟩).rate = 1 := by
  decide

/-- C8: an enabled request whose idle slope is `65536 * RATE_UNITS`, a
non-negative value that a signed 32-bit member holds when `RATE_UNITS` is at
most 32767, gets rate 1 from each family routine, for every rate mask from 2
to 65535: the rounded-up quotient 65536 is reduced to 0 by the assignment to
the `u16` object before the clamp raises it to 1, whereas
`ceil(idle_slope / rate_unit)` clamped to `[1, max_rate]` is `max_rate`. -/
theorem map_tc_cbs_qopt_rate_wraps (c : cbs_consts) (queue hicredit locredit sendslope : Int)
    (hu : 1 ≤ c.RATE_UNITS) (hu' : c.RATE_UNITS ≤ 32767)
    (hm : 2 ≤ c.RATE_MASK) (hm' : c.RATE_MASK ≤ 65535) :
    (0 : Int) ≤ 65536 * c.RATE_UNITS ∧ (65536 * c.RATE_UNITS : Int) < 2 ^ 31 ∧
    (mv88e6341_map_tc_cbs_qopt c
      ⟨true, queue, hicredit, locredit, 65536 * c.RATE_UNITS, sendslope⟩).rate = 1 ∧
    (mv88e6352_map_tc_cbs_qopt c
      ⟨true, queue, hicredit, locredit, 65536 * c.RATE_UNITS, sendslope⟩).rate = 1 ∧
    (mv88e6390_map_tc_cbs_qopt c
      ⟨true, queue, hicredit, locredit, 65536 * c.RATE_UNITS, sendslope⟩).rate = 1 ∧
    spec_rate (65536 * c.RATE_UNITS) c.RATE_UNITS c.RATE_MASK = c.RATE_MASK ∧
    c.RATE_MASK ≠ 1 := by
  have hn : (65536 * c.RATE_UNITS : Int) = ((65536 * c.RATE_UNITS : Nat) : Int) := by
    push_cast; rfl
  have hq : (65536 * c.RATE_UNITS + c.RATE_UNITS - 1) / c.RATE_UNITS = 65536 :=
    Nat.div_eq_of_lt_le (by omega) (by omega)
  have hrate : (mv88e6352_map_tc_cbs_qopt c
      ⟨true, queue, hicredit, locredit, 65536 * c.RATE_UNITS, sendslope⟩).rate = 1 := by
    rw [map_tc_cbs_qopt_rate_eq c _ (65536 * c.RATE_UNITS) rfl hn hu (by omega), hq]
    simp only [clamp_t_u16, to_u16]
    split_ifs <;> omega
  have hspec : spec_rate (65536 * c.RATE_UNITS) c.RATE_UNITS c.RATE_MASK = c.RATE_MASK := by
    have hc := ceil_div_eq (65536 * c.RATE_UNITS) c.RATE_UNITS hu
    rw [hq] at hc
    have hcast : (((65536 * (c.RATE_UNITS : Int) : Int)) : ℚ)
        = (((65536 * c.RATE_UNITS : Nat)) : ℚ) := by push_cast; rfl
    simp only [spec_rate, hcast, hc]
    omega
  exact ⟨by omega, by omega, hrate, hrate, hrate, hspec, by omega⟩

/-- Witness of C8: `RATE_UNITS = 64` and the rate mask 0xffff, idle slope
4194304. -/
theorem map_tc_cbs_qopt_rate_wraps_witness :
    (0 : Int) ≤ 65536 * (64 : Nat) ∧ (65536 * (64 : Nat) : Int) < 2 ^ 31 ∧
    (mv88e6341_map_tc_cbs_qopt ⟨64, 0xffff, 0x7fff⟩
      ⟨true, 0, 1522, 0, 65536 * (64 : Nat), 0⟩).rate = 1 ∧
    (mv88e6352_map_tc_cbs_qopt ⟨64, 0xffff, 0x7fff⟩
      ⟨true, 0, 1522, 0, 65536 * (64 : Nat), 0⟩).rate = 1 ∧
    (mv88e6390_map_tc_cbs_qopt ⟨64, 0xffff, 0x7fff⟩
      ⟨true, 0, 1522, 0, 65536 * (64 : Nat), 0⟩).rate = 1 ∧
    spec_rate (65536 * (64 : Nat)) 64 0xffff = 0xffff ∧
    (0xffff : Nat) ≠ 1 :=
  map_tc_cbs_qopt_rate_wraps ⟨64, 0xffff, 0x7fff⟩ 0 1522 0 0
    (by decide) (by decide) (by decide) (by decide)

/-- Bounds of a clamp to `[1, hi]` for a mask `hi` from 1 to 65535. -/
theorem clamp_t_u16_bounds (val hi : Nat) (h1 : 1 ≤ hi) (h2 : hi ≤ 65535) :
    1 ≤ clamp_t_u16 val 1 hi ∧ clamp_t_u16 val 1 hi ≤ hi := by
  simp only [clamp_t_u16, to_u16]
  split_ifs <;> omega

/-- C9: an enabled request with `hicredit = 65537`, a value above every
hi-limit mask of 16 bits, gets hi-limit 1 from each family routine, for every
hi-limit mask from 2 to 65535: the value is reduced modulo 65536 by the
assignment to the `u16` object before it is clamped, so the result is the
wrapped value 1 and not the mask. -/
theorem map_tc_cbs_qopt_hilimit_wraps (c : cbs_consts) (queue locredit idleslope sendslope : Int)
    (hm : 2 ≤ c.HI_LIMIT_MASK) (hm' : c.HI_LIMIT_MASK ≤ 65535) :
    (c.HI_LIMIT_MASK : Int) < 65537 ∧
    (mv88e6341_map_tc_cbs_qopt c ⟨true, queue, 65537, locredit, idleslope, sendslope⟩).hilimit
      = 1 ∧
    (mv88e6352_map_tc_cbs_qopt c ⟨true, queue, 65537, locredit, idleslope, sendslope⟩).hilimit
      = 1 ∧
    (mv88e6390_map_tc_cbs_qopt c ⟨true, queue, 65537, locredit, idleslope, sendslope⟩).hilimit
      = 1 ∧
    int_to_u16 65537 = 1 ∧
    c.HI_LIMIT_MASK ≠ 1 := by
  have h : (mv88e6352_map_tc_cbs_qopt c
      ⟨true, queue, 65537, locredit, idleslope, sendslope⟩).hilimit = 1 := by
    have h1 : int_to_u16 65537 = 1 := by decide
    simp only [mv88e6352_map_tc_cbs_qopt, if_true, h1, clamp_t_u16, to_u16]
    split_ifs <;> omega
  exact ⟨by omega, h, h, h, by decide, by omega⟩

/-- Witness of C9: the hi-limit mask 0x7fff. -/
theorem map_tc_cbs_qopt_hilimit_wraps_witness :
    ((0x7fff : Nat) : Int) < 65537 ∧
    (mv88e6341_map_tc_cbs_qopt ⟨64, 0xffff, 0x7fff⟩ ⟨true, 0, 65537, 0, 128001, 0⟩).hilimit
      = 1 ∧
    (mv88e6352_map_tc_cbs_qopt ⟨64, 0xffff, 0x7fff⟩ ⟨true, 0, 65537, 0, 128001, 0⟩).hilimit
      = 1 ∧
    (mv88e6390_map_tc_cbs_qopt ⟨64, 0xffff, 0x7fff⟩ ⟨true, 0, 65537, 0, 128001, 0⟩).hilimit
      = 1 ∧
    int_to_u16 65537 = 1 ∧
    (0x7fff : Nat) ≠ 1 :=
  map_tc_cbs_qopt_hilimit_wraps ⟨64, 0xffff, 0x7fff⟩ 0 0 128001 0 (by decide) (by decide)

/-- A hi-credit above the mask that a `u16` holds is clamped to the mask. -/
theorem map_tc_cbs_qopt_hilimit_clamped (c : cbs_consts) (cbs_qopt : tc_cbs_qopt_offload)
    (hen : cbs_qopt.enable = true)
    (hm : 1 ≤ c.HI_LIMIT_MASK)
    (hlo : (c.HI_LIMIT_MASK : Int) < cbs_qopt.hicredit) (hhi : cbs_qopt.hicredit ≤ 65535) :
    (mv88e6352_map_tc_cbs_qopt c cbs_qopt).hilimit = c.HI_LIMIT_MASK := by
  have h1 : c.HI_LIMIT_MASK < int_to_u16 cbs_qopt.hicredit ∧
      int_to_u16 cbs_qopt.hicredit ≤ 65535 := by
    unfold int_to_u16
    omega
  simp only [mv88e6352_map_tc_cbs_qopt, hen, if_true, clamp_t_u16, to_u16]
  split_ifs <;> omega

/-- C10: for each family routine and every enabled request, whatever its idle
slope and hi-credit, with masks from 1 to 65535: the routine returns 0, the
rate lies in `[1, RATE_MASK]` and the hi-limit lies in `[1, HI_LIMIT_MASK]`; an
idle slope of 0 gives rate 1. -/
theorem map_tc_cbs_qopt_enabled_bounds (c : cbs_consts) (cbs_qopt : tc_cbs_qopt_offload)
    (hen : cbs_qopt.enable = true)
    (hu : 1 ≤ c.RATE_UNITS) (hu' : c.RATE_UNITS ≤ 2 ^ 31)
    (hr : 1 ≤ c.RATE_MASK) (hr' : c.RATE_MASK ≤ 65535)
    (hh : 1 ≤ c.HI_LIMIT_MASK) (hh' : c.HI_LIMIT_MASK ≤ 65535) :
    enabled_outputs_in_range c cbs_qopt.idleslope (mv88e6341_map_tc_cbs_qopt c cbs_qopt) ∧
    enabled_outputs_in_range c cbs_qopt.idleslope (mv88e6352_map_tc_cbs_qopt c cbs_qopt) ∧
    enabled_outputs_in_range c cbs_qopt.idleslope (mv88e6390_map_tc_cbs_qopt c cbs_qopt) := by
  have h : enabled_outputs_in_range c cbs_qopt.idleslope
      (mv88e6352_map_tc_cbs_qopt c cbs_qopt) := by
    refine ⟨?_, ?_, ?_, ?_, ?_, ?_⟩
    · simp only [mv88e6352_map_tc_cbs_qopt, hen, if_true]
    · simp only [mv88e6352_map_tc_cbs_qopt, hen, if_true]
      exact (clamp_t_u16_bounds _ _ hr hr').1
    · simp only [mv88e6352_map_tc_cbs_qopt, hen, if_true]
      exact (clamp_t_u16_bounds _ _ hr hr').2
    · simp only [mv88e6352_map_tc_cbs_qopt, hen, if_true]
      exact (clamp_t_u16_bounds _ _ hh hh').1
    · simp only [mv88e6352_map_tc_cbs_qopt, hen, if_true]
      exact (clamp_t_u16_bounds _ _ hh hh').2
    · intro h0
      have hq : (0 + c.RATE_UNITS - 1) / c.RATE_UNITS = 0 :=
        Nat.div_eq_of_lt (by omega)
      rw [map_tc_cbs_qopt_rate_eq c cbs_qopt 0 hen (by simpa using h0) hu (by omega), hq]
      simp only [clamp_t_u16, to_u16]
      split_ifs <;> omega
  exact ⟨h, h, h⟩

/-- Witness of C10: `RATE_UNITS = 64`, masks 0xffff and 0x7fff, an enabled
request with idle slope 0 and hi-credit 0. -/
theorem map_tc_cbs_qopt_enabled_bounds_witness :
    enabled_outputs_in_range ⟨64, 0xffff, 0x7fff⟩ 0
      (mv88e6341_map_tc_cbs_qopt ⟨64, 0xffff, 0x7fff⟩ ⟨true, 0, 0, 0, 0, 0⟩) ∧
    enabled_outputs_in_range ⟨64, 0xffff, 0x7fff⟩ 0
      (mv88e6352_map_tc_cbs_qopt ⟨64, 0xffff, 0x7fff⟩ ⟨true, 0, 0, 0, 0, 0⟩) ∧
    enabled_outputs_in_range ⟨64, 0xffff, 0x7fff⟩ 0
      (mv88e6390_map_tc_cbs_qopt ⟨64, 0xffff, 0x7fff⟩ ⟨true, 0, 0, 0, 0, 0⟩) :=
  map_tc_cbs_qopt_enabled_bounds ⟨64, 0xffff, 0x7fff⟩ ⟨true, 0, 0, 0, 0, 0⟩ rfl
    (by decide) (by decide) (by decide) (by decide) (by decide) (by decide)

/-- The outputs for the enabled request with idle slope 0 and hi-credit 0,
evaluated: rate 1 and hi-limit 1. -/
theorem map_tc_cbs_qopt_zero_example :
    mv88e6352_map_tc_cbs_qopt ⟨64, 0xffff, 0x7fff⟩ ⟨true, 0, 0, 0, 0, 0⟩ = ⟨0, 1, 1⟩ := by
  decide

/-! ### Disabled shaper -/

/-- C11: for each family routine and every request with `enable = false`,
whatever its idle slope and hi-credit, the routine returns 0 with rate 0 and
the hi-limit mask of the family as hi-limit (a mask of at most 16 bits). -/
theorem map_tc_cbs_qopt_disabled (c : cbs_consts) (queue hicredit locredit idleslope sendslope : Int)
    (hm : c.HI_LIMIT_MASK ≤ 65535) :
    mv88e6341_map_tc_cbs_qopt c ⟨false, queue, hicredit, locredit, idleslope, sendslope⟩
      = ⟨0, 0, c.HI_LIMIT_MASK⟩ ∧
    mv88e6352_map_tc_cbs_qopt c ⟨false, queue, hicredit, locredit, idleslope, sendslope⟩
      = ⟨0, 0, c.HI_LIMIT_MASK⟩ ∧
    mv88e6390_map_tc_cbs_qopt c ⟨false, queue, hicredit, locredit, idleslope, sendslope⟩
      = ⟨0, 0, c.HI_LIMIT_MASK⟩ := by
  have h : to_u16 c.HI_LIMIT_MASK = c.HI_LIMIT_MASK := Nat.mod_eq_of_lt (by omega)
  simp [mv88e6341_map_tc_cbs_qopt, mv88e6352_map_tc_cbs_qopt, mv88e6390_map_tc_cbs_qopt, h]

/-- Witness of C11: hi-limit mask 0x7fff, a disabled request with idle slope
128001 and hi-credit 65537. -/
theorem map_tc_cbs_qopt_disabled_witness :
    mv88e6341_map_tc_cbs_qopt ⟨64, 0xffff, 0x7fff⟩ ⟨false, 0, 65537, 0, 128001, 0⟩
      = ⟨0, 0, 0x7fff⟩ ∧
    mv88e6352_map_tc_cbs_qopt ⟨64, 0xffff, 0x7fff⟩ ⟨false, 0, 65537, 0, 128001, 0⟩
      = ⟨0, 0, 0x7fff⟩ ∧
    mv88e6390_map_tc_cbs_qopt ⟨64, 0xffff, 0x7fff⟩ ⟨false, 0, 65537, 0, 128001, 0⟩
      = ⟨0, 0, 0x7fff⟩ :=
  map_tc_cbs_qopt_disabled ⟨64, 0xffff, 0x7fff⟩ 0 65537 0 128001 0 (by decide)

/-! ### The queue window of the 4-queue family -/

/-- The validation of `mv88e6352_tc_enable` finds a bad queue priority exactly
when Lo is not in queue 1 or 2 or Hi is not in queue 2 or 3. -/
theorem mv88e6352_bad_qpri_iff (policy : mv88e6xxx_avb_tc_policy) :
    mv88e6352_bad_qpri policy = true ↔
      ¬ (((policy.map MV88E6XXX_AVB_TC_LO).qpri = 1 ∨ (policy.map MV88E6XXX_AVB_TC_LO).qpri = 2) ∧
        ((policy.map MV88E6XXX_AVB_TC_HI).qpri = 2 ∨ (policy.map MV88E6XXX_AVB_TC_HI).qpri = 3)) := by
  simp only [mv88e6352_bad_qpri, MV88E6352_AVB_QUEUE_MIN, MV88E6352_AVB_QUEUE_MAX,
    MV88E6XXX_AVB_TC_LO, MV88E6XXX_AVB_TC_HI, List.any_cons, List.any_nil, Bool.or_false,
    Bool.or_eq_true, decide_eq_true_eq]
  have h1 : ((1 : Fin 3) : Nat) = 1 := rfl
  have h2 : ((2 : Fin 3) : Nat) = 2 := rfl
  rw [h1, h2]
  omega

/-- C12: `mv88e6352_tc_enable` (with `CONFIG_NET_DSA_MV88E6XXX_SRP` set) returns
`-EOPNOTSUPP` and leaves the hardware state as it was, for every policy in
which Lo is not in queue 1 or 2 or Hi is not in queue 2 or 3, whatever the
Legacy count; on a chip whose accesses are recorded the record is left as it
was, so no register is written. For a policy inside both windows it goes on
to the register writes: it returns the error of the write of the AVB
configuration word when that write fails, and otherwise (Legacy count at least
1) what the write of the priority map register returns. -/
theorem mv88e6352_tc_enable_qpri_window {σ : Type} (chip : mv88e6xxx_chip σ)
    (policy : mv88e6xxx_avb_tc_policy) (s : σ) (log : List hw_event) :
    (¬ (((policy.map MV88E6XXX_AVB_TC_LO).qpri = 1 ∨ (policy.map MV88E6XXX_AVB_TC_LO).qpri = 2) ∧
        ((policy.map MV88E6XXX_AVB_TC_HI).qpri = 2 ∨ (policy.map MV88E6XXX_AVB_TC_HI).qpri = 3)) →
      mv88e6352_tc_enable true chip policy s = some (-EOPNOTSUPP, s) ∧
      mv88e6352_tc_enable true (traced chip) policy (s, log) = some (-EOPNOTSUPP, (s, log))) ∧
    ((((policy.map MV88E6XXX_AVB_TC_LO).qpri = 1 ∨ (policy.map MV88E6XXX_AVB_TC_LO).qpri = 2) ∧
        ((policy.map MV88E6XXX_AVB_TC_HI).qpri = 2 ∨ (policy.map MV88E6XXX_AVB_TC_HI).qpri = 3)) →
      ((mv88e6xxx_avb_write chip MV88E6XXX_AVB_CFG_AVB
          (mv88e6352_avb_pri_map_to_reg policy.map) s).1 ≠ 0 →
        mv88e6352_tc_enable true chip policy s
          = some (mv88e6xxx_avb_write chip MV88E6XXX_AVB_CFG_AVB
              (mv88e6352_avb_pri_map_to_reg policy.map) s)) ∧
      ((mv88e6xxx_avb_write chip MV88E6XXX_AVB_CFG_AVB
          (mv88e6352_avb_pri_map_to_reg policy.map) s).1 = 0 →
        1 ≤ (policy.map MV88E6XXX_AVB_TC_LEGACY).count →
        ∃ reg, mv88e6352_tc_enable true chip policy s
          = some (chip.g1_set_ieee_pri_map reg
              (mv88e6xxx_avb_write chip MV88E6XXX_AVB_CFG_AVB
                (mv88e6352_avb_pri_map_to_reg policy.map) s).2))) := by
  refine ⟨?_, ?_⟩
  · intro hbad
    have hb := (mv88e6352_bad_qpri_iff policy).2 hbad
    constructor
    · simp [mv88e6352_tc_enable, hb]
    · simp [mv88e6352_tc_enable, hb]
  · intro hgood
    have hb : mv88e6352_bad_qpri policy = false := by
      cases h : mv88e6352_bad_qpri policy
      · rfl
      · exact absurd hgood ((mv88e6352_bad_qpri_iff policy).1 h)
    refine ⟨?_, ?_⟩
    · intro hw
      simp [mv88e6352_tc_enable, hb, hw]
    · intro hw hcount
      obtain ⟨reg, h1, _⟩ := assign_qpri_recording_of_ok policy
        (mv88e6352_qav_map_fpri_qpri chip) 0 hcount (fun _ _ _ => rfl)
      exact ⟨to_u16 reg, by simp [mv88e6352_tc_enable, hb, hw, h1]⟩

/-- Witness of C12 on the example chip: the policy Lo 4 -> 0, Hi 5 -> 3 (Legacy
count 0) is rejected, and the policy Lo 4 -> 2, Hi 5 -> 3 (Legacy base 0 and
count 3) goes on to the writes. -/
theorem mv88e6352_tc_enable_qpri_window_witness :
    (mv88e6352_tc_enable true example_chip (mk_policy ⟨0, 0, 0⟩ ⟨4, 0, 0⟩ ⟨5, 3, 0⟩) []
        = some (-EOPNOTSUPP, []) ∧
      mv88e6352_tc_enable true (traced example_chip) (mk_policy ⟨0, 0, 0⟩ ⟨4, 0, 0⟩ ⟨5, 3, 0⟩)
          ([], []) = some (-EOPNOTSUPP, ([], []))) ∧
    (∃ reg, mv88e6352_tc_enable true example_chip (mk_policy ⟨0, 0, 3⟩ ⟨4, 2, 0⟩ ⟨5, 3, 0⟩) []
      = some (example_chip.g1_set_ieee_pri_map reg
          (mv88e6xxx_avb_write example_chip MV88E6XXX_AVB_CFG_AVB
            (mv88e6352_avb_pri_map_to_reg (mk_policy ⟨0, 0, 3⟩ ⟨4, 2, 0⟩ ⟨5, 3, 0⟩).map) []).2)) :=
  ⟨(mv88e6352_tc_enable_qpri_window example_chip (mk_policy ⟨0, 0, 0⟩ ⟨4, 0, 0⟩ ⟨5, 3, 0⟩) []
      []).1 (by decide),
    ((mv88e6352_tc_enable_qpri_window example_chip (mk_policy ⟨0, 0, 3⟩ ⟨4, 2, 0⟩ ⟨5, 3, 0⟩) []
      []).2 (by decide)).2 (by decide) (by decide)⟩

/-- The 4-queue enable with `CONFIG_NET_DSA_MV88E6XXX_SRP` set, evaluated on the
example chip: Lo in queue 0 is rejected with `-EOPNOTSUPP` and nothing is
written; Lo in queue 2 and Hi in queue 3 are accepted, and the AVB
configuration word 0x5342 and the priority map register are written. -/
theorem mv88e6352_tc_enable_window_example :
    mv88e6352_tc_enable true example_chip (mk_policy ⟨0, 0, 3⟩ ⟨4, 0, 0⟩ ⟨5, 3, 0⟩) []
      = some (-95, []) ∧
    mv88e6352_tc_enable true example_chip (mk_policy ⟨0, 0, 3⟩ ⟨4, 2, 0⟩ ⟨5, 3, 0⟩) []
      = some (0, [.avb_write 0 0x5342, .set_ieee_pri_map 0xae50]) := by
  decide

/-! ### The Legacy run -/

/-- The Legacy calls of a never-failing sink: the k-th Legacy frame priority
with the queue priority `base + k / ceil(6 / count)`. -/
theorem legacy_calls_of_ok {σ : Type} (policy : mv88e6xxx_avb_tc_policy)
    (map : Nat → Nat → σ → Int × σ) (context : σ)
    (hlo : (policy.map MV88E6XXX_AVB_TC_LO).fpri < 8)
    (hhi : (policy.map MV88E6XXX_AVB_TC_HI).fpri < 8)
    (hne : (policy.map MV88E6XXX_AVB_TC_LO).fpri ≠ (policy.map MV88E6XXX_AVB_TC_HI).fpri)
    (hcount : 1 ≤ (policy.map MV88E6XXX_AVB_TC_LEGACY).count)
    (hbase : (policy.map MV88E6XXX_AVB_TC_LEGACY).qpri + 5 < 256)
    (hok : ∀ f q s, (map f q s).1 = 0) :
    ∃ s calls,
      mv88e6xxx_qav_assign_qpri policy (recording map) (context, []) = some (0, (s, calls)) ∧
      legacy_calls policy calls
        = (legacy_fpris policy).enum.map fun kf =>
            (kf.2, (policy.map MV88E6XXX_AVB_TC_LEGACY).qpri
              + kf.1 / ⌈(6 : ℚ) / (policy.map MV88E6XXX_AVB_TC_LEGACY).count⌉₊) := by
  have hlen := legacy_fpris_length policy hlo hhi hne
  obtain ⟨s, _, h2⟩ := assign_qpri_recording_of_ok policy map context hcount hok
  refine ⟨s, _, h2, ?_⟩
  rw [legacy_calls_of_plan]
  apply List.map_congr_left
  intro kf hkf
  have hk : kf.1 < 6 := hlen ▸ List.fst_lt_of_mem_enum hkf
  have hd : kf.1 / ⌈(6 : ℚ) / (policy.map MV88E6XXX_AVB_TC_LEGACY).count⌉₊ ≤ kf.1 :=
    Nat.div_le_self _ _
  rw [to_u8_of_lt (by omega)]

/-- The last bucket lies within the configured count: with
`per = ceil(6 / count)`, `floor(5 / per) + 1 <= count`. -/
theorem legacy_run_within_count (count : Nat) (hcount : 1 ≤ count) :
    5 / ⌈(6 : ℚ) / count⌉₊ + 1 ≤ count := by
  rw [(fpri_per_qpri_cases count hcount).1]
  by_cases hc : count ≤ 6
  · interval_cases count <;> simp
  · have h1 : (6 + count - 1) / count = 1 := Nat.div_eq_of_lt_le (by omega) (by omega)
    rw [h1]
    omega

/-- C20: for every policy with distinct Lo and Hi frame priorities in 0..7 and
every Legacy count at least 1, counts 4, 5 and counts above 6 included (queue
priorities within a `u8`, sink never failing): the Legacy frame priorities are
presented in ascending order, every queue priority given to one of them lies
in `[base, base + count - 1]`, the first of them gets exactly `base`, and the
queue priorities do not decrease from one Legacy frame priority to the
next. -/
theorem assign_qpri_legacy_within_run {σ : Type} (policy : mv88e6xxx_avb_tc_policy)
    (map : Nat → Nat → σ → Int × σ) (context : σ)
    (hlo : (policy.map MV88E6XXX_AVB_TC_LO).fpri < 8)
    (hhi : (policy.map MV88E6XXX_AVB_TC_HI).fpri < 8)
    (hne : (policy.map MV88E6XXX_AVB_TC_LO).fpri ≠ (policy.map MV88E6XXX_AVB_TC_HI).fpri)
    (hcount : 1 ≤ (policy.map MV88E6XXX_AVB_TC_LEGACY).count)
    (hbase : (policy.map MV88E6XXX_AVB_TC_LEGACY).qpri + 5 < 256)
    (hok : ∀ f q s, (map f q s).1 = 0) :
    ∃ s calls,
      mv88e6xxx_qav_assign_qpri policy (recording map) (context, []) = some (0, (s, calls)) ∧
      (legacy_calls policy calls).map Prod.fst = legacy_fpris policy ∧
      (∀ c ∈ legacy_calls policy calls,
        (policy.map MV88E6XXX_AVB_TC_LEGACY).qpri ≤ c.2 ∧
        c.2 ≤ (policy.map MV88E6XXX_AVB_TC_LEGACY).qpri
          + (policy.map MV88E6XXX_AVB_TC_LEGACY).count - 1) ∧
      ((legacy_calls policy calls).head?.map Prod.snd
        = some (policy.map MV88E6XXX_AVB_TC_LEGACY).qpri) ∧
      List.Pairwise (fun a b => a ≤ b) ((legacy_calls policy calls).map Prod.snd) := by
  have hlen := legacy_fpris_length policy hlo hhi hne
  obtain ⟨s, calls, h1, h2⟩ := legacy_calls_of_ok policy map context hlo hhi hne hcount hbase hok
  have hrun := legacy_run_within_count _ hcount
  have hsnd : (legacy_calls policy calls).map Prod.snd
      = (List.range 6).map fun k => (policy.map MV88E6XXX_AVB_TC_LEGACY).qpri
          + k / ⌈(6 : ℚ) / (policy.map MV88E6XXX_AVB_TC_LEGACY).count⌉₊ := by
    rw [h2, List.map_map, ← hlen, ← List.enum_map_fst, List.map_map]
    rfl
  refine ⟨s, calls, h1, ?_, ?_, ?_, ?_⟩
  · rw [h2, List.map_map]
    exact List.enum_map_snd _
  · intro c hc
    rw [h2] at hc
    obtain ⟨kf, hkf, rfl⟩ := List.mem_map.1 hc
    have hk : kf.1 < 6 := hlen ▸ List.fst_lt_of_mem_enum hkf
    have hd : kf.1 / ⌈(6 : ℚ) / (policy.map MV88E6XXX_AVB_TC_LEGACY).count⌉₊
        ≤ 5 / ⌈(6 : ℚ) / (policy.map MV88E6XXX_AVB_TC_LEGACY).count⌉₊ :=
      Nat.div_le_div_right (by omega)
    constructor
    · exact Nat.le_add_right _ _
    · show (policy.map MV88E6XXX_AVB_TC_LEGACY).qpri
          + kf.1 / ⌈(6 : ℚ) / (policy.map MV88E6XXX_AVB_TC_LEGACY).count⌉₊ ≤ _
      generalize kf.1 / ⌈(6 : ℚ) / (policy.map MV88E6XXX_AVB_TC_LEGACY).count⌉₊ = a at hd
      generalize 5 / ⌈(6 : ℚ) / (policy.map MV88E6XXX_AVB_TC_LEGACY).count⌉₊ = b at hd hrun
      omega
  · rw [← List.head?_map, hsnd]
    simp [List.range_succ_eq_map]
  · rw [hsnd]
    exact List.Pairwise.map _
      (fun a b hab => Nat.add_le_add_left (Nat.div_le_div_right (Nat.le_of_lt hab)) _)
      (List.pairwise_lt_range 6)

/-- Witness of C20: Legacy count 5 and base 1, Lo 4 -> 2, Hi 5 -> 3. -/
theorem assign_qpri_legacy_within_run_witness :
    ∃ (s : Unit) (calls : List sink_call),
      mv88e6xxx_qav_assign_qpri (mk_policy ⟨0, 1, 5⟩ ⟨4, 2, 0⟩ ⟨5, 3, 0⟩) (recording sink_ok)
        ((), []) = some (0, (s, calls)) ∧
      (legacy_calls (mk_policy ⟨0, 1, 5⟩ ⟨4, 2, 0⟩ ⟨5, 3, 0⟩) calls).map Prod.fst
        = legacy_fpris (mk_policy ⟨0, 1, 5⟩ ⟨4, 2, 0⟩ ⟨5, 3, 0⟩) ∧
      (∀ c ∈ legacy_calls (mk_policy ⟨0, 1, 5⟩ ⟨4, 2, 0⟩ ⟨5, 3, 0⟩) calls,
        1 ≤ c.2 ∧ c.2 ≤ 1 + 5 - 1) ∧
      ((legacy_calls (mk_policy ⟨0, 1, 5⟩ ⟨4, 2, 0⟩ ⟨5, 3, 0⟩) calls).head?.map Prod.snd
        = some 1) ∧
      List.Pairwise (fun a b => a ≤ b)
        ((legacy_calls (mk_policy ⟨0, 1, 5⟩ ⟨4, 2, 0⟩ ⟨5, 3, 0⟩) calls).map Prod.snd) :=
  assign_qpri_legacy_within_run (mk_policy ⟨0, 1, 5⟩ ⟨4, 2, 0⟩ ⟨5, 3, 0⟩) sink_ok ()
    (by decide) (by decide) (by decide) (by decide) (by decide) (fun _ _ _ => rfl)

/-- The Legacy mapping for the counts 4, 5 and 7, evaluated (base 1, Lo
4 -> 2, Hi 5 -> 3): counts 4 and 5 give the queue priorities 1, 1, 2, 2, 3, 3
and count 7 gives 1, 2, 3, 4, 5, 6. -/
theorem assign_qpri_legacy_counts_example :
    (mv88e6xxx_qav_assign_qpri (mk_policy ⟨0, 1, 4⟩ ⟨4, 2, 0⟩ ⟨5, 3, 0⟩) (recording sink_ok)
        ((), [])).map (fun r => legacy_calls (mk_policy ⟨0, 1, 4⟩ ⟨4, 2, 0⟩ ⟨5, 3, 0⟩) r.2.2)
      = some [(0, 1), (1, 1), (2, 2), (3, 2), (6, 3), (7, 3)] ∧
    (mv88e6xxx_qav_assign_qpri (mk_policy ⟨0, 1, 5⟩ ⟨4, 2, 0⟩ ⟨5, 3, 0⟩) (recording sink_ok)
        ((), [])).map (fun r => legacy_calls (mk_policy ⟨0, 1, 5⟩ ⟨4, 2, 0⟩ ⟨5, 3, 0⟩) r.2.2)
      = some [(0, 1), (1, 1), (2, 2), (3, 2), (6, 3), (7, 3)] ∧
    (mv88e6xxx_qav_assign_qpri (mk_policy ⟨0, 1, 7⟩ ⟨4, 2, 0⟩ ⟨5, 3, 0⟩) (recording sink_ok)
        ((), [])).map (fun r => legacy_calls (mk_policy ⟨0, 1, 7⟩ ⟨4, 2, 0⟩ ⟨5, 3, 0⟩) r.2.2)
      = some [(0, 1), (1, 2), (2, 3), (3, 4), (6, 5), (7, 6)] := by
  decide

/-! ### The register access facade -/

/-- The five entry points that test the member they call: per-port AVB read
and write, global AVB read and write, per-port Qav write. With the handler
absent the entry point returns `-EOPNOTSUPP` and leaves the state as it was;
with the handler present it returns what the handler returns. -/
theorem facade_tests_called_member {σ : Type} (chip : mv88e6xxx_chip σ)
    (port addr data : Nat) (s : σ) :
    (chip.avb_ops.port_avb_read = none →
      mv88e6xxx_port_avb_read chip port addr s = (-EOPNOTSUPP, 0, s)) ∧
    (∀ h, chip.avb_ops.port_avb_read = some h →
      mv88e6xxx_port_avb_read chip port addr s = h port addr s) ∧
    (chip.avb_ops.port_avb_write = none →
      mv88e6xxx_port_avb_write chip port addr data s = (-EOPNOTSUPP, s)) ∧
    (∀ h, chip.avb_ops.port_avb_write = some h →
      mv88e6xxx_port_avb_write chip port addr data s = h port addr (to_u16 data) s) ∧
    (chip.avb_ops.avb_read = none →
      mv88e6xxx_avb_read chip addr s = (-EOPNOTSUPP, 0, s)) ∧
    (∀ h, chip.avb_ops.avb_read = some h →
      mv88e6xxx_avb_read chip addr s = h addr s) ∧
    (chip.avb_ops.avb_write = none →
      mv88e6xxx_avb_write chip addr data s = (-EOPNOTSUPP, s)) ∧
    (∀ h, chip.avb_ops.avb_write = some h →
      mv88e6xxx_avb_write chip addr data s = h addr (to_u16 data) s) ∧
    (chip.avb_ops.port_qav_write = none →
      mv88e6xxx_port_qav_write chip port addr data s = (-EOPNOTSUPP, s)) ∧
    (∀ h, chip.avb_ops.port_qav_write = some h →
      mv88e6xxx_port_qav_write chip port addr data s = h port addr (to_u16 data) s) := by
  refine ⟨?_, ?_, ?_, ?_, ?_, ?_, ?_, ?_, ?_, ?_⟩ <;> intros <;>
    simp_all [mv88e6xxx_port_avb_read, mv88e6xxx_port_avb_write, mv88e6xxx_avb_read,
      mv88e6xxx_avb_write, mv88e6xxx_port_qav_write]

/-- What the two global Qav entry points do for each state of the two members
they involve: the result depends on the per-port member, which is the one
tested, and only then on the global member, which is the one called. -/
theorem qav_wrappers_by_member {σ : Type} (chip : mv88e6xxx_chip σ) (addr data : Nat) (s : σ) :
    (chip.avb_ops.port_qav_write = none →
      mv88e6xxx_qav_write chip addr data s = some (-EOPNOTSUPP, s)) ∧
    (∀ g, chip.avb_ops.port_qav_write = some g → chip.avb_ops.qav_write = none →
      mv88e6xxx_qav_write chip addr data s = none) ∧
    (∀ g h, chip.avb_ops.port_qav_write = some g → chip.avb_ops.qav_write = some h →
      mv88e6xxx_qav_write chip addr data s = some (h addr (to_u16 data) s)) ∧
    (chip.avb_ops.port_qav_read = none →
      mv88e6xxx_qav_read chip addr s = some (-EOPNOTSUPP, 0, s)) ∧
    (∀ g, chip.avb_ops.port_qav_read = some g → chip.avb_ops.qav_read = none →
      mv88e6xxx_qav_read chip addr s = none) ∧
    (∀ g h, chip.avb_ops.port_qav_read = some g → chip.avb_ops.qav_read = some h →
      mv88e6xxx_qav_read chip addr s = some (h addr s)) := by
  refine ⟨?_, ?_, ?_, ?_, ?_, ?_⟩ <;> intros <;>
    simp_all [mv88e6xxx_qav_read, mv88e6xxx_qav_write]

/-- C19: the global Qav entry points test the wrong member. On a chip that has
the handler `h` for global Qav writes and no handler for per-port Qav writes,
`mv88e6xxx_qav_write` returns `-EOPNOTSUPP` without going through `h`; on a
chip that has a handler for per-port Qav writes and none for global Qav
writes, the call goes through the null member and has no result; and the same
for `mv88e6xxx_qav_read` with the read members. -/
theorem qav_wrappers_test_wrong_member {σ : Type} (chip : mv88e6xxx_chip σ)
    (hw : Nat → Nat → σ → Int × σ) (gw : Nat → Nat → Nat → σ → Int × σ)
    (hr : Nat → σ → Int × Nat × σ) (gr : Nat → Nat → σ → Int × Nat × σ)
    (addr data : Nat) (s : σ) :
    mv88e6xxx_qav_write
        { chip with avb_ops := { chip.avb_ops with qav_write := some hw, port_qav_write := none } }
        addr data s = some (-EOPNOTSUPP, s) ∧
    mv88e6xxx_qav_write
        { chip with avb_ops := { chip.avb_ops with qav_write := none, port_qav_write := some gw } }
        addr data s = none ∧
    mv88e6xxx_qav_read
        { chip with avb_ops := { chip.avb_ops with qav_read := some hr, port_qav_read := none } }
        addr s = some (-EOPNOTSUPP, 0, s) ∧
    mv88e6xxx_qav_read
        { chip with avb_ops := { chip.avb_ops with qav_read := none, port_qav_read := some gr } }
        addr s = none :=
  ⟨rfl, rfl, rfl, rfl⟩

/-- The global Qav write on the chip with registers, once its handler for
per-port Qav writes is taken away: the handler for global Qav writes is there
and would succeed, and the entry point returns `-EOPNOTSUPP` with no access
made. -/
theorem qav_write_unsupported_example :
    outcome (mv88e6xxx_qav_write
      (traced { reg_chip 3 (fun p => decide (p < 2)) no_fault with
        avb_ops := { (reg_chip 3 (fun p => decide (p < 2)) no_fault).avb_ops with
          port_qav_write := none } })
      MV88E6XXX_QAV_CFG 192 (regs_all 0, [])) = some (-95, []) ∧
    outcome (mv88e6xxx_qav_write
      (traced (reg_chip 3 (fun p => decide (p < 2)) no_fault))
      MV88E6XXX_QAV_CFG 192 (regs_all 0, [])) = some (0, [⟨.qav_write 0 192, 0⟩]) := by
  decide

/-! ### The loops over the user ports -/

theorem user_port_loop_opt_some {σ : Type} (chip : mv88e6xxx_chip σ) (body : Nat → σ → Int × σ)
    (n : Nat) :
    ∀ (port : Nat) (s : σ),
      user_port_loop_opt chip (fun p t => some (body p t)) n port s
        = some (user_port_loop chip body n port s) := by
  induction n with
  | zero => intro port s; rfl
  | succ n ih =>
    intro port s
    simp only [user_port_loop_opt, user_port_loop]
    split_ifs <;> simp [ih]

theorem user_port_loop_eq_run_ports {σ : Type} (chip : mv88e6xxx_chip σ)
    (body : Nat → σ → Int × σ) (n : Nat) :
    ∀ (port : Nat) (s : σ),
      user_port_loop chip body n port s
        = run_ports body ((List.range' port n).filter chip.is_user_port) s := by
  induction n with
  | zero => intro port s; rfl
  | succ n ih =>
    intro port s
    simp only [user_port_loop, List.range'_succ, List.filter_cons]
    by_cases hu : chip.is_user_port port = true
    · simp only [hu, Bool.true_eq_false, if_false, if_true, run_ports, ih]
    · have hf : chip.is_user_port port = false := by simpa using hu
      simp only [hf, if_true, Bool.false_eq_true, if_false, ih]

/-- A body that records its calls leaves the run unchanged and appends the
trace of the run to the record. -/
theorem run_ports_traced {σ : Type} (body : Nat → σ → Int × σ) (acc : Nat → hw_access)
    (body' : Nat → σ × List hw_event → Int × (σ × List hw_event))
    (hb : ∀ p s l, body' p (s, l)
      = ((body p s).1, ((body p s).2, l ++ [⟨acc p, (body p s).1⟩])))
    (ps : List Nat) :
    ∀ (s : σ) (l : List hw_event),
      run_ports body' ps (s, l)
        = ((run_ports body ps s).1, ((run_ports body ps s).2,
            l ++ (port_trace body ps s).map fun c => ⟨acc c.1, c.2⟩)) := by
  induction ps with
  | nil => intro s l; simp [run_ports, port_trace]
  | cons p ps ih =>
    intro s l
    simp only [run_ports, port_trace, hb]
    split_ifs with h
    · simp
    · rw [ih]; simp

theorem port_trace_initial {σ : Type} (body : Nat → σ → Int × σ) (ps : List Nat) :
    ∀ s : σ, (port_trace body ps s).map Prod.fst <+: ps := by
  induction ps with
  | nil => intro s; simp [port_trace]
  | cons p ps ih =>
    intro s
    simp only [port_trace, List.map_cons]
    split_ifs with h
    · simp
    · exact (List.prefix_cons_inj p).2 (ih _)

theorem port_trace_of_fail {σ : Type} (body : Nat → σ → Int × σ) (ps : List Nat) :
    ∀ s : σ, List.Pairwise (fun a b => a < b) ps →
      ∀ c ∈ port_trace body ps s, c.2 ≠ 0 →
        (run_ports body ps s).1 = c.2 ∧
        (port_trace body ps s).map Prod.fst = ps.filter (fun p => decide (p ≤ c.1)) := by
  induction ps with
  | nil => intro s _ c hc; simp [port_trace] at hc
  | cons p ps ih =>
    intro s hsorted c hc hret
    obtain ⟨hp, hps⟩ := List.pairwise_cons.1 hsorted
    simp only [port_trace, run_ports] at hc ⊢
    split_ifs at hc ⊢ with h0
    · rcases List.mem_cons.1 hc with rfl | hc
      · refine ⟨rfl, ?_⟩
        have hnone : ps.filter (fun q => decide (q ≤ p)) = [] := by
          rw [List.filter_eq_nil_iff]
          intro q hq
          have := hp q hq
          simp only [decide_eq_true_eq]
          omega
        simp [List.filter_cons, hnone]
      · simp at hc
    · rcases List.mem_cons.1 hc with rfl | hc
      · exact absurd hret h0
      · obtain ⟨h1, h2⟩ := ih _ hps c hc hret
        have hmem : c.1 ∈ ps :=
          (port_trace_initial body ps _).subset (List.mem_map.2 ⟨c, hc, rfl⟩)
        have hlt := hp c.1 hmem
        refine ⟨h1, ?_⟩
        have hle : decide (p ≤ c.1) = true := by
          simp only [decide_eq_true_eq]; omega
        simp [List.filter_cons, hle, h2]

theorem port_trace_of_ok {σ : Type} (body : Nat → σ → Int × σ) (ps : List Nat) :
    ∀ s : σ, (∀ c ∈ port_trace body ps s, c.2 = 0) →
      (run_ports body ps s).1 = 0 ∧ (port_trace body ps s).map Prod.fst = ps := by
  induction ps with
  | nil => intro s _; simp [port_trace, run_ports]
  | cons p ps ih =>
    intro s hall
    have h0 : (body p s).1 = 0 := hall (p, (body p s).1) (by simp [port_trace])
    simp only [port_trace, run_ports, h0, ne_eq, not_true_eq_false, if_false] at hall ⊢
    obtain ⟨h1, h2⟩ := ih _ (fun c hc => hall c (List.mem_cons_of_mem _ hc))
    exact ⟨h1, by simp [h2]⟩

theorem user_ports_sorted {σ : Type} (chip : mv88e6xxx_chip σ) :
    List.Pairwise (fun a b => a < b) (user_ports chip) :=
  List.Pairwise.filter _ (List.pairwise_lt_range _)

theorem to_u16_avb_mode_cfg (srp enable : Bool) :
    to_u16 (avb_mode_cfg srp enable) = avb_mode_cfg srp enable := by
  cases srp <;> cases enable <;> decide

/-- With `CONFIG_NET_DSA_MV88E6XXX_SRP` set, `mv88e6xxx_avb_set_avb_mode` is the
run of the port write over the user ports in ascending order. -/
theorem set_avb_mode_eq_run_ports {σ : Type} (chip : mv88e6xxx_chip σ) (enable : Bool) (s : σ) :
    mv88e6xxx_avb_set_avb_mode true chip enable s
      = some (run_ports (fun port =>
          mv88e6xxx_port_avb_write chip port MV88E6XXX_PORT_AVB_CFG (avb_mode_cfg true enable))
          (user_ports chip) s) := by
  have hb : (fun port => mv88e6xxx_avb_set_port_avb_mode true chip port enable)
      = fun p t => some (mv88e6xxx_port_avb_write chip p MV88E6XXX_PORT_AVB_CFG
          (avb_mode_cfg true enable) t) := by
    funext p t
    simp [mv88e6xxx_avb_set_port_avb_mode]
  rw [mv88e6xxx_avb_set_avb_mode, hb, user_port_loop_opt_some, user_port_loop_eq_run_ports,
    user_ports, List.range_eq_range']

/-! ### Per-port AVB mode -/

/-- C18: with `CONFIG_NET_DSA_MV88E6XXX_SRP` set and a handler for per-port AVB
writes, `mv88e6xxx_avb_set_avb_mode` returns, and the accesses it makes are
writes of the mode word to the AVB configuration register of user ports only,
in ascending port order, each user port at most once (`trace` lists the ports
written with the value each write returned). If the write for port `p` failed,
the routine returns the error of that write and the ports written are exactly
the user ports up to `p`; if no write failed, the routine returns 0 and has
written every user port (none when the chip has no user port). -/
theorem set_avb_mode_user_ports_only {σ : Type} (chip : mv88e6xxx_chip σ)
    (h : Nat → Nat → Nat → σ → Int × σ) (enable : Bool) (s : σ)
    (hh : chip.avb_ops.port_avb_write = some h) :
    ∃ (err : Int) (s' : σ) (trace : List (Nat × Int)),
      mv88e6xxx_avb_set_avb_mode true chip enable s = some (err, s') ∧
      mv88e6xxx_avb_set_avb_mode true (traced chip) enable (s, [])
        = some (err, (s', trace.map fun c =>
            ⟨.port_avb_write c.1 MV88E6XXX_PORT_AVB_CFG (avb_mode_cfg true enable), c.2⟩)) ∧
      trace.map Prod.fst <+: user_ports chip ∧
      (∀ c ∈ trace, c.2 ≠ 0 →
        err = c.2 ∧
        trace.map Prod.fst = (user_ports chip).filter fun p => decide (p ≤ c.1)) ∧
      ((∀ c ∈ trace, c.2 = 0) → err = 0 ∧ trace.map Prod.fst = user_ports chip) := by
  have hb : ∀ p t l,
      mv88e6xxx_port_avb_write (traced chip) p MV88E6XXX_PORT_AVB_CFG (avb_mode_cfg true enable)
          (t, l)
        = ((mv88e6xxx_port_avb_write chip p MV88E6XXX_PORT_AVB_CFG
              (avb_mode_cfg true enable) t).1,
            ((mv88e6xxx_port_avb_write chip p MV88E6XXX_PORT_AVB_CFG
              (avb_mode_cfg true enable) t).2,
              l ++ [⟨.port_avb_write p MV88E6XXX_PORT_AVB_CFG (avb_mode_cfg true enable),
                (mv88e6xxx_port_avb_write chip p MV88E6XXX_PORT_AVB_CFG
                  (avb_mode_cfg true enable) t).1⟩])) := by
    intro p t l
    simp [mv88e6xxx_port_avb_write, traced, hh, to_u16_avb_mode_cfg]
  refine ⟨(run_ports (fun port =>
      mv88e6xxx_port_avb_write chip port MV88E6XXX_PORT_AVB_CFG (avb_mode_cfg true enable))
      (user_ports chip) s).1,
    (run_ports (fun port =>
      mv88e6xxx_port_avb_write chip port MV88E6XXX_PORT_AVB_CFG (avb_mode_cfg true enable))
      (user_ports chip) s).2,
    port_trace (fun port =>
      mv88e6xxx_port_avb_write chip port MV88E6XXX_PORT_AVB_CFG (avb_mode_cfg true enable))
      (user_ports chip) s, ?_, ?_, ?_, ?_, ?_⟩
  · exact set_avb_mode_eq_run_ports chip enable s
  · rw [set_avb_mode_eq_run_ports (traced chip) enable (s, [])]
    have hu : user_ports (traced chip) = user_ports chip := rfl
    rw [hu, run_ports_traced _ _ _ hb, List.nil_append]
  · exact port_trace_initial _ _ _
  · intro c hc hret
    obtain ⟨h1, h2⟩ := port_trace_of_fail _ _ s (user_ports_sorted chip) c hc hret
    exact ⟨h1, h2⟩
  · intro hall
    exact port_trace_of_ok _ _ s hall

/-- Witness of C18: the chip with registers and four ports, of which ports 0,
2 and 3 are user ports, where the write of Enhanced mode to port 2 fails with
-5. -/
theorem set_avb_mode_user_ports_only_witness :
    ∃ (err : Int) (s' : hw_regs) (trace : List (Nat × Int)),
      mv88e6xxx_avb_set_avb_mode true
        (reg_chip 4 (fun p => decide (p ≠ 1)) (fault_at (.port_avb_write 2 0 0x9400) (-5)))
        true (regs_all 0) = some (err, s') ∧
      mv88e6xxx_avb_set_avb_mode true
        (traced (reg_chip 4 (fun p => decide (p ≠ 1))
          (fault_at (.port_avb_write 2 0 0x9400) (-5))))
        true (regs_all 0, [])
        = some (err, (s', trace.map fun c =>
            ⟨.port_avb_write c.1 MV88E6XXX_PORT_AVB_CFG (avb_mode_cfg true true), c.2⟩)) ∧
      trace.map Prod.fst <+: user_ports
        (reg_chip 4 (fun p => decide (p ≠ 1)) (fault_at (.port_avb_write 2 0 0x9400) (-5))) ∧
      (∀ c ∈ trace, c.2 ≠ 0 →
        err = c.2 ∧
        trace.map Prod.fst = (user_ports
          (reg_chip 4 (fun p => decide (p ≠ 1))
            (fault_at (.port_avb_write 2 0 0x9400) (-5)))).filter fun p => decide (p ≤ c.1)) ∧
      ((∀ c ∈ trace, c.2 = 0) → err = 0 ∧ trace.map Prod.fst = user_ports
        (reg_chip 4 (fun p => decide (p ≠ 1)) (fault_at (.port_avb_write 2 0 0x9400) (-5)))) :=
  set_avb_mode_user_ports_only
    (reg_chip 4 (fun p => decide (p ≠ 1)) (fault_at (.port_avb_write 2 0 0x9400) (-5)))
    _ true (regs_all 0) rfl

/-- The runs of `mv88e6xxx_avb_set_avb_mode` on the chip of four ports with
user ports 0, 2 and 3, evaluated: with no failure the mode word 0x9400 is
written to the ports 0, 2, 3 and the routine returns 0; when the write to port
2 fails with -5 the routine returns -5 after the writes to the ports 0 and 2;
to disable, the word written is 0x0000; a chip without user ports gets no write
and the routine returns 0. -/
theorem set_avb_mode_example :
    outcome (mv88e6xxx_avb_set_avb_mode true
        (traced (reg_chip 4 (fun p => decide (p ≠ 1)) no_fault)) true (regs_all 0, []))
      = some (0, [⟨.port_avb_write 0 0 0x9400, 0⟩, ⟨.port_avb_write 2 0 0x9400, 0⟩,
          ⟨.port_avb_write 3 0 0x9400, 0⟩]) ∧
    outcome (mv88e6xxx_avb_set_avb_mode true
        (traced (reg_chip 4 (fun p => decide (p ≠ 1))
          (fault_at (.port_avb_write 2 0 0x9400) (-5)))) true (regs_all 0, []))
      = some (-5, [⟨.port_avb_write 0 0 0x9400, 0⟩, ⟨.port_avb_write 2 0 0x9400, -5⟩]) ∧
    outcome (mv88e6xxx_avb_set_avb_mode true
        (traced (reg_chip 4 (fun p => decide (p ≠ 1)) no_fault)) false (regs_all 0, []))
      = some (0, [⟨.port_avb_write 0 0 0, 0⟩, ⟨.port_avb_write 2 0 0, 0⟩,
          ⟨.port_avb_write 3 0 0, 0⟩]) ∧
    outcome (mv88e6xxx_avb_set_avb_mode true
        (traced (reg_chip 4 (fun _ => false) no_fault)) true (regs_all 0, []))
      = some (0, []) := by
  decide

/-! ### The order of enable and disable -/

/-- C13: with `CONFIG_NET_DSA_MV88E6XXX_SRP` set, `mv88e6xxx_avb_tc_enable` runs
(1) the marking of the static ATU entries, (2) the reservation of the
isochronous pointers, sized `num_ports << 6`, (3) the family traffic-class
enable and (4) the per-port AVB mode, each on the state that the step before
left. When the steps 1 and 2 succeed and step 3 returns the error `e`, enable
returns `e` with the state `s3` that step 3 left, which holds what the steps 1
and 2 wrote: nothing is undone and the per-port mode is not run. When step 3
succeeds, enable returns what the per-port mode returns on `s3`. -/
theorem avb_tc_enable_steps {σ : Type} (ops : mv88e6xxx_tc_ops σ) (chip : mv88e6xxx_chip σ)
    (policy : mv88e6xxx_avb_tc_policy) (s s1 s2 s3 : σ) (e : Int)
    (h1 : chip.g1_atu_set_mac_avb true s = (0, s1))
    (h2 : mv88e6xxx_qav_set_iso_ptr chip (chip.num_ports <<< 6) s1 = some (0, s2))
    (h3 : mv88e6xxx_tc_enable ops chip policy s2 = some (e, s3)) :
    (e ≠ 0 → mv88e6xxx_avb_tc_enable true ops chip policy s = some (e, s3)) ∧
    (e = 0 → mv88e6xxx_avb_tc_enable true ops chip policy s
      = mv88e6xxx_avb_set_avb_mode true chip true s3) := by
  constructor
  · intro he
    simp [mv88e6xxx_avb_tc_enable, h1, h2, h3, he]
  · intro he
    subst he
    simp only [mv88e6xxx_avb_tc_enable, h1, h2, h3, if_true, ne_eq, not_true_eq_false, if_false]
    cases hm : mv88e6xxx_avb_set_avb_mode true chip true s3 with
    | none => rfl
    | some m =>
      by_cases h0 : m.1 = 0
      · simp only [h0, not_true_eq_false, if_false]
        rw [← h0]
      · simp only [h0, not_false_eq_true, if_true]

/-- Witness of C13: the example chip with the table of the 6352 family and a
policy that puts Lo in queue 0, which step 3 rejects with `-EOPNOTSUPP`. -/
theorem avb_tc_enable_steps_witness :
    ((-95 : Int) ≠ 0 →
      mv88e6xxx_avb_tc_enable true (mv88e6352_tc_ops true ⟨64, 0xffff, 0x7fff⟩) example_chip
          (mk_policy ⟨0, 0, 3⟩ ⟨4, 0, 0⟩ ⟨5, 3, 0⟩) []
        = some (-95, [.atu_set_mac_avb true, .qav_write 0 192])) ∧
    ((-95 : Int) = 0 →
      mv88e6xxx_avb_tc_enable true (mv88e6352_tc_ops true ⟨64, 0xffff, 0x7fff⟩) example_chip
          (mk_policy ⟨0, 0, 3⟩ ⟨4, 0, 0⟩ ⟨5, 3, 0⟩) []
        = mv88e6xxx_avb_set_avb_mode true example_chip true
            [.atu_set_mac_avb true, .qav_write 0 192]) :=
  avb_tc_enable_steps (mv88e6352_tc_ops true ⟨64, 0xffff, 0x7fff⟩) example_chip
    (mk_policy ⟨0, 0, 3⟩ ⟨4, 0, 0⟩ ⟨5, 3, 0⟩) [] [.atu_set_mac_avb true]
    [.atu_set_mac_avb true, .qav_write 0 192] [.atu_set_mac_avb true, .qav_write 0 192] (-95)
    rfl (by decide) (by decide)

/-- The steps of enable that come before the family routine: a failure of the
ATU marking ends enable before the pointer reservation, and a failure of the
pointer reservation ends it before the family traffic-class enable. -/
theorem avb_tc_enable_early_failure {σ : Type} (ops : mv88e6xxx_tc_ops σ)
    (chip : mv88e6xxx_chip σ) (policy : mv88e6xxx_avb_tc_policy) (s : σ) :
    (∀ e s1, chip.g1_atu_set_mac_avb true s = (e, s1) → e ≠ 0 →
      mv88e6xxx_avb_tc_enable true ops chip policy s = some (e, s1)) ∧
    (∀ s1 e s2, chip.g1_atu_set_mac_avb true s = (0, s1) →
      mv88e6xxx_qav_set_iso_ptr chip (chip.num_ports <<< 6) s1 = some (e, s2) → e ≠ 0 →
      mv88e6xxx_avb_tc_enable true ops chip policy s = some (e, s2)) := by
  constructor
  · intro e s1 h1 he
    simp [mv88e6xxx_avb_tc_enable, h1, he]
  · intro s1 e s2 h1 h2 he
    simp [mv88e6xxx_avb_tc_enable, h1, h2, he]

/-- The runs of enable on the chip with registers (three ports, user ports 0
and 1, table of the 6352 family, `CONFIG_NET_DSA_MV88E6XXX_SRP` set),
evaluated. With no failure the accesses are, in order: the ATU marking, the
read and the write of the pointer reservation (192 pointers), the two writes of
the family enable, and the write of Enhanced mode to the ports 0 and 1. When
the write of the AVB configuration word in step 3 fails with -5, enable returns
-5 after the accesses of the steps 1 and 2 and that write, and no port is
written. -/
theorem avb_tc_enable_example :
    outcome (mv88e6xxx_avb_tc_enable true (mv88e6352_tc_ops true ⟨64, 0xffff, 0x7fff⟩)
        (traced (reg_chip 3 (fun p => decide (p < 2)) no_fault))
        (mk_policy ⟨0, 0, 3⟩ ⟨4, 2, 0⟩ ⟨5, 3, 0⟩) (regs_all 0, []))
      = some (0, [⟨.atu_set_mac_avb true, 0⟩, ⟨.qav_read 0, 0⟩, ⟨.qav_write 0 192, 0⟩,
          ⟨.avb_write 0 0x5342, 0⟩, ⟨.set_ieee_pri_map 0xae50, 0⟩,
          ⟨.port_avb_write 0 0 0x9400, 0⟩, ⟨.port_avb_write 1 0 0x9400, 0⟩]) ∧
    outcome (mv88e6xxx_avb_tc_enable true (mv88e6352_tc_ops true ⟨64, 0xffff, 0x7fff⟩)
        (traced (reg_chip 3 (fun p => decide (p < 2)) (fault_at (.avb_write 0 0x5342) (-5))))
        (mk_policy ⟨0, 0, 3⟩ ⟨4, 2, 0⟩ ⟨5, 3, 0⟩) (regs_all 0, []))
      = some (-5, [⟨.atu_set_mac_avb true, 0⟩, ⟨.qav_read 0, 0⟩, ⟨.qav_write 0 192, 0⟩,
          ⟨.avb_write 0 0x5342, -5⟩]) := by
  decide

/-- C14: `mv88e6xxx_avb_tc_disable` (with `CONFIG_NET_DSA_MV88E6XXX_SRP` set)
runs the steps of enable in reverse order: the per-port mode first, which
writes the Legacy word 0x0000 to each port, then the family traffic-class
disable on the state the per-port mode left, then the pointer reservation set
to 0, then the clearing of the ATU marking. When the family disable returns an
error `e`, disable returns `e` with the state the family disable left: neither
the pointer reservation nor the ATU clearing is run. When it succeeds, a
failure of the pointer reservation ends disable before the ATU clearing, and
otherwise disable returns what the ATU clearing returns. -/
theorem avb_tc_disable_steps {σ : Type} (ops : mv88e6xxx_tc_ops σ) (chip : mv88e6xxx_chip σ)
    (s s1 s2 : σ) (e : Int)
    (h1 : mv88e6xxx_avb_set_avb_mode true chip false s = some (0, s1))
    (h2 : mv88e6xxx_tc_disable ops chip s1 = (e, s2)) :
    (∀ port t, mv88e6xxx_avb_set_port_avb_mode true chip port false t
      = some (mv88e6xxx_port_avb_write chip port MV88E6XXX_PORT_AVB_CFG 0x0000 t)) ∧
    (e ≠ 0 → mv88e6xxx_avb_tc_disable true ops chip s = some (e, s2)) ∧
    (e = 0 → ∀ e3 s3, mv88e6xxx_qav_set_iso_ptr chip 0 s2 = some (e3, s3) →
      (e3 ≠ 0 → mv88e6xxx_avb_tc_disable true ops chip s = some (e3, s3)) ∧
      (e3 = 0 → mv88e6xxx_avb_tc_disable true ops chip s
        = some (chip.g1_atu_set_mac_avb false s3))) := by
  refine ⟨fun port t => rfl, ?_, ?_⟩
  · intro he
    simp [mv88e6xxx_avb_tc_disable, h1, h2, he]
  · intro he e3 s3 h3
    subst he
    constructor
    · intro he3
      simp [mv88e6xxx_avb_tc_disable, h1, h2, h3, he3]
    · intro he3
      subst he3
      simp only [mv88e6xxx_avb_tc_disable, h1, h2, h3, if_true, ne_eq, not_true_eq_false,
        if_false]
      by_cases h0 : (chip.g1_atu_set_mac_avb false s3).1 = 0
      · simp only [h0, not_true_eq_false, if_false]
        rw [← h0]
      · simp only [h0, not_false_eq_true, if_true]

/-- Witness of C14: the example chip with a table that has no traffic-class
disable routine, so that the family step returns `-EOPNOTSUPP`. -/
theorem avb_tc_disable_steps_witness :
    (∀ port t, mv88e6xxx_avb_set_port_avb_mode true example_chip port false t
      = some (mv88e6xxx_port_avb_write example_chip port MV88E6XXX_PORT_AVB_CFG 0x0000 t)) ∧
    ((-95 : Int) ≠ 0 →
      mv88e6xxx_avb_tc_disable true ⟨none, none, none⟩ example_chip []
        = some (-95, [.port_avb_write 0 0 0, .port_avb_write 1 0 0])) ∧
    ((-95 : Int) = 0 → ∀ e3 s3,
      mv88e6xxx_qav_set_iso_ptr example_chip 0 [.port_avb_write 0 0 0, .port_avb_write 1 0 0]
        = some (e3, s3) →
      (e3 ≠ 0 → mv88e6xxx_avb_tc_disable true ⟨none, none, none⟩ example_chip []
        = some (e3, s3)) ∧
      (e3 = 0 → mv88e6xxx_avb_tc_disable true ⟨none, none, none⟩ example_chip []
        = some (example_chip.g1_atu_set_mac_avb false s3))) :=
  avb_tc_disable_steps ⟨none, none, none⟩ example_chip []
    [.port_avb_write 0 0 0, .port_avb_write 1 0 0]
    [.port_avb_write 0 0 0, .port_avb_write 1 0 0] (-95) (by decide) rfl

/-- The runs of disable on the chip with registers (three ports, user ports 0
and 1, table of the 6352 family, `CONFIG_NET_DSA_MV88E6XXX_SRP` set),
evaluated. With no failure the accesses are, in order: the write of 0x0000 to
the ports 0 and 1, the two writes of the family disable, the read and the write
of the pointer reservation (0 pointers), and the ATU clearing. When the write
of the AVB configuration word in the family disable fails with -5, disable
returns -5 and makes no access after that write. -/
theorem avb_tc_disable_example :
    outcome (mv88e6xxx_avb_tc_disable true (mv88e6352_tc_ops true ⟨64, 0xffff, 0x7fff⟩)
        (traced (reg_chip 3 (fun p => decide (p < 2)) no_fault)) (regs_all 0, []))
      = some (0, [⟨.port_avb_write 0 0 0, 0⟩, ⟨.port_avb_write 1 0 0, 0⟩,
          ⟨.ieee_pri_map_6250, 0⟩, ⟨.avb_write 0 0x5342, 0⟩,
          ⟨.qav_read 0, 0⟩, ⟨.qav_write 0 0, 0⟩, ⟨.atu_set_mac_avb false, 0⟩]) ∧
    outcome (mv88e6xxx_avb_tc_disable true (mv88e6352_tc_ops true ⟨64, 0xffff, 0x7fff⟩)
        (traced (reg_chip 3 (fun p => decide (p < 2)) (fault_at (.avb_write 0 0x5342) (-5))))
        (regs_all 0, []))
      = some (-5, [⟨.port_avb_write 0 0 0, 0⟩, ⟨.port_avb_write 1 0 0, 0⟩,
          ⟨.ieee_pri_map_6250, 0⟩, ⟨.avb_write 0 0x5342, -5⟩]) := by
  decide

/-! ### Enable without `CONFIG_NET_DSA_MV88E6XXX_SRP` -/

theorem user_port_loop_opt_none {σ : Type} (chip : mv88e6xxx_chip σ) (n : Nat) :
    ∀ (port : Nat) (s : σ) (q : Nat), port ≤ q → q < port + n → chip.is_user_port q = true →
      user_port_loop_opt chip (fun _ _ => (none : Option (Int × σ))) n port s = none := by
  induction n with
  | zero => intro port s q h1 h2; omega
  | succ n ih =>
    intro port s q h1 h2 hq
    simp only [user_port_loop_opt]
    by_cases hu : chip.is_user_port port = true
    · simp [hu]
    · have hf : chip.is_user_port port = false := by simpa using hu
      have hne : q ≠ port := fun h => hu (h ▸ hq)
      simp only [hf, if_true]
      exact ih (port + 1) s q (by omega) (by omega) hq

/-- C16: with `CONFIG_NET_DSA_MV88E6XXX_SRP` unset, on a chip that has a user
port, `mv88e6xxx_avb_tc_enable` has no result once the family traffic-class
enable has succeeded. The mode word selected is Standard (0x4000), and the
steps of the ATU marking and of the pointer reservation are left out; but the
per-port step calls the wrapper `mv88e6xxx_port_avb_write`, which is defined
only with the option set, so the write of the mode word has nothing to go
to. -/
theorem avb_tc_enable_without_srp {σ : Type} (ops : mv88e6xxx_tc_ops σ)
    (chip : mv88e6xxx_chip σ) (policy : mv88e6xxx_avb_tc_policy) (s s' : σ) (q : Nat)
    (htc : mv88e6xxx_tc_enable ops chip policy s = some (0, s'))
    (hq : q < chip.num_ports) (hu : chip.is_user_port q = true) :
    avb_mode_cfg false true = 0x4000 ∧
    (∀ port t, mv88e6xxx_avb_set_port_avb_mode false chip port true t = none) ∧
    mv88e6xxx_avb_set_avb_mode false chip true s' = none ∧
    mv88e6xxx_avb_tc_enable false ops chip policy s = none := by
  have hm : mv88e6xxx_avb_set_avb_mode false chip true s' = none := by
    have hb : (fun port => mv88e6xxx_avb_set_port_avb_mode false chip port true)
        = fun _ _ => (none : Option (Int × σ)) := by
      funext p t
      simp [mv88e6xxx_avb_set_port_avb_mode]
    rw [mv88e6xxx_avb_set_avb_mode, hb]
    exact user_port_loop_opt_none chip _ 0 s' q (Nat.zero_le _) (by omega) hu
  refine ⟨by decide, fun port t => by simp [mv88e6xxx_avb_set_port_avb_mode], hm, ?_⟩
  simp [mv88e6xxx_avb_tc_enable, htc, hm]

/-- Witness of C16: the example chip (user ports 0 and 1) with the table of
the 6352 family and the policy Legacy base 0 and count 3, Lo 4 -> 2,
Hi 5 -> 3. -/
theorem avb_tc_enable_without_srp_witness :
    avb_mode_cfg false true = 0x4000 ∧
    (∀ port t, mv88e6xxx_avb_set_port_avb_mode false example_chip port true t = none) ∧
    mv88e6xxx_avb_set_avb_mode false example_chip true [.set_ieee_pri_map 0xae50] = none ∧
    mv88e6xxx_avb_tc_enable false (mv88e6352_tc_ops false ⟨64, 0xffff, 0x7fff⟩) example_chip
      (mk_policy ⟨0, 0, 3⟩ ⟨4, 2, 0⟩ ⟨5, 3, 0⟩) [] = none :=
  avb_tc_enable_without_srp (mv88e6352_tc_ops false ⟨64, 0xffff, 0x7fff⟩) example_chip
    (mk_policy ⟨0, 0, 3⟩ ⟨4, 2, 0⟩ ⟨5, 3, 0⟩) [] [.set_ieee_pri_map 0xae50] 0
    (by decide) (by decide) (by decide)

/-! ### Disable of the 8-queue family -/

/-- With `CONFIG_NET_DSA_MV88E6XXX_SRP` set, what `mv88e6390_tc_disable` returns
is what the write of the AVB configuration word returns, on the state the loop
over the ports left, whatever error the loop ended with; with the option unset
it is what the loop returns. -/
theorem mv88e6390_tc_disable_eq {σ : Type} (chip : mv88e6xxx_chip σ) (s : σ) :
    mv88e6390_tc_disable true chip s
      = mv88e6xxx_avb_write chip MV88E6XXX_AVB_CFG_AVB 0x3726
          (user_port_loop chip (fun port => chip.port_tag_remap port) chip.num_ports 0 s).2 ∧
    mv88e6390_tc_disable false chip s
      = user_port_loop chip (fun port => chip.port_tag_remap port) chip.num_ports 0 s := by
  have hreg : mv88e6390_avb_pri_map_to_reg mv88e6390_init_avb_pri_map = 0x3726 := by decide
  constructor
  · simp only [mv88e6390_tc_disable, if_true, hreg, ite_self]
  · simp [mv88e6390_tc_disable]

/-- C17: on the chip with registers (three ports, user ports 0 and 1) where the
priority remap of port 0 fails with -5, `mv88e6390_tc_disable` with
`CONFIG_NET_DSA_MV88E6XXX_SRP` set attempts no further port, but then writes the
AVB configuration word and returns the 0 of that write instead of -5; the
whole disable goes on to the pointer reservation and the ATU clearing and
returns 0. With the option unset the routine returns -5. -/
theorem mv88e6390_tc_disable_loses_port_error :
    (fun r : Int × (hw_regs × List hw_event) => (r.1, r.2.2))
        (mv88e6390_tc_disable true
          (traced (reg_chip 3 (fun p => decide (p < 2)) (fault_at (.port_tag_remap 0) (-5))))
          (regs_all 0, []))
      = (0, [⟨.port_tag_remap 0, -5⟩, ⟨.avb_write 0 0x3726, 0⟩]) ∧
    outcome (mv88e6xxx_avb_tc_disable true (mv88e6390_tc_ops true ⟨64, 0xffff, 0x7fff⟩)
        (traced (reg_chip 3 (fun p => decide (p < 2)) (fault_at (.port_tag_remap 0) (-5))))
        (regs_all 0, []))
      = some (0, [⟨.port_avb_write 0 0 0, 0⟩, ⟨.port_avb_write 1 0 0, 0⟩,
          ⟨.port_tag_remap 0, -5⟩, ⟨.avb_write 0 0x3726, 0⟩,
          ⟨.qav_read 0, 0⟩, ⟨.qav_write 0 0, 0⟩, ⟨.atu_set_mac_avb false, 0⟩]) ∧
    (fun r : Int × (hw_regs × List hw_event) => (r.1, r.2.2))
        (mv88e6390_tc_disable false
          (traced (reg_chip 3 (fun p => decide (p < 2)) (fault_at (.port_tag_remap 0) (-5))))
          (regs_all 0, []))
      = (-5, [⟨.port_tag_remap 0, -5⟩]) := by
  decide

/-! ### The default priority map after disable -/

theorem run_ports_of_ok {σ : Type} (body : Nat → σ → Int × σ)
    (hok : ∀ p s, (body p s).1 = 0) (ps : List Nat) :
    ∀ s : σ, (run_ports body ps s).1 = 0 := by
  induction ps with
  | nil => intro s; rfl
  | cons p ps ih =>
    intro s
    simp only [run_ports, hok, ne_eq, not_true_eq_false, if_false]
    exact ih _

theorem run_ports_of_const {σ : Type} (body : Nat → σ → Int × σ)
    (hok : ∀ p s, body p s = (0, s)) (ps : List Nat) :
    ∀ s : σ, run_ports body ps s = (0, s) := by
  induction ps with
  | nil => intro s; rfl
  | cons p ps ih =>
    intro s
    simp only [run_ports, hok, ne_eq, not_true_eq_false, if_false]
    exact ih _

/-- The two default words: the packing of the initial map of the 4-queue
families is 0x5342 and that of the 8-queue family is 0x3726. -/
theorem init_avb_pri_map_words :
    mv88e6352_avb_pri_map_to_reg mv88e6352_init_avb_pri_map = 0x5342 ∧
    mv88e6390_avb_pri_map_to_reg mv88e6390_init_avb_pri_map = 0x3726 := by
  decide

/-- The per-port mode on the chip with registers, when no access fails: it
returns 0. -/
theorem reg_chip_set_avb_mode (n : Nat) (u : Nat → Bool) (enable : Bool) (regs : hw_regs) :
    ∃ regs', mv88e6xxx_avb_set_avb_mode true (reg_chip n u no_fault) enable regs
      = some (0, regs') := by
  have hb : ∀ p t, (mv88e6xxx_port_avb_write (reg_chip n u no_fault) p MV88E6XXX_PORT_AVB_CFG
      (avb_mode_cfg true enable) t).1 = 0 := by
    intro p t
    simp [mv88e6xxx_port_avb_write, reg_chip, no_fault]
  refine ⟨(run_ports (fun port => mv88e6xxx_port_avb_write (reg_chip n u no_fault) port
    MV88E6XXX_PORT_AVB_CFG (avb_mode_cfg true enable)) (user_ports (reg_chip n u no_fault))
    regs).2, ?_⟩
  rw [set_avb_mode_eq_run_ports, ← run_ports_of_ok _ hb (user_ports (reg_chip n u no_fault)) regs]

/-- The family disable of the 4-queue families on the chip with registers,
when no access fails: it returns 0 and leaves 0x5342 in the AVB configuration
word. -/
theorem reg_chip_mv88e6352_tc_disable (n : Nat) (u : Nat → Bool) (regs : hw_regs) :
    (mv88e6352_tc_disable true (reg_chip n u no_fault) regs).1 = 0 ∧
    (mv88e6352_tc_disable true (reg_chip n u no_fault) regs).2.avb MV88E6XXX_AVB_CFG_AVB
      = 0x5342 := by
  have hreg := init_avb_pri_map_words.1
  simp [mv88e6352_tc_disable, mv88e6xxx_avb_write, reg_chip, no_fault, hreg, to_u16]

/-- The family disable of the 8-queue family on the chip with registers, when
no access fails: it returns 0 and leaves 0x3726 in the AVB configuration
word. -/
theorem reg_chip_mv88e6390_tc_disable (n : Nat) (u : Nat → Bool) (regs : hw_regs) :
    (mv88e6390_tc_disable true (reg_chip n u no_fault) regs).1 = 0 ∧
    (mv88e6390_tc_disable true (reg_chip n u no_fault) regs).2.avb MV88E6XXX_AVB_CFG_AVB
      = 0x3726 := by
  rw [(mv88e6390_tc_disable_eq _ _).1]
  simp [mv88e6xxx_avb_write, reg_chip, no_fault, to_u16]

/-- The steps of disable after the family routine on the chip with registers,
when no access fails: they succeed and leave the global AVB words as they
were. -/
theorem reg_chip_disable_tail (n : Nat) (u : Nat → Bool) (regs : hw_regs) :
    ∃ regs', mv88e6xxx_qav_set_iso_ptr (reg_chip n u no_fault) 0 regs = some (0, regs') ∧
      (reg_chip n u no_fault).g1_atu_set_mac_avb false regs' = (0, regs') ∧
      regs'.avb = regs.avb := by
  simp [mv88e6xxx_qav_set_iso_ptr, mv88e6xxx_qav_read, mv88e6xxx_qav_write, reg_chip, no_fault]

/-- Disable on the chip with registers, when no access fails, for a table whose
traffic-class disable returns 0 and leaves the word `w` in the AVB
configuration word: disable returns 0 and the word is still `w` at its end. -/
theorem reg_chip_avb_tc_disable (n : Nat) (u : Nat → Bool) (ops : mv88e6xxx_tc_ops hw_regs)
    (f : mv88e6xxx_chip hw_regs → hw_regs → Int × hw_regs) (w : Nat)
    (hf : ops.tc_disable = some f)
    (hd : ∀ regs, (f (reg_chip n u no_fault) regs).1 = 0 ∧
      (f (reg_chip n u no_fault) regs).2.avb MV88E6XXX_AVB_CFG_AVB = w)
    (regs : hw_regs) :
    ∃ regs', mv88e6xxx_avb_tc_disable true ops (reg_chip n u no_fault) regs = some (0, regs') ∧
      regs'.avb MV88E6XXX_AVB_CFG_AVB = w := by
  obtain ⟨s1, hm⟩ := reg_chip_set_avb_mode n u false regs
  obtain ⟨hd1, hd2⟩ := hd s1
  obtain ⟨s3, hi, ha, hav⟩ := reg_chip_disable_tail n u (f (reg_chip n u no_fault) s1).2
  refine ⟨s3, ?_, by rw [hav, hd2]⟩
  simp [mv88e6xxx_avb_tc_disable, hm, mv88e6xxx_tc_disable, hf, hd1, hi, ha]

/-- C15: on the chip with registers, with `CONFIG_NET_DSA_MV88E6XXX_SRP` set and
no access failing, for every number of ports, every choice of user ports and
every content of the registers before (so whatever policy was enabled),
`mv88e6xxx_avb_tc_disable` returns 0 and leaves in the global AVB priority-map
register `MV88E6XXX_AVB_CFG_AVB` the default word of the family: 0x5342 with
the tables of the 4-queue families (6352 and 6341) and 0x3726 with the table of
the 8-queue family. These words are the packings of the initial maps
Lo 4 -> 2, Hi 5 -> 3 and Lo 2 -> 6, Hi 3 -> 7. -/
theorem avb_tc_disable_restores_default (c : cbs_consts) (n : Nat) (u : Nat → Bool)
    (regs : hw_regs) :
    (∃ regs', mv88e6xxx_avb_tc_disable true (mv88e6352_tc_ops true c) (reg_chip n u no_fault) regs
        = some (0, regs') ∧ regs'.avb MV88E6XXX_AVB_CFG_AVB = 0x5342) ∧
    (∃ regs', mv88e6xxx_avb_tc_disable true (mv88e6341_tc_ops true c) (reg_chip n u no_fault) regs
        = some (0, regs') ∧ regs'.avb MV88E6XXX_AVB_CFG_AVB = 0x5342) ∧
    (∃ regs', mv88e6xxx_avb_tc_disable true (mv88e6390_tc_ops true c) (reg_chip n u no_fault) regs
        = some (0, regs') ∧ regs'.avb MV88E6XXX_AVB_CFG_AVB = 0x3726) ∧
    mv88e6352_avb_pri_map_to_reg (mk_policy ⟨0, 0, 0⟩ ⟨4, 2, 0⟩ ⟨5, 3, 0⟩).map = 0x5342 ∧
    mv88e6390_avb_pri_map_to_reg (mk_policy ⟨0, 0, 0⟩ ⟨2, 6, 0⟩ ⟨3, 7, 0⟩).map = 0x3726 :=
  ⟨reg_chip_avb_tc_disable n u _ _ _ rfl (reg_chip_mv88e6352_tc_disable n u) regs,
    reg_chip_avb_tc_disable n u _ _ _ rfl (reg_chip_mv88e6352_tc_disable n u) regs,
    reg_chip_avb_tc_disable n u _ _ _ rfl (reg_chip_mv88e6390_tc_disable n u) regs,
    by decide, by decide⟩

/-- Enable of a policy and then disable on the chip with registers (three
ports, user ports 0 and 1, `CONFIG_NET_DSA_MV88E6XXX_SRP` set), evaluated: the
AVB priority-map register holds the word of the policy after enable (0x6251
for Lo 5 -> 1, Hi 6 -> 2 on the 4-queue family, 0x1504 for Lo 0 -> 4,
Hi 1 -> 5 on the 8-queue family) and the default word after disable. -/
theorem enable_then_disable_example :
    ((mv88e6xxx_avb_tc_enable true (mv88e6352_tc_ops true ⟨64, 0xffff, 0x7fff⟩)
        (reg_chip 3 (fun p => decide (p < 2)) no_fault)
        (mk_policy ⟨0, 0, 3⟩ ⟨5, 1, 0⟩ ⟨6, 2, 0⟩) (regs_all 0)).map
      fun r => (r.1, r.2.avb MV88E6XXX_AVB_CFG_AVB)) = some (0, 0x6251) ∧
    (((mv88e6xxx_avb_tc_enable true (mv88e6352_tc_ops true ⟨64, 0xffff, 0x7fff⟩)
        (reg_chip 3 (fun p => decide (p < 2)) no_fault)
        (mk_policy ⟨0, 0, 3⟩ ⟨5, 1, 0⟩ ⟨6, 2, 0⟩) (regs_all 0)).bind
      fun r => mv88e6xxx_avb_tc_disable true (mv88e6352_tc_ops true ⟨64, 0xffff, 0x7fff⟩)
        (reg_chip 3 (fun p => decide (p < 2)) no_fault) r.2).map
      fun r => (r.1, r.2.avb MV88E6XXX_AVB_CFG_AVB)) = some (0, 0x5342) ∧
    ((mv88e6xxx_avb_tc_enable true (mv88e6390_tc_ops true ⟨64, 0xffff, 0x7fff⟩)
        (reg_chip 3 (fun p => decide (p < 2)) no_fault)
        (mk_policy ⟨0, 0, 3⟩ ⟨0, 4, 0⟩ ⟨1, 5, 0⟩) (regs_all 0)).map
      fun r => (r.1, r.2.avb MV88E6XXX_AVB_CFG_AVB)) = some (0, 0x1504) ∧
    (((mv88e6xxx_avb_tc_enable true (mv88e6390_tc_ops true ⟨64, 0xffff, 0x7fff⟩)
        (reg_chip 3 (fun p => decide (p < 2)) no_fault)
        (mk_policy ⟨0, 0, 3⟩ ⟨0, 4, 0⟩ ⟨1, 5, 0⟩) (regs_all 0)).bind
      fun r => mv88e6xxx_avb_tc_disable true (mv88e6390_tc_ops true ⟨64, 0xffff, 0x7fff⟩)
        (reg_chip 3 (fun p => decide (p < 2)) no_fault) r.2).map
      fun r => (r.1, r.2.avb MV88E6XXX_AVB_CFG_AVB)) = some (0, 0x3726) := by
  decide

/-! ### Complements -/

/-- With `CONFIG_NET_DSA_MV88E6XXX_SRP` set and no handler for per-port AVB
writes, `mv88e6xxx_avb_set_avb_mode` returns `-EOPNOTSUPP` at the first user
port, and 0 when the chip has no user port; the state is left as it was. -/
theorem set_avb_mode_without_handler {σ : Type} (chip : mv88e6xxx_chip σ) (enable : Bool)
    (s : σ) (hh : chip.avb_ops.port_avb_write = none) :
    mv88e6xxx_avb_set_avb_mode true chip enable s
      = some (if user_ports chip = [] then 0 else -EOPNOTSUPP, s) := by
  rw [set_avb_mode_eq_run_ports]
  cases hu : user_ports chip with
  | nil => simp [run_ports]
  | cons p ps => simp [run_ports, mv88e6xxx_port_avb_write, hh, EOPNOTSUPP]

/-! ### The global hi-limit -/

/-- What `mv88e6xxx_avb_set_hilimit` does on any chip: a hi-limit above the mask
0x7ff is refused with `-EINVAL`, the state left as it was; otherwise a failing
read ends the routine with its error, and after a read that succeeds the
routine returns what the write of `hilimit` itself returns, the word read
playing no part in the word written. -/
theorem avb_set_hilimit_eq {σ : Type} (chip : mv88e6xxx_chip σ) (hilimit : Nat) (s : σ) :
    (0x7ff < to_u16 hilimit → mv88e6xxx_avb_set_hilimit chip hilimit s = (-EINVAL, s)) ∧
    (to_u16 hilimit ≤ 0x7ff → ∀ e d s1, mv88e6xxx_avb_read chip MV88E6XXX_AVB_CFG_HI_LIMIT s
        = (e, d, s1) →
      (e ≠ 0 → mv88e6xxx_avb_set_hilimit chip hilimit s = (e, s1)) ∧
      (e = 0 → mv88e6xxx_avb_set_hilimit chip hilimit s
        = mv88e6xxx_avb_write chip MV88E6XXX_AVB_CFG_HI_LIMIT (to_u16 hilimit) s1)) := by
  have hmask : MV88E6XXX_AVB_CFG_HI_LIMIT_MASK = 0x7ff := by decide
  refine ⟨?_, ?_⟩
  · intro h
    simp [mv88e6xxx_avb_set_hilimit, hmask, h]
  · intro h e d s1 hr
    have hn : ¬ (to_u16 hilimit > 0x7ff) := by omega
    constructor
    · intro he
      simp [mv88e6xxx_avb_set_hilimit, hmask, hn, hr, he]
    · intro he
      subst he
      simp only [mv88e6xxx_avb_set_hilimit, hmask, hn, hr, if_false, ne_eq, not_true_eq_false]
      by_cases h0 : (mv88e6xxx_avb_write chip MV88E6XXX_AVB_CFG_HI_LIMIT (to_u16 hilimit) s1).1 = 0
      · simp only [h0, not_true_eq_false, if_false]
        rw [← h0]
      · simp only [h0, not_false_eq_true, if_true]

/-- C21: on the chip with registers whose hi-limit register holds 0xf800,
`mv88e6xxx_avb_set_hilimit` with hi-limit 5 reads the register, then writes 5:
the register ends as 0x0005, its bits 15:11 cleared, whereas the word the
routine computed, the word read with its bits 10:0 replaced by the hi-limit, is
0xf805. A hi-limit of 0x800 is refused with `-EINVAL` before any access. -/
theorem avb_set_hilimit_writes_unmasked :
    (fun r : Int × (hw_regs × List hw_event) =>
        (r.1, r.2.1.avb MV88E6XXX_AVB_CFG_HI_LIMIT, r.2.2))
        (mv88e6xxx_avb_set_hilimit (traced (reg_chip 3 (fun p => decide (p < 2)) no_fault)) 5
          (regs_all 0xf800, []))
      = (0, 0x0005, [⟨.avb_read 8, 0⟩, ⟨.avb_write 8 5, 0⟩]) ∧
    hilimit_word 0xf800 5 = 0xf805 ∧
    (0x0005 &&& 0xf800 = 0 ∧ 0xf805 &&& 0xf800 = 0xf800) ∧
    (fun r : Int × (hw_regs × List hw_event) =>
        (r.1, r.2.1.avb MV88E6XXX_AVB_CFG_HI_LIMIT, r.2.2))
        (mv88e6xxx_avb_set_hilimit (traced (reg_chip 3 (fun p => decide (p < 2)) no_fault))
          0x800 (regs_all 0xf800, []))
      = (-22, 0xf800, []) := by
  decide

/-! ### The packing of the priority maps -/

theorem pri_map_roundtrip_6352_aux :
    ∀ (hf : Fin 8) (hq : Fin 4) (lf : Fin 8) (lq : Fin 4),
      FIELD_GET MV88E6XXX_AVB_CFG_AVB_HI_FPRI_MASK
          (mv88e6352_avb_pri_map_to_reg (mk_policy ⟨0, 0, 0⟩ ⟨lf, lq, 0⟩ ⟨hf, hq, 0⟩).map) = hf ∧
      FIELD_GET MV88E6352_AVB_CFG_AVB_HI_QPRI_MASK
          (mv88e6352_avb_pri_map_to_reg (mk_policy ⟨0, 0, 0⟩ ⟨lf, lq, 0⟩ ⟨hf, hq, 0⟩).map) = hq ∧
      FIELD_GET MV88E6XXX_AVB_CFG_AVB_LO_FPRI_MASK
          (mv88e6352_avb_pri_map_to_reg (mk_policy ⟨0, 0, 0⟩ ⟨lf, lq, 0⟩ ⟨hf, hq, 0⟩).map) = lf ∧
      FIELD_GET MV88E6352_AVB_CFG_AVB_LO_QPRI_MASK
          (mv88e6352_avb_pri_map_to_reg (mk_policy ⟨0, 0, 0⟩ ⟨lf, lq, 0⟩ ⟨hf, hq, 0⟩).map) = lq ∧
      mv88e6352_avb_pri_map_to_reg (mk_policy ⟨0, 0, 0⟩ ⟨lf, lq, 0⟩ ⟨hf, hq, 0⟩).map &&&
          (0xffff ^^^ (MV88E6XXX_AVB_CFG_AVB_HI_FPRI_MASK ||| MV88E6352_AVB_CFG_AVB_HI_QPRI_MASK |||
            MV88E6XXX_AVB_CFG_AVB_LO_FPRI_MASK ||| MV88E6352_AVB_CFG_AVB_LO_QPRI_MASK)) = 0 := by
  decide

theorem pri_map_roundtrip_6390_aux :
    ∀ (hf : Fin 8) (hq : Fin 8) (lf : Fin 8) (lq : Fin 8),
      FIELD_GET MV88E6XXX_AVB_CFG_AVB_HI_FPRI_MASK
          (mv88e6390_avb_pri_map_to_reg (mk_policy ⟨0, 0, 0⟩ ⟨lf, lq, 0⟩ ⟨hf, hq, 0⟩).map) = hf ∧
      FIELD_GET MV88E6390_AVB_CFG_AVB_HI_QPRI_MASK
          (mv88e6390_avb_pri_map_to_reg (mk_policy ⟨0, 0, 0⟩ ⟨lf, lq, 0⟩ ⟨hf, hq, 0⟩).map) = hq ∧
      FIELD_GET MV88E6XXX_AVB_CFG_AVB_LO_FPRI_MASK
          (mv88e6390_avb_pri_map_to_reg (mk_policy ⟨0, 0, 0⟩ ⟨lf, lq, 0⟩ ⟨hf, hq, 0⟩).map) = lf ∧
      FIELD_GET MV88E6390_AVB_CFG_AVB_LO_QPRI_MASK
          (mv88e6390_avb_pri_map_to_reg (mk_policy ⟨0, 0, 0⟩ ⟨lf, lq, 0⟩ ⟨hf, hq, 0⟩).map) = lq ∧
      mv88e6390_avb_pri_map_to_reg (mk_policy ⟨0, 0, 0⟩ ⟨lf, lq, 0⟩ ⟨hf, hq, 0⟩).map &&&
          (0xffff ^^^ (MV88E6XXX_AVB_CFG_AVB_HI_FPRI_MASK ||| MV88E6390_AVB_CFG_AVB_HI_QPRI_MASK |||
            MV88E6XXX_AVB_CFG_AVB_LO_FPRI_MASK ||| MV88E6390_AVB_CFG_AVB_LO_QPRI_MASK)) = 0 := by
  decide


/-- C22: for every map whose Lo and Hi frame priorities are below 8, the four
`*_GET` extractions from the word that `mv88e6352_avb_pri_map_to_reg` packs,
when the two queue priorities are below 4, and from the word that
`mv88e6390_avb_pri_map_to_reg` packs, when they are below 8, return the Hi frame
priority, the Hi queue priority, the Lo frame priority and the Lo queue
priority of the map, and the word has no bit set outside the four fields. The
four field masks of each family are pairwise disjoint. -/
theorem pri_map_to_reg_fields_roundtrip (map : Fin 3 → mv88e6xxx_avb_priority_map)
    (hhf : (map MV88E6XXX_AVB_TC_HI).fpri < 8) (hlf : (map MV88E6XXX_AVB_TC_LO).fpri < 8) :
    ((map MV88E6XXX_AVB_TC_HI).qpri < 4 → (map MV88E6XXX_AVB_TC_LO).qpri < 4 →
      FIELD_GET MV88E6XXX_AVB_CFG_AVB_HI_FPRI_MASK (mv88e6352_avb_pri_map_to_reg map)
        = (map MV88E6XXX_AVB_TC_HI).fpri ∧
      FIELD_GET MV88E6352_AVB_CFG_AVB_HI_QPRI_MASK (mv88e6352_avb_pri_map_to_reg map)
        = (map MV88E6XXX_AVB_TC_HI).qpri ∧
      FIELD_GET MV88E6XXX_AVB_CFG_AVB_LO_FPRI_MASK (mv88e6352_avb_pri_map_to_reg map)
        = (map MV88E6XXX_AVB_TC_LO).fpri ∧
      FIELD_GET MV88E6352_AVB_CFG_AVB_LO_QPRI_MASK (mv88e6352_avb_pri_map_to_reg map)
        = (map MV88E6XXX_AVB_TC_LO).qpri ∧
      mv88e6352_avb_pri_map_to_reg map &&&
        (0xffff ^^^ (MV88E6XXX_AVB_CFG_AVB_HI_FPRI_MASK ||| MV88E6352_AVB_CFG_AVB_HI_QPRI_MASK |||
          MV88E6XXX_AVB_CFG_AVB_LO_FPRI_MASK ||| MV88E6352_AVB_CFG_AVB_LO_QPRI_MASK)) = 0) ∧
    ((map MV88E6XXX_AVB_TC_HI).qpri < 8 → (map MV88E6XXX_AVB_TC_LO).qpri < 8 →
      FIELD_GET MV88E6XXX_AVB_CFG_AVB_HI_FPRI_MASK (mv88e6390_avb_pri_map_to_reg map)
        = (map MV88E6XXX_AVB_TC_HI).fpri ∧
      FIELD_GET MV88E6390_AVB_CFG_AVB_HI_QPRI_MASK (mv88e6390_avb_pri_map_to_reg map)
        = (map MV88E6XXX_AVB_TC_HI).qpri ∧
      FIELD_GET MV88E6XXX_AVB_CFG_AVB_LO_FPRI_MASK (mv88e6390_avb_pri_map_to_reg map)
        = (map MV88E6XXX_AVB_TC_LO).fpri ∧
      FIELD_GET MV88E6390_AVB_CFG_AVB_LO_QPRI_MASK (mv88e6390_avb_pri_map_to_reg map)
        = (map MV88E6XXX_AVB_TC_LO).qpri ∧
      mv88e6390_avb_pri_map_to_reg map &&&
        (0xffff ^^^ (MV88E6XXX_AVB_CFG_AVB_HI_FPRI_MASK ||| MV88E6390_AVB_CFG_AVB_HI_QPRI_MASK |||
          MV88E6XXX_AVB_CFG_AVB_LO_FPRI_MASK ||| MV88E6390_AVB_CFG_AVB_LO_QPRI_MASK)) = 0) ∧
    List.Pairwise (fun a b => a &&& b = 0)
      [MV88E6XXX_AVB_CFG_AVB_HI_FPRI_MASK, MV88E6352_AVB_CFG_AVB_HI_QPRI_MASK,
        MV88E6XXX_AVB_CFG_AVB_LO_FPRI_MASK, MV88E6352_AVB_CFG_AVB_LO_QPRI_MASK] ∧
    List.Pairwise (fun a b => a &&& b = 0)
      [MV88E6XXX_AVB_CFG_AVB_HI_FPRI_MASK, MV88E6390_AVB_CFG_AVB_HI_QPRI_MASK,
        MV88E6XXX_AVB_CFG_AVB_LO_FPRI_MASK, MV88E6390_AVB_CFG_AVB_LO_QPRI_MASK] := by
  refine ⟨?_, ?_, by decide, by decide⟩
  · intro hhq hlq
    exact pri_map_roundtrip_6352_aux ⟨_, hhf⟩ ⟨_, hhq⟩ ⟨_, hlf⟩ ⟨_, hlq⟩
  · intro hhq hlq
    exact pri_map_roundtrip_6390_aux ⟨_, hhf⟩ ⟨_, hhq⟩ ⟨_, hlf⟩ ⟨_, hlq⟩


/-- Witness of C22: the map Hi 7 -> 3, Lo 6 -> 1 for the 4-queue packing and
the map Hi 7 -> 7, Lo 6 -> 5 for the 8-queue packing. -/
theorem pri_map_to_reg_fields_roundtrip_witness :
    (FIELD_GET MV88E6XXX_AVB_CFG_AVB_HI_FPRI_MASK
        (mv88e6352_avb_pri_map_to_reg (mk_policy ⟨0, 0, 8⟩ ⟨6, 1, 0⟩ ⟨7, 3, 0⟩).map) = 7 ∧
      FIELD_GET MV88E6352_AVB_CFG_AVB_HI_QPRI_MASK
        (mv88e6352_avb_pri_map_to_reg (mk_policy ⟨0, 0, 8⟩ ⟨6, 1, 0⟩ ⟨7, 3, 0⟩).map) = 3 ∧
      FIELD_GET MV88E6XXX_AVB_CFG_AVB_LO_FPRI_MASK
        (mv88e6352_avb_pri_map_to_reg (mk_policy ⟨0, 0, 8⟩ ⟨6, 1, 0⟩ ⟨7, 3, 0⟩).map) = 6 ∧
      FIELD_GET MV88E6352_AVB_CFG_AVB_LO_QPRI_MASK
        (mv88e6352_avb_pri_map_to_reg (mk_policy ⟨0, 0, 8⟩ ⟨6, 1, 0⟩ ⟨7, 3, 0⟩).map) = 1 ∧
      mv88e6352_avb_pri_map_to_reg (mk_policy ⟨0, 0, 8⟩ ⟨6, 1, 0⟩ ⟨7, 3, 0⟩).map &&&
        (0xffff ^^^ (MV88E6XXX_AVB_CFG_AVB_HI_FPRI_MASK ||| MV88E6352_AVB_CFG_AVB_HI_QPRI_MASK |||
          MV88E6XXX_AVB_CFG_AVB_LO_FPRI_MASK ||| MV88E6352_AVB_CFG_AVB_LO_QPRI_MASK)) = 0) ∧
    (FIELD_GET MV88E6XXX_AVB_CFG_AVB_HI_FPRI_MASK
        (mv88e6390_avb_pri_map_to_reg (mk_policy ⟨0, 0, 8⟩ ⟨6, 5, 0⟩ ⟨7, 7, 0⟩).map) = 7 ∧
      FIELD_GET MV88E6390_AVB_CFG_AVB_HI_QPRI_MASK
        (mv88e6390_avb_pri_map_to_reg (mk_policy ⟨0, 0, 8⟩ ⟨6, 5, 0⟩ ⟨7, 7, 0⟩).map) = 7 ∧
      FIELD_GET MV88E6XXX_AVB_CFG_AVB_LO_FPRI_MASK
        (mv88e6390_avb_pri_map_to_reg (mk_policy ⟨0, 0, 8⟩ ⟨6, 5, 0⟩ ⟨7, 7, 0⟩).map) = 6 ∧
      FIELD_GET MV88E6390_AVB_CFG_AVB_LO_QPRI_MASK
        (mv88e6390_avb_pri_map_to_reg (mk_policy ⟨0, 0, 8⟩ ⟨6, 5, 0⟩ ⟨7, 7, 0⟩).map) = 5 ∧
      mv88e6390_avb_pri_map_to_reg (mk_policy ⟨0, 0, 8⟩ ⟨6, 5, 0⟩ ⟨7, 7, 0⟩).map &&&
        (0xffff ^^^ (MV88E6XXX_AVB_CFG_AVB_HI_FPRI_MASK ||| MV88E6390_AVB_CFG_AVB_HI_QPRI_MASK |||
          MV88E6XXX_AVB_CFG_AVB_LO_FPRI_MASK ||| MV88E6390_AVB_CFG_AVB_LO_QPRI_MASK)) = 0) :=
  ⟨(pri_map_to_reg_fields_roundtrip (mk_policy ⟨0, 0, 8⟩ ⟨6, 1, 0⟩ ⟨7, 3, 0⟩).map
      (by decide) (by decide)).1 (by decide) (by decide),
    (pri_map_to_reg_fields_roundtrip (mk_policy ⟨0, 0, 8⟩ ⟨6, 5, 0⟩ ⟨7, 7, 0⟩).map
      (by decide) (by decide)).2.1 (by decide) (by decide)⟩

/-- The packings evaluated: Hi 7 -> 3, Lo 6 -> 1 packs to 0x7361 on the 4-queue
families and Hi 7 -> 7, Lo 6 -> 5 to 0x7765 on the 8-queue family; the fields
cover 0x7373 and 0x7777 of the word. A queue priority beyond the field is cut to
the field: Hi queue 5 on the 4-queue families packs as queue 1. -/
theorem pri_map_to_reg_examples :
    mv88e6352_avb_pri_map_to_reg (mk_policy ⟨0, 0, 8⟩ ⟨6, 1, 0⟩ ⟨7, 3, 0⟩).map = 0x7361 ∧
    mv88e6390_avb_pri_map_to_reg (mk_policy ⟨0, 0, 8⟩ ⟨6, 5, 0⟩ ⟨7, 7, 0⟩).map = 0x7765 ∧
    (MV88E6XXX_AVB_CFG_AVB_HI_FPRI_MASK ||| MV88E6352_AVB_CFG_AVB_HI_QPRI_MASK |||
      MV88E6XXX_AVB_CFG_AVB_LO_FPRI_MASK ||| MV88E6352_AVB_CFG_AVB_LO_QPRI_MASK) = 0x7373 ∧
    (MV88E6XXX_AVB_CFG_AVB_HI_FPRI_MASK ||| MV88E6390_AVB_CFG_AVB_HI_QPRI_MASK |||
      MV88E6XXX_AVB_CFG_AVB_LO_FPRI_MASK ||| MV88E6390_AVB_CFG_AVB_LO_QPRI_MASK) = 0x7777 ∧
    FIELD_GET MV88E6352_AVB_CFG_AVB_HI_QPRI_MASK
      (mv88e6352_avb_pri_map_to_reg (mk_policy ⟨0, 0, 8⟩ ⟨6, 1, 0⟩ ⟨7, 5, 0⟩).map) = 1 := by
  decide

/-! ### The isochronous pointer reservation -/

theorem iso_ptr_mask_eq : MV88E6XXX_QAV_CFG_GLOBAL_ISO_PTR_MASK = 2 ^ 10 - 1 ∧
    bf_shf MV88E6XXX_QAV_CFG_GLOBAL_ISO_PTR_MASK = 0 ∧
    0xffff ^^^ MV88E6XXX_QAV_CFG_GLOBAL_ISO_PTR_MASK = (2 ^ 6 - 1) <<< 10 := by
  decide

/-- The bits of the word that `mv88e6xxx_qav_set_iso_ptr` computes from the word
read `d` and the threshold `t`: the bits 9:0 are those of `t`, the bits 15:10
those of `d`, and no bit above is set. -/
theorem iso_ptr_word_testBit (d t i : Nat) :
    (iso_ptr_word d t).testBit i =
      if i < 10 then t.testBit i else if i < 16 then d.testBit i else false := by
  obtain ⟨hm, hs, hx⟩ := iso_ptr_mask_eq
  have h16 : (65536 : Nat) = 2 ^ 16 := by norm_num
  unfold iso_ptr_word FIELD_PREP to_u16
  rw [hx, hs, hm, h16, Nat.shiftLeft_zero, Nat.testBit_mod_two_pow, Nat.testBit_or,
    Nat.testBit_and, Nat.testBit_and, Nat.testBit_shiftLeft, Nat.testBit_two_pow_sub_one,
    Nat.testBit_two_pow_sub_one, Nat.testBit_mod_two_pow, Nat.testBit_mod_two_pow]
  by_cases h1 : i < 10
  · have h2 : i < 16 := by omega
    have h3 : ¬ (i ≥ 10) := by omega
    simp [h1, h2, h3]
  · by_cases h2 : i < 16
    · have h3 : i ≥ 10 := by omega
      have h4 : i - 10 < 6 := by omega
      simp [h1, h2, h3, h4]
    · simp [h1, h2]

/-- The word as a number: the part of `d` above the pointer field, and
`t mod 1024` in the field. -/
theorem iso_ptr_word_eq (d t : Nat) :
    iso_ptr_word d t = d % 65536 / 1024 * 1024 + t % 1024 := by
  have hlt : t % 1024 < 2 ^ 10 := by omega
  have h : d % 65536 / 1024 * 1024 + t % 1024 = 2 ^ 10 * (d % 65536 / 1024) ||| t % 1024 := by
    rw [← Nat.mul_add_lt_is_or hlt]
    omega
  rw [h]
  apply Nat.eq_of_testBit_eq
  intro i
  have h16 : (65536 : Nat) = 2 ^ 16 := by norm_num
  have h10 : (1024 : Nat) = 2 ^ 10 := by norm_num
  rw [iso_ptr_word_testBit, h16, h10, Nat.testBit_or, Nat.testBit_mul_pow_two,
    Nat.testBit_mod_two_pow, ← Nat.shiftRight_eq_div_pow, Nat.testBit_shiftRight,
    Nat.testBit_mod_two_pow]
  by_cases h1 : i < 10
  · have h3 : ¬ (i ≥ 10) := by omega
    simp [h1, h3]
  · by_cases h2 : i < 16
    · have h3 : i ≥ 10 := by omega
      have h4 : 10 + (i - 10) = i := by omega
      simp [h1, h2, h3, h4]
    · have h3 : i ≥ 10 := by omega
      have h4 : 10 + (i - 10) = i := by omega
      simp [h1, h2, h3, h4]

/-- The pointer field of the word holds `t mod 1024`. -/
theorem iso_ptr_word_field (d t : Nat) :
    FIELD_GET MV88E6XXX_QAV_CFG_GLOBAL_ISO_PTR_MASK (iso_ptr_word d t) = t % 1024 := by
  obtain ⟨hm, hs, _⟩ := iso_ptr_mask_eq
  unfold FIELD_GET
  rw [hs, hm, Nat.shiftRight_zero, Nat.and_pow_two_sub_one_eq_mod, iso_ptr_word_eq]
  omega

/-- The admit-management bit of the word is that of the word read. -/
theorem iso_ptr_word_admit_mgmt (d t : Nat) :
    iso_ptr_word d t &&& MV88E6XXX_QAV_CFG_ADMIT_MGMT = d &&& MV88E6XXX_QAV_CFG_ADMIT_MGMT := by
  apply Nat.eq_of_testBit_eq
  intro i
  have h : MV88E6XXX_QAV_CFG_ADMIT_MGMT = 2 ^ 15 := by decide
  rw [Nat.testBit_and, Nat.testBit_and, iso_ptr_word_testBit, h, Nat.testBit_two_pow]
  by_cases h1 : i = 15
  · subst h1; simp
  · have : ¬ (15 = i) := fun h => h1 h.symm
    simp [this]

/-- After a read of the Qav configuration word that succeeds with the word `d`,
`mv88e6xxx_qav_set_iso_ptr` returns what the write of `iso_ptr_word d t` to
that register returns; a read that fails ends the routine with its error and
no write. -/
theorem qav_set_iso_ptr_eq {σ : Type} (chip : mv88e6xxx_chip σ) (t : Nat) (s s1 : σ) (e : Int)
    (d : Nat) (hr : mv88e6xxx_qav_read chip MV88E6XXX_QAV_CFG s = some (e, d, s1)) :
    (e ≠ 0 → mv88e6xxx_qav_set_iso_ptr chip t s = some (e, s1)) ∧
    (e = 0 → mv88e6xxx_qav_set_iso_ptr chip t s
      = mv88e6xxx_qav_write chip MV88E6XXX_QAV_CFG (iso_ptr_word d t) s1) := by
  constructor
  · intro he
    simp [mv88e6xxx_qav_set_iso_ptr, hr, he]
  · intro he
    subst he
    simp [mv88e6xxx_qav_set_iso_ptr, hr, iso_ptr_word]

/-- Enable from its second step on: after an ATU marking that succeeds, enable
is the pointer reservation with the threshold `num_ports << 6`, followed when it
succeeds by the family traffic-class enable and the per-port mode. -/
theorem avb_tc_enable_from_iso_ptr {σ : Type} (ops : mv88e6xxx_tc_ops σ)
    (chip : mv88e6xxx_chip σ) (policy : mv88e6xxx_avb_tc_policy) (s s1 : σ)
    (h1 : chip.g1_atu_set_mac_avb true s = (0, s1)) :
    mv88e6xxx_avb_tc_enable true ops chip policy s =
      (mv88e6xxx_qav_set_iso_ptr chip (chip.num_ports * 64) s1).bind fun p =>
        if p.1 ≠ 0 then some p
        else (mv88e6xxx_tc_enable ops chip policy p.2).bind fun t =>
          if t.1 ≠ 0 then some t else mv88e6xxx_avb_set_avb_mode true chip true t.2 := by
  have hsh : chip.num_ports <<< 6 = chip.num_ports * 64 := by
    rw [Nat.shiftLeft_eq]
  simp only [mv88e6xxx_avb_tc_enable, h1, hsh, if_true, ne_eq, not_true_eq_false, if_false]
  cases mv88e6xxx_qav_set_iso_ptr chip (chip.num_ports * 64) s1 with
  | none => rfl
  | some p =>
    simp only [Option.bind]
    by_cases hp : p.1 = 0
    · simp only [hp, not_true_eq_false, if_false]
      cases mv88e6xxx_tc_enable ops chip policy p.2 with
      | none => rfl
      | some t =>
        simp only []
        by_cases ht : t.1 = 0
        · simp only [ht, not_true_eq_false, if_false]
          cases hm : mv88e6xxx_avb_set_avb_mode true chip true t.2 with
          | none => rfl
          | some m =>
            by_cases h0 : m.1 = 0
            · simp only [h0, not_true_eq_false, if_false]
              rw [← h0]
            · simp only [h0, not_false_eq_true, if_true]
        · simp only [ht, not_false_eq_true, if_true]
    · simp only [hp, not_false_eq_true, if_true]

/-- Disable from its third step on: after a per-port mode and a family
traffic-class disable that succeed, disable is the pointer reservation with the
threshold 0, followed when it succeeds by the clearing of the ATU marking. -/
theorem avb_tc_disable_from_iso_ptr {σ : Type} (ops : mv88e6xxx_tc_ops σ)
    (chip : mv88e6xxx_chip σ) (s s1 s2 : σ)
    (h1 : mv88e6xxx_avb_set_avb_mode true chip false s = some (0, s1))
    (h2 : mv88e6xxx_tc_disable ops chip s1 = (0, s2)) :
    mv88e6xxx_avb_tc_disable true ops chip s =
      (mv88e6xxx_qav_set_iso_ptr chip 0 s2).bind fun p =>
        if p.1 ≠ 0 then some p else some (chip.g1_atu_set_mac_avb false p.2) := by
  simp only [mv88e6xxx_avb_tc_disable, h1, h2, if_true, ne_eq, not_true_eq_false, if_false]
  cases mv88e6xxx_qav_set_iso_ptr chip 0 s2 with
  | none => rfl
  | some p =>
    simp only [Option.bind]
    by_cases hp : p.1 = 0
    · simp only [hp, not_true_eq_false, if_false]
      by_cases h0 : (chip.g1_atu_set_mac_avb false p.2).1 = 0
      · simp only [h0, not_true_eq_false, if_false]
        rw [← h0]
      · simp only [h0, not_false_eq_true, if_true]
    · simp only [hp, not_false_eq_true, if_true]


/-- C23: when the read of the global Qav configuration word succeeds with the
word `d`, `mv88e6xxx_qav_set_iso_ptr` with any threshold `t` writes to that
register the word `iso_ptr_word d t`, which is `d` with the bits 9:0 replaced
by `t mod 1024`: its bits 15:10 are those of `d`, among them the
admit-management bit 0x8000, and its pointer field reads `t mod 1024`. With
`CONFIG_NET_DSA_MV88E6XXX_SRP` set, enable runs it after the ATU marking with
the threshold `num_ports * 64` and disable runs it after the family disable
with the threshold 0, so the word written has the pointer field
`64 * num_ports` on a chip with fewer than 16 ports, and 0 at disable. -/
theorem qav_set_iso_ptr_replaces_pointer_field {σ : Type} (chip : mv88e6xxx_chip σ) (d : Nat)
    (s s1 : σ) (hr : mv88e6xxx_qav_read chip MV88E6XXX_QAV_CFG s = some (0, d, s1)) :
    (∀ t, mv88e6xxx_qav_set_iso_ptr chip t s
      = mv88e6xxx_qav_write chip MV88E6XXX_QAV_CFG (iso_ptr_word d t) s1) ∧
    (∀ t, iso_ptr_word d t = d % 65536 / 1024 * 1024 + t % 1024) ∧
    (∀ t i, (iso_ptr_word d t).testBit i =
      if i < 10 then (t % 1024).testBit i else if i < 16 then d.testBit i else false) ∧
    (∀ t, iso_ptr_word d t &&& MV88E6XXX_QAV_CFG_ADMIT_MGMT
      = d &&& MV88E6XXX_QAV_CFG_ADMIT_MGMT) ∧
    (∀ t, FIELD_GET MV88E6XXX_QAV_CFG_GLOBAL_ISO_PTR_MASK (iso_ptr_word d t) = t % 1024) ∧
    (∀ ops policy s0, chip.g1_atu_set_mac_avb true s0 = (0, s) →
      mv88e6xxx_avb_tc_enable true ops chip policy s0 =
        (mv88e6xxx_qav_write chip MV88E6XXX_QAV_CFG
            (iso_ptr_word d (chip.num_ports * 64)) s1).bind fun p =>
          if p.1 ≠ 0 then some p
          else (mv88e6xxx_tc_enable ops chip policy p.2).bind fun t =>
            if t.1 ≠ 0 then some t else mv88e6xxx_avb_set_avb_mode true chip true t.2) ∧
    (∀ ops s0 s0', mv88e6xxx_avb_set_avb_mode true chip false s0 = some (0, s0') →
      mv88e6xxx_tc_disable ops chip s0' = (0, s) →
      mv88e6xxx_avb_tc_disable true ops chip s0 =
        (mv88e6xxx_qav_write chip MV88E6XXX_QAV_CFG (iso_ptr_word d 0) s1).bind fun p =>
          if p.1 ≠ 0 then some p else some (chip.g1_atu_set_mac_avb false p.2)) ∧
    (chip.num_ports < 16 →
      FIELD_GET MV88E6XXX_QAV_CFG_GLOBAL_ISO_PTR_MASK (iso_ptr_word d (chip.num_ports * 64))
        = 64 * chip.num_ports) ∧
    FIELD_GET MV88E6XXX_QAV_CFG_GLOBAL_ISO_PTR_MASK (iso_ptr_word d 0) = 0 := by
  have hw : ∀ t, mv88e6xxx_qav_set_iso_ptr chip t s
      = mv88e6xxx_qav_write chip MV88E6XXX_QAV_CFG (iso_ptr_word d t) s1 :=
    fun t => (qav_set_iso_ptr_eq chip t s s1 0 d hr).2 rfl
  refine ⟨hw, iso_ptr_word_eq d, ?_, iso_ptr_word_admit_mgmt d, iso_ptr_word_field d, ?_, ?_,
    ?_, ?_⟩
  · intro t i
    rw [iso_ptr_word_testBit]
    by_cases h1 : i < 10
    · have h10 : (1024 : Nat) = 2 ^ 10 := by norm_num
      rw [h10, Nat.testBit_mod_two_pow]
      simp [h1]
    · simp [h1]
  · intro ops policy s0 h1
    rw [avb_tc_enable_from_iso_ptr ops chip policy s0 s h1, hw]
  · intro ops s0 s0' h1 h2
    rw [avb_tc_disable_from_iso_ptr ops chip s0 s0' s h1 h2, hw]
  · intro hn
    rw [iso_ptr_word_field]
    omega
  · rw [iso_ptr_word_field]

/-- Witness of C23: the chip with registers, three ports, every register
holding 0xffff. The word written with the threshold 192 is 0xfcc0, the bits
15:10 still set, and the pointer field of the word that enable writes is
192 = 64 * 3. -/
theorem qav_set_iso_ptr_replaces_pointer_field_witness :
    mv88e6xxx_qav_read (reg_chip 3 (fun p => decide (p < 2)) no_fault) MV88E6XXX_QAV_CFG
        (regs_all 0xffff) = some (0, 0xffff, regs_all 0xffff) ∧
    mv88e6xxx_qav_set_iso_ptr (reg_chip 3 (fun p => decide (p < 2)) no_fault) 192
        (regs_all 0xffff)
      = mv88e6xxx_qav_write (reg_chip 3 (fun p => decide (p < 2)) no_fault) MV88E6XXX_QAV_CFG
          (iso_ptr_word 0xffff 192) (regs_all 0xffff) ∧
    iso_ptr_word 0xffff 192 = 0xfcc0 ∧
    iso_ptr_word 0xffff 192 &&& MV88E6XXX_QAV_CFG_ADMIT_MGMT = 0x8000 ∧
    FIELD_GET MV88E6XXX_QAV_CFG_GLOBAL_ISO_PTR_MASK (iso_ptr_word 0xffff (3 * 64)) = 64 * 3 ∧
    FIELD_GET MV88E6XXX_QAV_CFG_GLOBAL_ISO_PTR_MASK (iso_ptr_word 0xffff 0) = 0 :=
  ⟨rfl,
    (qav_set_iso_ptr_replaces_pointer_field (reg_chip 3 (fun p => decide (p < 2)) no_fault)
      0xffff (regs_all 0xffff) (regs_all 0xffff) rfl).1 192,
    (qav_set_iso_ptr_replaces_pointer_field (reg_chip 3 (fun p => decide (p < 2)) no_fault)
      0xffff (regs_all 0xffff) (regs_all 0xffff) rfl).2.1 192,
    (qav_set_iso_ptr_replaces_pointer_field (reg_chip 3 (fun p => decide (p < 2)) no_fault)
      0xffff (regs_all 0xffff) (regs_all 0xffff) rfl).2.2.2.1 192,
    (qav_set_iso_ptr_replaces_pointer_field (reg_chip 3 (fun p => decide (p < 2)) no_fault)
      0xffff (regs_all 0xffff) (regs_all 0xffff) rfl).2.2.2.2.2.2.2.1 (by decide),
    (qav_set_iso_ptr_replaces_pointer_field (reg_chip 3 (fun p => decide (p < 2)) no_fault)
      0xffff (regs_all 0xffff) (regs_all 0xffff) rfl).2.2.2.2.2.2.2.2⟩

/-- The pointer reservation on the chip with registers whose registers all
hold 0xffff (three ports, user ports 0 and 1, table of the 6352 family,
`CONFIG_NET_DSA_MV88E6XXX_SRP` set), evaluated: the routine with the threshold
0x7c5 reads the register and writes 0xffc5; enable writes 0xfcc0 to the
register, pointer field 192, and disable writes 0xfc00, pointer field 0. A
failing read ends the routine with no write. With 16 ports the threshold 1024
does not fit the field, which is written as 0. -/
theorem qav_set_iso_ptr_example :
    outcome (mv88e6xxx_qav_set_iso_ptr (traced (reg_chip 3 (fun p => decide (p < 2)) no_fault))
        0x7c5 (regs_all 0xffff, []))
      = some (0, [⟨.qav_read 0, 0⟩, ⟨.qav_write 0 0xffc5, 0⟩]) ∧
    outcome (mv88e6xxx_qav_set_iso_ptr
        (traced (reg_chip 3 (fun p => decide (p < 2)) (fault_at (.qav_read 0) (-5))))
        0x7c5 (regs_all 0xffff, []))
      = some (-5, [⟨.qav_read 0, -5⟩]) ∧
    (outcome (mv88e6xxx_avb_tc_enable true (mv88e6352_tc_ops true ⟨64, 0xffff, 0x7fff⟩)
        (traced (reg_chip 3 (fun p => decide (p < 2)) no_fault))
        (mk_policy ⟨0, 0, 3⟩ ⟨4, 2, 0⟩ ⟨5, 3, 0⟩) (regs_all 0xffff, []))).map
        (fun r => (r.1, r.2.take 3))
      = some (0, [⟨.atu_set_mac_avb true, 0⟩, ⟨.qav_read 0, 0⟩, ⟨.qav_write 0 0xfcc0, 0⟩]) ∧
    (outcome (mv88e6xxx_avb_tc_disable true (mv88e6352_tc_ops true ⟨64, 0xffff, 0x7fff⟩)
        (traced (reg_chip 3 (fun p => decide (p < 2)) no_fault)) (regs_all 0xffff, []))).map
        (fun r => (r.1, r.2.drop 4))
      = some (0, [⟨.qav_read 0, 0⟩, ⟨.qav_write 0 0xfc00, 0⟩, ⟨.atu_set_mac_avb false, 0⟩]) ∧
    outcome (mv88e6xxx_qav_set_iso_ptr (traced (reg_chip 16 (fun p => decide (p < 2)) no_fault))
        (16 * 64) (regs_all 0xffff, []))
      = some (0, [⟨.qav_read 0, 0⟩, ⟨.qav_write 0 0xfc00, 0⟩]) := by
  decide

end Mv88e6xxx
